import Mathlib

/-!
# OpenClawIntegration: the reconnecting WebSocket client

A shallow embedding of `src/assets/js/openclaw-integration.js`.

* JavaScript values that reach the client (decoded JSON, `undefined`) are `JVal`.
* A method of the class is a function from the client fields (`Client`) to an
  `Outcome`: the fields afterwards, the effects it performed on its collaborators
  (console, `WebSocket`, `setTimeout`, `agentManager`, DOM) in program order, and
  the exception it raised, if any.
* The browser side (sockets with their ready state, pending timers, the order of
  events) is the `World`; `step` delivers one event to the handlers the class
  installed.
* A number is given by its rational value. The sums the dashboard and CostAlerts
  compare with a threshold are rounded as doubles are (`JNum`, `double`), and an
  operand is read through `double` too, so that a cost may be given as its
  numeral is written.
-/

namespace OpenClaw

/-! ## Values -/

/-- A JavaScript value: `undefined` or a decoded JSON value. -/
inductive JVal where
  | undefined
  | null
  | bool (b : Bool)
  | num (q : ℚ)
  | str (s : String)
  | arr (items : List JVal)
  | obj (fields : List (String × JVal))

/-- Exceptions the embedded code can meet. -/
inductive JsError where
  | typeError
  | syntaxError
  | domException
  deriving DecidableEq, Repr

/-- Property read `v.k` for a key `k` that is not a built-in property
(`type`, `agentId`, `status`, `jobId`, `result`, `message`, `amount`, `priority`,
`success`, `error`): reading from `null` or `undefined` raises a TypeError, an
object yields the field or `undefined`, every other value yields `undefined`. -/
def JVal.prop (v : JVal) (k : String) : Except JsError JVal :=
  match v with
  | .undefined => .error .typeError
  | .null => .error .typeError
  | .obj fields => .ok ((fields.lookup k).getD .undefined)
  | _ => .ok .undefined

/-- Strict equality `v === 'lit'` against a string literal. -/
def JVal.isStr (v : JVal) (lit : String) : Bool :=
  match v with
  | .str s => s == lit
  | _ => false

/-- JavaScript truthiness (`if (v)`, `v ? a : b`). -/
def JVal.truthy : JVal → Bool
  | .undefined => false
  | .null => false
  | .bool b => b
  | .num q => q != 0
  | .str s => s != ""
  | .arr _ => true
  | .obj _ => true

mutual
/-- Can the value be converted to a string or a number (`String(v)`, `${v}`,
`v > 0`, `v + 1`)? A decoded object whose own properties include `toString` cannot:
what it holds there is not callable, and the `valueOf` it inherits returns the
object itself, so the conversion ends in a TypeError. An array is converted by
`join`, which converts every entry other than `null`. Every other value can. -/
def JVal.stringable : JVal → Bool
  | .obj fields => !fields.any (fun field => field.1 == "toString")
  | .arr items => JVal.allStringable items
  | _ => true
/-- Can every value of the list be converted to a string? -/
def JVal.allStringable : List JVal → Bool
  | [] => true
  | v :: rest => v.stringable && JVal.allStringable rest
end

/-! ## Numbers

A JavaScript number is a double. A finite one is held as its exact value, a
rational; the result of an addition, a multiplication or a division is the
exact result rounded to the nearest double, the even one of two equally near,
and an infinity once it is out of range. The sign of a zero is not kept. -/

/-- The integer nearest to `x`, the even one of two that are equally near. -/
def roundHalfEven (x : ℚ) : ℤ :=
  if x - Int.floor x < 1 / 2 then Int.floor x
  else if x - Int.floor x = 1 / 2 then
    if Int.floor x % 2 = 0 then Int.floor x else Int.floor x + 1
  else Int.floor x + 1

/-- The exponent of the last binary place of the doubles next to `x`, for `x`
other than 0: 52 below the power of two `x` lies at, and -1074 for the
subnormal numbers. -/
def ulpExponent (x : ℚ) : ℤ :=
  max (Int.log 2 |x|) (-1022) - 52

/-- The double nearest to `x`, were the exponent not bounded above: the one a
decimal literal `x` denotes when it is in range. -/
def nearestDouble (x : ℚ) : ℚ :=
  if x = 0 then 0 else (roundHalfEven (x / 2 ^ ulpExponent x) : ℚ) * 2 ^ ulpExponent x

/-- A number as the arithmetic of the page yields it: a finite double, an
infinity or NaN. -/
inductive JNum where
  | finite (q : ℚ)
  | infinite (negative : Bool)
  | nan
  deriving DecidableEq, Repr

/-- The double for the exact result `x` of an operation, and the double a number
`x` read from the data stands for (`x` itself when it is a double). -/
def double (x : ℚ) : JNum :=
  if 2 ^ 1024 ≤ |nearestDouble x| then .infinite (decide (x < 0)) else .finite (nearestDouble x)

/-- The sum `a + b` of two numbers. -/
def JNum.add : JNum → JNum → JNum
  | .finite a, .finite b => double (a + b)
  | .finite _, .infinite n => .infinite n
  | .infinite n, .finite _ => .infinite n
  | .infinite n, .infinite m => if n = m then .infinite n else .nan
  | _, _ => .nan

/-- The product `a * b` of two numbers. -/
def JNum.mul : JNum → JNum → JNum
  | .finite a, .finite b => double (a * b)
  | .finite a, .infinite n => if a = 0 then .nan else .infinite (n != decide (a < 0))
  | .infinite n, .finite b => if b = 0 then .nan else .infinite (n != decide (b < 0))
  | .infinite n, .infinite m => .infinite (n != m)
  | _, _ => .nan

/-- The quotient `a / b` of two numbers; a zero divisor counts as positive. -/
def JNum.div : JNum → JNum → JNum
  | .finite a, .finite b =>
    if b = 0 then (if a = 0 then .nan else .infinite (decide (a < 0))) else double (a / b)
  | .finite _, .infinite _ => .finite 0
  | .infinite n, .finite b => .infinite (n != decide (b < 0))
  | _, _ => .nan

/-- The comparison `a < b` of two numbers, false when one of them is NaN. -/
def JNum.lt : JNum → JNum → Bool
  | .finite a, .finite b => decide (a < b)
  | .finite _, .infinite n => !n
  | .infinite n, .finite _ => n
  | .infinite n, .infinite m => n && !m
  | _, _ => false

/-- The call `Math.round(x)`: the nearest integer, halves upwards. -/
def JNum.round : JNum → JNum
  | .finite q => .finite (Int.floor (q + 1 / 2) : ℤ)
  | x => x

/-- The finite value of a number, `none` for NaN and the infinities. -/
def JNum.toOption : JNum → Option ℚ
  | .finite q => some q
  | _ => none

/-! ## Effects -/

/-- One piece of a template literal or of a console argument list. -/
inductive Piece where
  | lit (s : String)
  | val (v : JVal)
  | nat (n : Nat)
  | capitalized (s : String)
  | err (e : JsError)
  | errorEvent

/-- Can the piece be put into a template literal? Only a value that cannot be
converted to a string stands in the way. -/
def Piece.stringable : Piece → Bool
  | .val v => v.stringable
  | _ => true

/-- A template literal with the given pieces: a TypeError when one of its values
cannot be converted to a string. -/
def template (pieces : List Piece) : Except JsError (List Piece) :=
  if pieces.all Piece.stringable then .ok pieces else .error .typeError

/-- The six event handlers of the class (lines 444-497). -/
inductive Handler where
  | updateAgentStatus
  | notifyCronExecution
  | showCostAlert
  | showSystemNotification
  | onConnectionRestored
  | showConnectionError
  deriving DecidableEq, Repr

/-- The callbacks the class hands to `setTimeout`: only `() => this.setupWebSocket()`. -/
inductive Callback where
  | setupWebSocket
  deriving DecidableEq, Repr

/-- What a method does to its collaborators. -/
inductive Effect where
  | consoleLog (args : List Piece)
  | consoleError (args : List Piece)
  | invoke (h : Handler) (args : List JVal)
  | showNotification (message : List Piece) (type : String)
  | newWebSocket (url : String) (id : Nat)
  | wsClose (id : Nat)
  | setTimeout (cb : Callback) (delay : Nat)
  | setInterval (delay : Nat)
  | setClassName (card : Nat) (value : List Piece)
  | setInnerHTML (card : Nat) (value : List Piece)

/-- Is the effect a call of `new WebSocket`? -/
def Effect.isOpenAttempt : Effect → Bool
  | .newWebSocket _ _ => true
  | _ => false

/-- The handler calls among the effects, in order, with their arguments. -/
def invocations : List Effect → List (Handler × List JVal)
  | [] => []
  | .invoke h args :: rest => (h, args) :: invocations rest
  | _ :: rest => invocations rest

/-- The timers set among the effects, in order. -/
def timersSet : List Effect → List (Callback × Nat)
  | [] => []
  | .setTimeout cb d :: rest => (cb, d) :: timersSet rest
  | _ :: rest => timersSet rest

/-- Number of `new WebSocket` calls among the effects. -/
def openAttempts (es : List Effect) : Nat :=
  es.countP Effect.isOpenAttempt

/-! ## The environment and the client -/

/-- The collaborators the class reads from.
* `agentManager`: whether `window.agentManager` is set; its `showNotification` is
  an effect on the page and is taken not to throw;
* `webSocketThrows url`: whether `new WebSocket(url)` throws;
* `jsonParse text`: `JSON.parse`, `none` when it throws;
* `querySelectorAll agentId`: the cards matching the agent id, each with whether it
  has a `.status` element; `none` when the selector is rejected. -/
structure Env where
  agentManager : Bool
  webSocketThrows : String → Bool
  jsonParse : String → Option JVal
  querySelectorAll : JVal → Option (List Bool)

/-- The fields of an `OpenClawIntegration` instance (constructor, lines 7-15).
`ws` is the handle of the current socket, `none` for `null`. -/
structure Client where
  baseUrl : String
  wsUrl : String
  ws : Option Nat
  reconnectAttempts : Nat
  maxReconnectAttempts : Nat
  reconnectDelay : Nat
  deriving DecidableEq, Repr

/-- Result of running a method. -/
structure Outcome where
  client : Client
  effects : List Effect
  raised : Option JsError

/-- Result of running a handler that does not touch the fields. -/
structure Ran where
  effects : List Effect
  raised : Option JsError

/-! ## Event handlers (lines 444-497) -/

/-- The body of the `forEach` in updateAgentStatus, over the matched cards from
index `i` on: a card with a `.status` element gets its class name set, a template
literal of `status`, and then its markup, which needs `status.charAt`, a
TypeError unless `status` is a string. -/
def updateCards (status : JVal) : Nat → List Bool → Ran
  | _, [] => ⟨[], none⟩
  | i, false :: rest => updateCards status (i + 1) rest
  | i, true :: rest =>
    match template [.lit "status status-", .val status] with
    | .error e => ⟨[], some e⟩
    | .ok className =>
      let cls := Effect.setClassName i className
      match status with
      | .str s =>
        let r := updateCards status (i + 1) rest
        ⟨cls :: .setInnerHTML i [.lit "<span class=\x22status-dot\x22></span>", .capitalized s]
          :: r.effects, r.raised⟩
      | _ => ⟨[cls], some .typeError⟩

/-- Lines 444-459. The selector is a template literal of `agentId`, and so is the
message of the notification, of `agentId` and `status`. -/
def updateAgentStatus (env : Env) (agentId status : JVal) : Ran :=
  match template [.lit "[data-agent-id=\x22", .val agentId, .lit "\x22]"] with
  | .error e => ⟨[], some e⟩
  | .ok _ =>
    match env.querySelectorAll agentId with
    | none => ⟨[], some .domException⟩
    | some cards =>
      let r := updateCards status 0 cards
      match r.raised with
      | some e => ⟨r.effects, some e⟩
      | none =>
        if env.agentManager then
          match template [.lit "Agent ", .val agentId, .lit " is now ", .val status] with
          | .error e => ⟨r.effects, some e⟩
          | .ok message => ⟨r.effects ++ [.showNotification message "info"], none⟩
        else ⟨r.effects, none⟩

/-- Lines 461-471. `result.success` is read first (a TypeError when `result` is
`null` or `undefined`); `result.error` is read only when it is falsy. The message
is a template literal, built whether or not `agentManager` is set. -/
def notifyCronExecution (env : Env) (jobId result : JVal) : Ran :=
  match result.prop "success" with
  | .error e => ⟨[], some e⟩
  | .ok success =>
    let message : Except JsError (List Piece) :=
      if success.truthy then
        template [.lit "Cron job ", .val jobId, .lit " completed successfully"]
      else
        match result.prop "error" with
        | .error e => .error e
        | .ok error => template [.lit "Cron job ", .val jobId, .lit " failed: ", .val error]
    match message with
    | .error e => ⟨[], some e⟩
    | .ok message =>
      let type := if success.truthy then "success" else "error"
      if env.agentManager then ⟨[.showNotification message type], none⟩ else ⟨[], none⟩

/-- Lines 473-477. The message is a template literal of `message` and `amount`,
built only when `agentManager` is set. -/
def showCostAlert (env : Env) (message amount : JVal) : Ran :=
  if env.agentManager then
    match template
      [.lit "Cost Alert: ", .val message, .lit " ($", .val amount, .lit ")"] with
    | .error e => ⟨[], some e⟩
    | .ok text => ⟨[.showNotification text "warning"], none⟩
  else ⟨[], none⟩

/-- Lines 479-485. -/
def showSystemNotification (env : Env) (message priority : JVal) : Ran :=
  let type := if priority.isStr "urgent" then "error"
    else if priority.isStr "high" then "warning" else "info"
  if env.agentManager then ⟨[.showNotification [.val message] type], none⟩ else ⟨[], none⟩

/-- Lines 487-491. -/
def onConnectionRestored (env : Env) : Ran :=
  if env.agentManager then
    ⟨[.showNotification [.lit "Connected to OpenClaw"] "success"], none⟩
  else ⟨[], none⟩

/-- Lines 493-497. -/
def showConnectionError (env : Env) : Ran :=
  if env.agentManager then
    ⟨[.showNotification [.lit "Unable to connect to OpenClaw. Using offline mode."] "warning"],
      none⟩
  else ⟨[], none⟩

/-! ## The connection (lines 24-84, 575-584) -/

/-- A field read `data.k` after `data.type` has been read without raising, so that
`data` is neither `null` nor `undefined` and the read cannot raise. -/
def JVal.field (v : JVal) (k : String) : JVal :=
  match v.prop k with
  | .ok x => x
  | .error _ => .undefined

/-- Run a handler from a method: the call is recorded, then the handler's own
effects; the fields are not touched. -/
def callHandler (c : Client) (before : List Effect) (h : Handler) (args : List JVal)
    (r : Ran) : Outcome :=
  ⟨c, before ++ .invoke h args :: r.effects, r.raised⟩

/-- Lines 67-84: the `switch (data.type)` with strict comparison against the four
string literals. -/
def handleWebSocketMessage (env : Env) (c : Client) (data : JVal) : Outcome :=
  match data.prop "type" with
  | .error e => ⟨c, [], some e⟩
  | .ok type =>
    if type.isStr "agent_status_update" then
      callHandler c [] .updateAgentStatus [data.field "agentId", data.field "status"]
        (updateAgentStatus env (data.field "agentId") (data.field "status"))
    else if type.isStr "cron_job_executed" then
      callHandler c [] .notifyCronExecution [data.field "jobId", data.field "result"]
        (notifyCronExecution env (data.field "jobId") (data.field "result"))
    else if type.isStr "cost_alert" then
      callHandler c [] .showCostAlert [data.field "message", data.field "amount"]
        (showCostAlert env (data.field "message") (data.field "amount"))
    else if type.isStr "system_notification" then
      callHandler c [] .showSystemNotification [data.field "message", data.field "priority"]
        (showSystemNotification env (data.field "message") (data.field "priority"))
    else
      ⟨c, [.consoleLog [.lit "Unknown WebSocket message:", .val data]], none⟩

/-- Lines 24-51. `fresh` is the handle the new socket gets. When the constructor
throws, the assignment to `this.ws` does not happen and the `catch` logs. -/
def setupWebSocket (env : Env) (c : Client) (fresh : Nat) : Outcome :=
  if env.webSocketThrows c.wsUrl then
    ⟨c, [.consoleError [.lit "Failed to setup WebSocket:", .err .domException]], none⟩
  else
    ⟨{ c with ws := some fresh }, [.newWebSocket c.wsUrl fresh], none⟩

/-- Lines 53-65. -/
def attemptReconnect (env : Env) (c : Client) : Outcome :=
  if c.reconnectAttempts < c.maxReconnectAttempts then
    ⟨{ c with reconnectAttempts := c.reconnectAttempts + 1 },
      [.consoleLog [.lit "Attempting to reconnect... (", .nat (c.reconnectAttempts + 1),
          .lit "/", .nat c.maxReconnectAttempts, .lit ")"],
        .setTimeout .setupWebSocket c.reconnectDelay],
      none⟩
  else
    callHandler c [.consoleError [.lit "Max reconnection attempts reached"]]
      .showConnectionError [] (showConnectionError env)

/-- Lines 28-32: the `onopen` handler. -/
def onopen (env : Env) (c : Client) : Outcome :=
  callHandler { c with reconnectAttempts := 0 }
    [.consoleLog [.lit "WebSocket connected to OpenClaw"]]
    .onConnectionRestored [] (onConnectionRestored env)

/-- Lines 34-37: the `onmessage` handler on the text `event.data`. -/
def onmessage (env : Env) (c : Client) (text : String) : Outcome :=
  match env.jsonParse text with
  | none => ⟨c, [], some .syntaxError⟩
  | some data => handleWebSocketMessage env c data

/-- Lines 39-42: the `onclose` handler. -/
def onclose (env : Env) (c : Client) : Outcome :=
  let r := attemptReconnect env c
  ⟨r.client, .consoleLog [.lit "WebSocket connection closed"] :: r.effects, r.raised⟩

/-- Lines 44-46: the `onerror` handler. -/
def onerror (_env : Env) (c : Client) : Outcome :=
  ⟨c, [.consoleError [.lit "WebSocket error:", .errorEvent]], none⟩

/-- The argument of `configure`: each property is a string or absent. -/
structure Config where
  baseUrl : Option String
  wsUrl : Option String
  deriving DecidableEq, Repr

/-- The test `if (config.k)` on a property that is a string or absent. -/
def Config.given : Option String → Bool
  | some s => s != ""
  | none => false

/-- Lines 576-577: the two conditional assignments of `configure`. -/
def Config.applyTo (config : Config) (c : Client) : Client :=
  let c1 := if Config.given config.baseUrl then { c with baseUrl := config.baseUrl.getD "" } else c
  if Config.given config.wsUrl then { c1 with wsUrl := config.wsUrl.getD "" } else c1

/-- Lines 575-584. -/
def configure (env : Env) (c : Client) (config : Config) (fresh : Nat) : Outcome :=
  let c2 := config.applyTo c
  let closing : List Effect :=
    match c2.ws with
    | some id => [.wsClose id]
    | none => []
  let r := setupWebSocket env c2 fresh
  ⟨r.client, closing ++ r.effects, r.raised⟩

/-- Lines 7-21: the constructor with `init`, which runs to its end inside the
constructor (it awaits nothing). `fresh` is the handle the first socket gets. -/
def construct (env : Env) (fresh : Nat) : Outcome :=
  let c : Client :=
    { baseUrl := "/api", wsUrl := "ws://localhost:8080/ws", ws := none,
      reconnectAttempts := 0, maxReconnectAttempts := 5, reconnectDelay := 5000 }
  let r := setupWebSocket env c fresh
  ⟨r.client,
    r.effects ++ [.setInterval 60000, .consoleLog [.lit "OpenClaw Integration initialized"]],
    r.raised⟩

/-! ## The browser side -/

/-- The ready state of a socket. -/
inductive ReadyState where
  | connecting
  | opened
  | closing
  | closed
  deriving DecidableEq, Repr

/-- A socket on which the browser can still deliver an event. -/
def ReadyState.live : ReadyState → Bool
  | .closed => false
  | _ => true

/-- The client together with what the browser holds for it: the sockets it
created (the handle of a socket is its index), the pending timers, every effect
so far, and the exceptions that escaped an event handler. -/
structure World where
  client : Client
  sockets : List ReadyState
  timers : List (Callback × Nat)
  history : List Effect
  uncaught : List JsError

/-- What `ws.close()` does to a ready state. -/
def ReadyState.afterClose : ReadyState → ReadyState
  | .connecting => .closing
  | .opened => .closing
  | s => s

/-- The browser's side of one effect. -/
def World.absorb (w : World) : Effect → World
  | .newWebSocket _ _ => { w with sockets := w.sockets ++ [.connecting] }
  | .wsClose id => { w with sockets := w.sockets.modify ReadyState.afterClose id }
  | .setTimeout cb d => { w with timers := w.timers ++ [(cb, d)] }
  | _ => w

/-- The world after a method has run. -/
def World.after (w : World) (r : Outcome) : World :=
  let w1 := r.effects.foldl World.absorb { w with client := r.client }
  { w1 with
    history := w.history ++ r.effects
    uncaught := w.uncaught ++ r.raised.toList }

/-- What the browser can deliver. -/
inductive Event where
  | wsOpen (id : Nat)
  | wsMessage (id : Nat) (text : String)
  | wsError (id : Nat)
  | wsClose (id : Nat)
  | timeout (k : Nat)
  | configure (config : Config)
  deriving DecidableEq, Repr

/-- Deliver one event; `none` when the browser cannot deliver it in this world.
`wsOpen` needs a connecting socket, `wsMessage` an open one, `wsError` and `wsClose` a
socket that is not closed yet, `timeout` a pending timer. -/
def step (env : Env) (w : World) : Event → Option World
  | .wsOpen id =>
    if w.sockets[id]? = some .connecting then
      some (World.after { w with sockets := w.sockets.set id .opened } (onopen env w.client))
    else none
  | .wsMessage id text =>
    if w.sockets[id]? = some .opened then
      some (World.after w (onmessage env w.client text))
    else none
  | .wsError id =>
    if (w.sockets[id]?).any ReadyState.live then
      some (World.after w (onerror env w.client))
    else none
  | .wsClose id =>
    if (w.sockets[id]?).any ReadyState.live then
      some (World.after { w with sockets := w.sockets.set id .closed } (onclose env w.client))
    else none
  | .timeout k =>
    match w.timers[k]? with
    | some (.setupWebSocket, _) =>
      some (World.after { w with timers := w.timers.eraseIdx k }
        (setupWebSocket env w.client w.sockets.length))
    | none => none
  | .configure config =>
    some (World.after w (configure env w.client config w.sockets.length))

/-- Deliver a sequence of events. -/
def run (env : Env) (w : World) : List Event → Option World
  | [] => some w
  | e :: rest =>
    match step env w e with
    | some w1 => run env w1 rest
    | none => none

/-- The world right after `new OpenClawIntegration()` (line 588). -/
def start (env : Env) : World :=
  World.after
    { client := (construct env 0).client, sockets := [], timers := [], history := [],
      uncaught := [] }
    (construct env 0)

/-- Is the event an explicit `configure` call (rather than something the
transport or a timer delivers)? -/
def Event.isConfigure : Event → Bool
  | .configure _ => true
  | _ => false

/-- A world reached from construction by some sequence of events. -/
def Reachable (env : Env) (w : World) : Prop :=
  ∃ events, run env (start env) events = some w

/-- The handle of the first socket that is not closed. -/
def firstLive : List ReadyState → Option Nat
  | [] => none
  | s :: rest => if s.live then some 0 else (firstLive rest).map (· + 1)

/-- The world in which every socket fails: the first socket that is not closed
gets its close event, otherwise the oldest pending timer fires, otherwise nothing
is left to happen. -/
def nextFailure (w : World) : Option Event :=
  match firstLive w.sockets with
  | some id => some (.wsClose id)
  | none => if w.timers.isEmpty then none else some (.timeout 0)

/-- At most `fuel` events of the world in which every socket fails. -/
def runFailing (env : Env) : Nat → World → World
  | 0, w => w
  | fuel + 1, w =>
    match nextFailure w with
    | none => w
    | some e =>
      match step env w e with
      | some w1 => runFailing env fuel w1
      | none => w

/-- Nothing is left to happen: no socket is live and no timer is pending. -/
def World.quiet (w : World) : Bool :=
  w.sockets.all (fun s => !s.live) && w.timers.isEmpty

/-- An environment in which `new WebSocket` succeeds, `agentManager` is set, no
text parses and no card matches. -/
def plainEnv : Env :=
  { agentManager := true, webSocketThrows := fun _ => false, jsonParse := fun _ => none,
    querySelectorAll := fun _ => some [] }

/-- Two chains of sockets after one `configure` call on a fresh client, each
socket failing, up to the close of the socket that brings the counter to 5 while
socket 5 is still connecting. -/
def twoChains : List Event :=
  [.configure ⟨none, none⟩, .wsClose 0, .wsClose 1, .timeout 0, .timeout 0,
    .wsClose 2, .wsClose 3, .timeout 0, .timeout 0, .wsClose 4]

/-- The scenario of the specification: a fresh client whose policy is
`maxReconnectAttempts = 2`, `reconnectDelay = 0`. -/
def scenario : World :=
  { start plainEnv with
    client := { (start plainEnv).client with maxReconnectAttempts := 2, reconnectDelay := 0 } }

/-- The state of a client all of whose sockets have failed so far, while socket
`k` is connecting: `k` closed sockets, the counter at `k`, no timer pending,
`k + 1` sockets opened so far. -/
structure Retrying (env : Env) (k : Nat) (w : World) : Prop where
  attempts : w.client.reconnectAttempts = k
  url : env.webSocketThrows w.client.wsUrl = false
  sockets : w.sockets = List.replicate k .closed ++ [.connecting]
  timers : w.timers = []
  opens : openAttempts w.history = k + 1

/-- A message of type `agent_status_update`. -/
def statusMessage : JVal :=
  .obj [("type", .str "agent_status_update"), ("agentId", .str "agent-main"),
    ("status", .str "idle")]

/-- A message of type `cron_job_executed`. -/
def cronMessage : JVal :=
  .obj [("type", .str "cron_job_executed"), ("jobId", .str "cron-weather"),
    ("result", .obj [("success", .bool true)])]

/-- The message `{type:'cost_alert', message:'Daily budget exceeded', amount:12.5}`. -/
def costMessage : JVal :=
  .obj [("type", .str "cost_alert"), ("message", .str "Daily budget exceeded"),
    ("amount", .num 12.5)]

/-- A message of type `system_notification`. -/
def noticeMessage : JVal :=
  .obj [("type", .str "system_notification"), ("message", .str "Maintenance at noon"),
    ("priority", .str "high")]

/-- A message without a `type` field. -/
def untypedMessage : JVal :=
  .obj [("message", .str "hello")]

/-- An environment whose `JSON.parse` accepts two texts: `null`, and `alert`,
which stands for the text of `costMessage`. -/
def decodingEnv : Env :=
  { plainEnv with
    jsonParse := fun text =>
      if text = "null" then some .null
      else if text = "alert" then some costMessage
      else none }

/-- A `cron_job_executed` message that carries `jobId`, `succeeded` and `detail`
but no `result`. -/
def flatCronMessage : JVal :=
  .obj [("type", .str "cron_job_executed"), ("jobId", .str "cron-weather"),
    ("succeeded", .bool true), ("detail", .str "done")]

/-- A `cost_alert` message without payload fields. -/
def bareCostMessage : JVal :=
  .obj [("type", .str "cost_alert")]

/-- A `system_notification` message without payload fields. -/
def bareNoticeMessage : JVal :=
  .obj [("type", .str "system_notification")]

/-- An environment in which `new WebSocket` throws. -/
def throwingEnv : Env :=
  { plainEnv with webSocketThrows := fun _ => true }

/-! ## Snapshot reads of OpenClawIntegration (lines 89-98, 202-211, 287-296, 511-559) -/

/-- How a `fetch` call ends: the promise rejects, or it yields a response with
its `ok` flag, its status and its body; the body is `none` when
`response.json()` rejects. -/
inductive FetchOutcome where
  | rejected
  | response (ok : Bool) (status : Nat) (body : Option JVal)

/-- What is thrown inside the `try` of a read: the rejection of `fetch`, the
`Error` made from a status that is not ok, or the rejection of
`response.json()`. -/
inductive FetchError where
  | network
  | http (status : Nat)
  | body
  deriving DecidableEq, Repr

/-- The network and the clock: `fetch url`, and `clock k`, the value of the
`k`-th `Date.now()` of a call. -/
structure Net where
  fetch : String → FetchOutcome
  clock : Nat → Nat

/-- What a read hands to its caller: the value the promise resolves to, or what
it rejects with, and what was passed to `console.error`. -/
structure Reply where
  value : Except FetchError JVal
  logged : List (String × FetchError)

/-- The three statements in the `try` of every read: `fetch`, the test of
`response.ok`, and `response.json()`. -/
def fetchJson (net : Net) (url : String) : Except FetchError JVal :=
  match net.fetch url with
  | .rejected => .error .network
  | .response ok status body =>
    if !ok then .error (.http status)
    else
      match body with
      | none => .error .body
      | some v => .ok v

/-- Lines 511-528. -/
def getMockAgents (net : Net) : JVal :=
  .arr [.obj [("id", .str "agent-main"), ("name", .str "Main Agent"),
    ("status", .str "active"), ("model", .str "claude-sonnet-4"),
    ("tokensUsed", .num 45230), ("costToday", .num 2.45), ("responseTime", .num 1.2),
    ("lastActivity", .num ((net.clock 0 : ℚ) - 300000)),
    ("soul", .str "Primary assistant agent"), ("memory", .str "2.3MB"),
    ("sessions", .num 3)]]

/-- Lines 530-545. -/
def getMockCronJobs (net : Net) : JVal :=
  .arr [.obj [("id", .str "cron-weather"), ("name", .str "Weather Updates"),
    ("schedule", .str "0 6,12,18 * * *"), ("status", .str "active"),
    ("lastRun", .num ((net.clock 0 : ℚ) - 3600000)),
    ("nextRun", .num ((net.clock 1 : ℚ) + 3600000)),
    ("successRate", .num 98.5), ("agent", .str "agent-main"),
    ("description", .str "Daily weather briefings")]]

/-- Lines 547-559. -/
def getMockAnalytics : JVal :=
  .obj [("totalCostToday", .num 8.15), ("totalCostWeek", .num 42.30),
    ("totalTokens", .num 174770), ("avgResponseTime", .num 1.34),
    ("activeAgents", .num 3), ("totalAgents", .num 5), ("activeCrons", .num 4),
    ("totalCrons", .num 5), ("efficiencyScore", .num 92.5)]

/-- Lines 89-98. -/
def getAgents (net : Net) (c : Client) : Reply :=
  match fetchJson net (c.baseUrl ++ "/agents") with
  | .ok v => ⟨.ok v, []⟩
  | .error e => ⟨.ok (getMockAgents net), [("Failed to fetch agents:", e)]⟩

/-- Lines 202-211. -/
def getCronJobs (net : Net) (c : Client) : Reply :=
  match fetchJson net (c.baseUrl ++ "/cron/jobs") with
  | .ok v => ⟨.ok v, []⟩
  | .error e => ⟨.ok (getMockCronJobs net), [("Failed to fetch cron jobs:", e)]⟩

/-- Lines 287-296, with the `timeRange` the caller passes (`week` when it passes
none). -/
def getAnalytics (net : Net) (c : Client) (timeRange : String) : Reply :=
  match fetchJson net (c.baseUrl ++ "/analytics?range=" ++ timeRange) with
  | .ok v => ⟨.ok v, []⟩
  | .error e => ⟨.ok getMockAnalytics, [("Failed to fetch analytics:", e)]⟩

/-- A network on which every request is refused. -/
def deadNet : Net :=
  { fetch := fun _ => .rejected, clock := fun _ => 1000000 }

/-- A network that answers every request with status 200 and the body
`{"agents": []}`. -/
def liveNet : Net :=
  { fetch := fun _ => .response true 200 (some (.obj [("agents", .arr [])])),
    clock := fun _ => 1000000 }

/-- A network that answers every request with status 200 and a body equal to
the mock agents. -/
def echoNet : Net :=
  { fetch := fun _ => .response true 200 (some (getMockAgents deadNet)),
    clock := fun _ => 1000000 }

/-! ## Agents and the ModelManager (src/model-manager.js, lines 2-90) -/

/-- Mock trend of an agent (dashboard.js, lines 137-147). -/
structure Trend where
  direction : Option String
  icon : Option String
  percentage : Int
  deriving DecidableEq, Repr

/-- A number on its way to the page: as it is, or as the string
`value.toFixed(digits)`; `none` stands for NaN or an infinity. The value is the
one before formatting. In the totals of calculateStats and in CostAlerts it is a
rounded sum or product (`JNum`); in the ModelManager and in the `efficiency` of a
mock agent it is the exact product or quotient of the operands, which the
formatting then cuts to the digits shown. -/
inductive Shown where
  | number (q : ℚ)
  | fixed (digits : Nat) (value : Option ℚ)
  deriving DecidableEq, Repr

/-- An agent object with the properties the code reads. A property the code
guards against (`agent.model &&`, `agent.tokens || 0`) or that only some agents
carry is optional: `none` is `undefined`. `lastActivity` is the time value of
`new Date(agent.lastActivity)` in milliseconds, `none` for an invalid date. The
last four properties are the ones enhanceAgentData adds. -/
structure Agent where
  id : String
  name : String
  purpose : Option String
  model : Option String
  status : String
  lastActivity : Option Int
  tokens : Option ℚ
  cost : Option ℚ
  channel : String
  efficiency : Option Shown
  statusLevel : Option Nat
  activityScore : Option Nat
  trend : Option Trend
  deriving DecidableEq, Repr

/-- The test `pat` occurs in the characters `s`. -/
def includesChars (pat : List Char) : List Char → Bool
  | [] => pat.isEmpty
  | c :: rest => pat.isPrefixOf (c :: rest) || includesChars pat rest

/-- The call `s.includes(pat)`. -/
def includes (s pat : String) : Bool :=
  includesChars pat.data s.data

/-- The comparison `x > n` of a possibly missing number: `undefined > n` is false. -/
def gtNum (x : Option ℚ) (n : ℚ) : Bool :=
  match x with
  | some q => decide (n < q)
  | none => false

/-- The comparison `x < n` of a possibly missing number: `undefined < n` is false. -/
def ltNum (x : Option ℚ) (n : ℚ) : Bool :=
  match x with
  | some q => decide (q < n)
  | none => false

/-- The division `a / b` of numbers: `none`, for NaN or an infinity, when `b` is 0. -/
def jsDiv (a b : ℚ) : Option ℚ :=
  if b = 0 then none else some (a / b)

/-- An entry of the `models` table. -/
structure ModelInfo where
  name : String
  cost : ℚ
  speed : String
  quality : String
  bestFor : String
  deriving DecidableEq, Repr

/-- Lines 4-26: the table `this.models`. -/
def ModelManager.models (modelId : String) : Option ModelInfo :=
  if modelId = "claude-sonnet-4-20250514" then
    some ⟨"Sonnet 4.5", 0.003, "Fast", "High", "General tasks, conversations"⟩
  else if modelId = "claude-opus-4-5" then
    some ⟨"Opus 4.5", 0.015, "Medium", "Highest", "Complex reasoning, analysis"⟩
  else if modelId = "claude-haiku-3-20240307" then
    some ⟨"Haiku 3.0", 0.0015, "Fastest", "Good", "Simple tasks, quick responses"⟩
  else none

/-- Lines 29-37. Without a model id the table has no entry and
`modelId.split` raises a TypeError. A model id that names a property every object
inherits (`constructor`, `toString`, ...) is outside the model. -/
def ModelManager.getModelInfo (modelId : Option String) : Except JsError ModelInfo :=
  match modelId with
  | none => .error .typeError
  | some id =>
    match ModelManager.models id with
    | some info => .ok info
    | none =>
      .ok ⟨(id.splitOn "-").getLastD "", 0.005, "Unknown", "Unknown", "General purpose"⟩

/-- The object calculateCostImpact returns. -/
structure Impact where
  currentCost : Shown
  newCost : Shown
  savings : Shown
  savingsPercent : Shown
  deriving DecidableEq, Repr

/-- Lines 39-53; `monthlyTokens` is 100000 when the caller passes `undefined`. -/
def ModelManager.calculateCostImpact (currentModel newModel : Option String)
    (monthlyTokens : Option ℚ) : Except JsError Impact :=
  let tokens := monthlyTokens.getD 100000
  match ModelManager.getModelInfo currentModel with
  | .error e => .error e
  | .ok current =>
    match ModelManager.getModelInfo newModel with
    | .error e => .error e
    | .ok proposed =>
      let currentCost := (tokens / 1000) * current.cost
      let newCost := (tokens / 1000) * proposed.cost
      let savings := currentCost - newCost
      .ok
        { currentCost := .fixed 2 (some currentCost)
          newCost := .fixed 2 (some newCost)
          savings := .fixed 2 (some savings)
          savingsPercent := .fixed 1 ((jsDiv savings currentCost).map (· * 100)) }

/-- The object getModelRecommendation returns. -/
structure Recommendation where
  recommended : String
  reason : String
  impact : Impact
  deriving DecidableEq, Repr

/-- A recommendation of `recommended` for `agent`, with the impact computed by
calculateCostImpact. -/
def ModelManager.recommend (agent : Agent) (recommended reason : String) :
    Except JsError (Option Recommendation) :=
  match ModelManager.calculateCostImpact agent.model (some recommended) agent.tokens with
  | .error e => .error e
  | .ok impact => .ok (some ⟨recommended, reason, impact⟩)

/-- The test `purpose.includes(a) || purpose.includes(b) || ...`; a TypeError
when the agent has no purpose. -/
def ModelManager.purposeIncludes (agent : Agent) (words : List String) : Except JsError Bool :=
  match agent.purpose with
  | none => .error .typeError
  | some purpose => .ok (words.any fun word => includes purpose word)

/-- Lines 58-67: the rule for high-volume agents. `agent.model.includes` raises a
TypeError when the agent has no model. -/
def ModelManager.sonnetRule (agent : Agent) : Except JsError (Option Recommendation) :=
  if gtNum agent.tokens 80000 then
    match agent.model with
    | none => .error .typeError
    | some model =>
      if includes model "opus" then
        ModelManager.recommend agent "claude-sonnet-4-20250514"
          "High token usage - Sonnet provides excellent quality at 5x lower cost"
      else .ok none
  else .ok none

/-- Lines 69-76: the rule for low-volume agents. -/
def ModelManager.haikuRule (agent : Agent) : Except JsError (Option Recommendation) :=
  if ltNum agent.tokens 20000 then
    match ModelManager.purposeIncludes agent ["reminder", "simple"] with
    | .error e => .error e
    | .ok true =>
      ModelManager.recommend agent "claude-haiku-3-20240307"
        "Low complexity tasks - Haiku is 2x faster and cheaper"
    | .ok false => .ok none
  else .ok none

/-- Lines 78-87: the rule for complex reasoning. -/
def ModelManager.opusRule (agent : Agent) : Except JsError (Option Recommendation) :=
  match ModelManager.purposeIncludes agent ["analysis", "strategy", "complex"] with
  | .error e => .error e
  | .ok true =>
    match agent.model with
    | none => .error .typeError
    | some model =>
      if !includes model "opus" then
        ModelManager.recommend agent "claude-opus-4-5"
          "Complex reasoning tasks benefit from Opus capabilities"
      else .ok none
  | .ok false => .ok none

/-- Lines 55-90: the three rules in order, the first recommendation wins, `null`
when none applies. -/
def ModelManager.getModelRecommendation (agent : Agent) :
    Except JsError (Option Recommendation) :=
  match ModelManager.sonnetRule agent with
  | .error e => .error e
  | .ok (some r) => .ok (some r)
  | .ok none =>
    match ModelManager.haikuRule agent with
    | .error e => .error e
    | .ok (some r) => .ok (some r)
    | .ok none => ModelManager.opusRule agent

/-- The model id getModelRecommendation recommends, `none` when it returns
`null` or raises. -/
def ModelManager.recommendedModel (agent : Agent) : Option String :=
  match ModelManager.getModelRecommendation agent with
  | .ok (some r) => some r.recommended
  | _ => none

/-- The `savingsPercent` getModelRecommendation reports, `none` when it returns
`null` or raises. -/
def ModelManager.reportedSavings (agent : Agent) : Option Shown :=
  match ModelManager.getModelRecommendation agent with
  | .ok (some r) => some r.impact.savingsPercent
  | _ => none

/-- The `cost` of getModelInfo, `none` when it raises. -/
def ModelManager.costOf (modelId : Option String) : Option ℚ :=
  match ModelManager.getModelInfo modelId with
  | .ok info => some info.cost
  | .error _ => none

/-- An agent as the endpoint and the mock data describe them, before
enhanceAgentData. -/
def Agent.plain (id name purpose model status : String) (lastActivity : Int)
    (tokens cost : ℚ) (channel : String) : Agent :=
  { id := id, name := name, purpose := some purpose, model := some model, status := status,
    lastActivity := some lastActivity, tokens := some tokens, cost := some cost,
    channel := channel, efficiency := none, statusLevel := none, activityScore := none,
    trend := none }

/-- The mock agent `Research Analyst` (dashboard.js, lines 849-859) after its
token count has grown to 90000. -/
def busyAnalyst : Agent :=
  Agent.plain "agent:research:001" "Research Analyst"
    "Market research, data analysis, and trend identification" "claude-sonnet-4-20250514"
    "active" 0 90000 0.45 "api"

/-- The mock agent `Coffee Operations` (dashboard.js, lines 816-826) on the
model id `claude-opus-4-20250514`. -/
def otherOpus : Agent :=
  Agent.plain "agent:main:telegram:group:-5158435516" "Coffee Operations"
    "Boundaries Coffee business operations and customer service" "claude-opus-4-20250514"
    "idle" 0 124278 1.24 "telegram"

/-- The mock agent `Coffee Operations` as the mock data has it, on
`claude-opus-4-5`. -/
def coffeeOperations : Agent :=
  Agent.plain "agent:main:telegram:group:-5158435516" "Coffee Operations"
    "Boundaries Coffee business operations and customer service" "claude-opus-4-5"
    "idle" 0 124278 1.24 "telegram"

/-! ## AgentDashboard (src/assets/js/dashboard.js) -/

/-- A cron job with the properties the code reads. -/
structure Job where
  id : String
  name : String
  enabled : Bool
  scheduleExpr : String
  deliveryTo : String
  nextRunAtMs : Int
  deriving DecidableEq, Repr

/-- The `stats` object calculateStats builds. -/
structure Stats where
  activeAgents : Nat
  pendingTasks : Nat
  totalCost : Shown
  totalTokens : JNum
  tokensToday : JNum
  burnRate : JNum
  deriving DecidableEq, Repr

/-- The fields of an AgentDashboard the model follows (constructor, lines 3-16).
An entry of `cronJobs` is `none` when the array holds `null` there; `stats` is
`none` for the empty object of the constructor. -/
structure Dashboard where
  agents : List Agent
  cronJobs : List (Option Job)
  stats : Option Stats
  filterStatus : String
  sort : String
  deriving DecidableEq, Repr

/-- What the page reads from its surroundings: `now`, the clock in milliseconds,
and `random k`, the value of the `k`-th `Math.random()` of a call. -/
structure Runtime where
  now : Int
  random : Nat → ℚ

/-- Lines 115-123. A status that names a property every object inherits is
outside the model. -/
def getStatusLevel (status : String) : Nat :=
  if status = "active" then 3
  else if status = "idle" then 2
  else if status = "offline" then 1
  else if status = "connecting" then 1
  else 1

/-- Lines 125-135; with an invalid date every comparison is false. -/
def calculateActivityScore (rt : Runtime) (agent : Agent) : Nat :=
  match agent.lastActivity with
  | none => 20
  | some last =>
    let hoursSinceActivity : ℚ := ((rt.now - last : ℤ) : ℚ) / (1000 * 60 * 60)
    if hoursSinceActivity < 1 then 100
    else if hoursSinceActivity < 6 then 80
    else if hoursSinceActivity < 24 then 60
    else if hoursSinceActivity < 72 then 40
    else 20

/-- Lines 137-147, with the two values `Math.random()` returns. -/
def generateTrendData (r1 r2 : ℚ) : Trend :=
  let trends := ["up", "down", "stable"]
  let trend := trends[(Int.floor (r1 * 3)).toNat]?
  let icon :=
    match trend with
    | some "up" => some "↗"
    | some "down" => some "↘"
    | some "stable" => some "→"
    | _ => none
  { direction := trend, icon := icon, percentage := Int.floor (r2 * 30) + 5 }

/-- Lines 101-111: the body of the `forEach` of enhanceAgentData for the agent at
index `i`. `tokens / cost` is NaN without a cost and infinite with cost 0. -/
def enhanceAgent (rt : Runtime) (i : Nat) (agent : Agent) : Agent :=
  { agent with
    efficiency :=
      some (if gtNum agent.tokens 0 then
        .fixed 0 (match agent.cost with
          | some cost => jsDiv (agent.tokens.getD 0) cost
          | none => none)
      else .number 0)
    statusLevel := some (getStatusLevel agent.status)
    activityScore := some (calculateActivityScore rt agent)
    trend := some (generateTrendData (rt.random (2 * i)) (rt.random (2 * i + 1))) }

/-- Lines 99-113 over the entries of `this.agents` from index `i` on; an entry
that is `null` makes `agent.tokens` raise a TypeError. -/
def enhanceFrom (rt : Runtime) : Nat → List (Option Agent) → Except JsError (List Agent)
  | _, [] => .ok []
  | _, none :: _ => .error .typeError
  | i, some agent :: rest =>
    match enhanceFrom rt (i + 1) rest with
    | .error e => .error e
    | .ok agents => .ok (enhanceAgent rt i agent :: agents)

/-- Lines 99-113. -/
def enhanceAgentData (rt : Runtime) (agents : List (Option Agent)) :
    Except JsError (List Agent) :=
  enhanceFrom rt 0 agents

/-- The value `list.filter(test).length`; an entry that is `null` makes the test
raise a TypeError. -/
def countWhere {α : Type} (test : α → Bool) : List (Option α) → Except JsError Nat
  | [] => .ok 0
  | none :: _ => .error .typeError
  | some x :: rest =>
    match countWhere test rest with
    | .error e => .error e
    | .ok n => .ok (if test x then n + 1 else n)

/-- The value `agents.reduce((sum, agent) => sum + (agent.k || 0), 0)`: the
numbers are added one after the other, from the left, each sum rounded. -/
def sumOf (field : Agent → Option ℚ) (agents : List Agent) : JNum :=
  agents.foldl (fun sum agent => JNum.add sum (double ((field agent).getD 0))) (.finite 0)

/-- The agents of a list without `null` entries, `none` when there is one. -/
def allPresent {α : Type} : List (Option α) → Option (List α)
  | [] => some []
  | none :: _ => none
  | some x :: rest => (allPresent rest).map (x :: ·)

/-- Lines 149-165 on the given agents and cron jobs. -/
def calculateStats (agents : List (Option Agent)) (cronJobs : List (Option Job)) :
    Except JsError Stats :=
  match countWhere (fun a : Agent => a.status == "active") agents with
  | .error e => .error e
  | .ok activeAgents =>
    match countWhere (fun j : Job => j.enabled) cronJobs with
    | .error e => .error e
    | .ok pendingTasks =>
      match allPresent agents with
      | none => .error .typeError
      | some present =>
        let totalCost := sumOf Agent.cost present
        let totalTokens := sumOf Agent.tokens present
        let tokensToday := (totalTokens.mul (double 0.15)).round
        let burnRate := (tokensToday.div (.finite 24)).round
        .ok
          { activeAgents := activeAgents
            pendingTasks := pendingTasks
            totalCost := .fixed 2 totalCost.toOption
            totalTokens := totalTokens
            tokensToday := tokensToday
            burnRate := burnRate }

/-! ## The decoded body as loadAgents reads it (dashboard.js, lines 72-80, 99-165)

The body of `/api/data` is whatever `response.json()` yields, a `JVal`. The
functions of this section follow the statements of the `try` on such a value:
where a statement converts a value to a number or a string, where it raises, and
what it stores. -/

/-- What the engine of the browser supplies for decoded values: the string of a
finite number, the number a string stands for (`Number(s)`), the time value
`Date.parse(s)` (`none` for NaN), and whether a name is a property every object
inherits from `Object.prototype` (`constructor`, `toString`, ...). -/
structure Engine where
  numberToString : ℚ → String
  stringToNumber : String → JNum
  dateParse : String → Option Int
  inherited : String → Bool

/-- A primitive value: what the conversion of a decoded value yields, and what a
sum holds. -/
inductive Prim where
  | undefined
  | null
  | bool (b : Bool)
  | num (x : JNum)
  | str (s : String)
  deriving DecidableEq, Repr

/-- The string of a number. -/
def JNum.toStr (eng : Engine) : JNum → String
  | .finite q => eng.numberToString q
  | .infinite false => "Infinity"
  | .infinite true => "-Infinity"
  | .nan => "NaN"

mutual
/-- The conversion `String(v)` of a decoded value. An object is `[object Object]`
unless it has an own property `toString`, which ends in a TypeError (see
`JVal.stringable`); an array is its entries joined by commas. -/
def JVal.toStr (eng : Engine) : JVal → Except JsError String
  | .undefined => .ok "undefined"
  | .null => .ok "null"
  | .bool b => .ok (if b then "true" else "false")
  | .num q => .ok ((double q).toStr eng)
  | .str s => .ok s
  | .arr items =>
    match JVal.texts eng items with
    | .error e => .error e
    | .ok texts => .ok (String.intercalate "," texts)
  | .obj fields =>
    if fields.any (fun field => field.1 == "toString") then .error .typeError
    else .ok "[object Object]"
/-- The strings `join` makes of the entries of an array: the empty string for
`null`, the conversion of the entry otherwise. -/
def JVal.texts (eng : Engine) : List JVal → Except JsError (List String)
  | [] => .ok []
  | .null :: rest =>
    match JVal.texts eng rest with
    | .error e => .error e
    | .ok more => .ok ("" :: more)
  | .undefined :: rest =>
    match JVal.texts eng rest with
    | .error e => .error e
    | .ok more => .ok ("" :: more)
  | v :: rest =>
    match JVal.toStr eng v with
    | .error e => .error e
    | .ok text =>
      match JVal.texts eng rest with
      | .error e => .error e
      | .ok more => .ok (text :: more)
end

/-- The conversion of a decoded value to a primitive one: an array or an object
becomes its string. -/
def JVal.toPrimitive (eng : Engine) : JVal → Except JsError Prim
  | .undefined => .ok .undefined
  | .null => .ok .null
  | .bool b => .ok (.bool b)
  | .num q => .ok (.num (double q))
  | .str s => .ok (.str s)
  | v =>
    match v.toStr eng with
    | .error e => .error e
    | .ok text => .ok (.str text)

/-- The conversion `Number(p)` of a primitive value. -/
def Prim.toNumber (eng : Engine) : Prim → JNum
  | .undefined => .nan
  | .null => .finite 0
  | .bool b => .finite (if b then 1 else 0)
  | .num x => x
  | .str s => eng.stringToNumber s

/-- The conversion `String(p)` of a primitive value. -/
def Prim.toStr (eng : Engine) : Prim → String
  | .undefined => "undefined"
  | .null => "null"
  | .bool b => if b then "true" else "false"
  | .num x => x.toStr eng
  | .str s => s

/-- The operation `sum + v` on a primitive `sum` and a decoded `v`: the strings
are joined when one of the two is a string, the numbers are added otherwise. -/
def plus (eng : Engine) (sum : Prim) (v : JVal) : Except JsError Prim :=
  match v.toPrimitive eng with
  | .error e => .error e
  | .ok p =>
    match sum, p with
    | .str a, _ => .ok (.str (a ++ p.toStr eng))
    | _, .str b => .ok (.str (sum.toStr eng ++ b))
    | _, _ => .ok (.num ((sum.toNumber eng).add (p.toNumber eng)))

/-- The value `v || 0`. -/
def orZero (v : JVal) : JVal :=
  if v.truthy then v else .num 0

/-- The value `v || []`. -/
def orEmpty (v : JVal) : JVal :=
  if v.truthy then v else .arr []

/-- The entries of an array, for a call of `filter`, `reduce` or `forEach`; on
any other value the method is missing and the call raises a TypeError. -/
def Decoded.items : JVal → Except JsError (List JVal)
  | .arr items => .ok items
  | _ => .error .typeError

/-- The value `list.filter(test).length`, in which the test of an entry may
raise. -/
def Decoded.countWhere (test : JVal → Except JsError Bool) : List JVal → Except JsError Nat
  | [] => .ok 0
  | x :: rest =>
    match test x with
    | .error e => .error e
    | .ok found =>
      match Decoded.countWhere test rest with
      | .error e => .error e
      | .ok n => .ok (if found then n + 1 else n)

/-- The value `list.reduce((sum, agent) => sum + (agent.key || 0), sum)`. -/
def Decoded.sumOf (eng : Engine) (key : String) : Prim → List JVal → Except JsError Prim
  | sum, [] => .ok sum
  | sum, agent :: rest =>
    match agent.prop key with
    | .error e => .error e
    | .ok v =>
      match plus eng sum (orZero v) with
      | .error e => .error e
      | .ok next => Decoded.sumOf eng key next rest

/-- The `stats` object calculateStats builds from decoded values; `totalTokens`
is a number or, once a token count was a string, a string. -/
structure DecodedStats where
  activeAgents : Nat
  pendingTasks : Nat
  totalCost : Shown
  totalTokens : Prim
  tokensToday : JNum
  burnRate : JNum
  deriving DecidableEq, Repr

/-- Lines 149-165 on decoded values of `this.agents` and `this.cronJobs`. The two
`filter` calls come first, then the two sums; `totalCost.toFixed` is missing, a
TypeError, when the sum of the costs has become a string. -/
def Decoded.calculateStats (eng : Engine) (agents cronJobs : JVal) :
    Except JsError DecodedStats :=
  match Decoded.items agents with
  | .error e => .error e
  | .ok entries =>
    match Decoded.countWhere (fun a => (a.prop "status").map (·.isStr "active")) entries with
    | .error e => .error e
    | .ok activeAgents =>
      match Decoded.items cronJobs with
      | .error e => .error e
      | .ok jobs =>
        match Decoded.countWhere (fun j => (j.prop "enabled").map JVal.truthy) jobs with
        | .error e => .error e
        | .ok pendingTasks =>
          match Decoded.sumOf eng "cost" (.num (.finite 0)) entries with
          | .error e => .error e
          | .ok totalCost =>
            match Decoded.sumOf eng "tokens" (.num (.finite 0)) entries with
            | .error e => .error e
            | .ok totalTokens =>
              let tokensToday := ((totalTokens.toNumber eng).mul (double 0.15)).round
              let burnRate := (tokensToday.div (.finite 24)).round
              match totalCost with
              | .num total =>
                .ok
                  { activeAgents := activeAgents
                    pendingTasks := pendingTasks
                    totalCost := .fixed 2 total.toOption
                    totalTokens := totalTokens
                    tokensToday := tokensToday
                    burnRate := burnRate }
              | _ => .error .typeError

/-- Lines 115-123 on a decoded status: the status is converted to a property
name; `none` stands for what the table inherits under a name that every object
inherits (a function, or the prototype itself), which is truthy and returned as
it is. -/
def Decoded.getStatusLevel (eng : Engine) (status : JVal) : Except JsError (Option Nat) :=
  match status.toStr eng with
  | .error e => .error e
  | .ok name =>
    .ok
      (if name = "active" then some 3
      else if name = "idle" then some 2
      else if name = "offline" then some 1
      else if name = "connecting" then some 1
      else if eng.inherited name then none
      else some 1)

/-- The time value of `new Date(x)` for a number `x`: the number cut to an
integer, `none` (an invalid date) when it is not finite or beyond 8.64e15. -/
def timeClip : JNum → Option Int
  | .finite q =>
    if |q| ≤ 8640000000000000 then some (if 0 ≤ q then Int.floor q else Int.ceil q) else none
  | _ => none

/-- The time value of `new Date(v)` for a decoded `v`, `none` for an invalid
date: a string is parsed, every other value is converted to a number. -/
def Decoded.timeValue (eng : Engine) (v : JVal) : Except JsError (Option Int) :=
  match v.toPrimitive eng with
  | .error e => .error e
  | .ok (.str text) => .ok (eng.dateParse text)
  | .ok p => .ok (timeClip (p.toNumber eng))

/-- Lines 125-135 on a decoded agent; with an invalid date every comparison is
false. The quotient is the exact one: rounding cannot move it across 1, 6, 24
or 72, for near these the difference of the time values is an integer that is
held exactly, and an integer over 3600000 is equal to the threshold or further
from it than a rounding step. -/
def Decoded.calculateActivityScore (eng : Engine) (rt : Runtime) (agent : JVal) :
    Except JsError Nat :=
  match agent.prop "lastActivity" with
  | .error e => .error e
  | .ok lastActivity =>
    match Decoded.timeValue eng lastActivity with
    | .error e => .error e
    | .ok none => .ok 20
    | .ok (some last) =>
      let hoursSinceActivity : ℚ := ((rt.now - last : ℤ) : ℚ) / (1000 * 60 * 60)
      .ok
        (if hoursSinceActivity < 1 then 100
        else if hoursSinceActivity < 6 then 80
        else if hoursSinceActivity < 24 then 60
        else if hoursSinceActivity < 72 then 40
        else 20)

/-- A decoded agent after enhanceAgentData: the entry itself and the four
properties assigned to it, which replace properties of the same names. -/
structure Enhanced where
  agent : JVal
  efficiency : Shown
  statusLevel : Option Nat
  activityScore : Nat
  trend : Trend

/-- Can a property be assigned to the value? The code of a class is strict, so
the assignment raises a TypeError on a number, a string or a boolean, as it does
on `null`. -/
def JVal.assignable : JVal → Bool
  | .obj _ => true
  | .arr _ => true
  | _ => false

/-- Lines 101-111 on a decoded entry at index `i`. `agent.tokens` raises on
`null`; `agent.tokens > 0` and the division convert their operands; the first
assignment raises on a primitive entry. -/
def Decoded.enhanceAgent (eng : Engine) (rt : Runtime) (i : Nat) (agent : JVal) :
    Except JsError Enhanced :=
  match agent.prop "tokens" with
  | .error e => .error e
  | .ok tokens =>
    match tokens.toPrimitive eng with
    | .error e => .error e
    | .ok tokensValue =>
      let efficiency : Except JsError Shown :=
        if JNum.lt (.finite 0) (tokensValue.toNumber eng) then
          match (agent.field "cost").toPrimitive eng with
          | .error e => .error e
          | .ok costValue =>
            .ok (.fixed 0 ((tokensValue.toNumber eng).div (costValue.toNumber eng)).toOption)
        else .ok (.number 0)
      match efficiency with
      | .error e => .error e
      | .ok efficiency =>
        if agent.assignable then
          match Decoded.getStatusLevel eng (agent.field "status") with
          | .error e => .error e
          | .ok statusLevel =>
            match Decoded.calculateActivityScore eng rt agent with
            | .error e => .error e
            | .ok activityScore =>
              .ok
                { agent := agent
                  efficiency := efficiency
                  statusLevel := statusLevel
                  activityScore := activityScore
                  trend := generateTrendData (rt.random (2 * i)) (rt.random (2 * i + 1)) }
        else .error .typeError

/-- Lines 99-113 over the entries from index `i` on. -/
def Decoded.enhanceFrom (eng : Engine) (rt : Runtime) : Nat → List JVal →
    Except JsError (List Enhanced)
  | _, [] => .ok []
  | i, agent :: rest =>
    match Decoded.enhanceAgent eng rt i agent with
    | .error e => .error e
    | .ok enhanced =>
      match Decoded.enhanceFrom eng rt (i + 1) rest with
      | .error e => .error e
      | .ok more => .ok (enhanced :: more)

/-- Lines 99-113 on a decoded value of `this.agents`. -/
def Decoded.enhanceAgentData (eng : Engine) (rt : Runtime) (agents : JVal) :
    Except JsError (List Enhanced) :=
  match Decoded.items agents with
  | .error e => .error e
  | .ok entries => Decoded.enhanceFrom eng rt 0 entries

/-- Is the value a primitive one, neither an array nor an object? -/
def JVal.isPrimitive : JVal → Bool
  | .arr _ => false
  | .obj _ => false
  | _ => true

/-- Is the value a number? -/
def JVal.isNumber : JVal → Bool
  | .num _ => true
  | _ => false

/-- The number a value stands for in a sum when it is a number, 0 otherwise. -/
def JVal.numberOrZero : JVal → ℚ
  | .num q => q
  | _ => 0

/-- An agent entry on which enhanceAgentData does not raise for certain: an
object (or an array) whose `tokens`, `cost`, `status` and `lastActivity`, where
present, are primitive values. -/
def plainEntry (agent : JVal) : Bool :=
  agent.assignable && (agent.field "tokens").isPrimitive && (agent.field "cost").isPrimitive
    && (agent.field "status").isPrimitive && (agent.field "lastActivity").isPrimitive

/-- The `stats` loadAgents stores from a live body: the object the body carries,
or the one calculateStats builds. -/
inductive LiveStats where
  | sent (stats : JVal)
  | computed (stats : DecodedStats)

/-- What loadAgents stores from a live body: `agents`, `cronJobs` and `stats`. -/
structure LiveData where
  agents : List Enhanced
  cronJobs : JVal
  stats : LiveStats

/-- How `fetch('/api/data')` ends: the promise rejects, or it yields a response
with its `ok` flag and its body, `none` when `response.json()` rejects. -/
inductive DataOutcome where
  | rejected
  | response (ok : Bool) (body : Option JVal)

/-- Which of its two messages loadAgents wrote to the console: `Loaded live
agent data` (line 80) or `Failed to load live data, using mock data` (line 85). -/
inductive LoadLog where
  | loadedLive
  | usedMock
  deriving DecidableEq, Repr

/-- Lines 793-862. Every `Date` of the mock data is taken at the one clock value
`rt.now`. -/
def AgentDashboard.getMockAgents (rt : Runtime) : List Agent :=
  [Agent.plain "agent:main:main" "Troy (Main)"
      "Primary assistant and command center orchestration" "claude-sonnet-4-20250514"
      "active" rt.now 22632 0.23 "telegram",
    Agent.plain "agent:main:telegram:group:-5251868903" "Health Tracker"
      "Comprehensive fitness tracking and nutrition optimization" "claude-sonnet-4-20250514"
      "active" (rt.now - 2 * 60 * 60 * 1000) 89162 0.89 "telegram",
    Agent.plain "agent:main:telegram:group:-5158435516" "Coffee Operations"
      "Boundaries Coffee business operations and customer service" "claude-opus-4-5"
      "idle" (rt.now - 5 * 60 * 60 * 1000) 124278 1.24 "telegram",
    Agent.plain "agent:main:telegram:group:-5194650963" "Developer Assistant"
      "Technical discussions, code review, and development support"
      "claude-sonnet-4-20250514" "idle" (rt.now - 12 * 60 * 60 * 1000) 91395 0.91 "telegram",
    Agent.plain "agent:main:telegram:group:-5269268988" "Fitness App Dev"
      "Specialized fitness application development and UX design" "claude-sonnet-4-20250514"
      "offline" (rt.now - 72 * 60 * 60 * 1000) 25864 0.26 "telegram",
    Agent.plain "agent:research:001" "Research Analyst"
      "Market research, data analysis, and trend identification" "claude-sonnet-4-20250514"
      "active" (rt.now - 30 * 60 * 1000) 45123 0.45 "api"]

/-- Lines 864-891. -/
def AgentDashboard.getMockCronJobs (rt : Runtime) : List (Option Job) :=
  [some ⟨"c3b46ca1-980f-4638-9d46-ce4407be6366", "Daily Weigh-In Reminder", true,
      "30 6 * * *", "-5251868903", rt.now + 10 * 60 * 60 * 1000⟩,
    some ⟨"61339f7a-cda6-43b2-8f0e-d9f5a48539e1", "Lunch Logging Reminder", true,
      "0 12 * * *", "-5251868903", rt.now + 15 * 60 * 60 * 1000⟩,
    some ⟨"46306457-97c0-4fde-b7b6-c89c2a843df4", "Coffee Shop Morning Briefing", true,
      "0 7 * * 1-5", "-5158435516", rt.now + 21 * 60 * 60 * 1000⟩]

/-- Lines 72-80: the `try` of loadAgents once the body is decoded. `data.agents`
raises on the body `null`; calculateStats runs only when the body carries no
`stats`. -/
def loadLive (eng : Engine) (rt : Runtime) (data : JVal) : Except JsError LiveData :=
  match data.prop "agents" with
  | .error e => .error e
  | .ok found =>
    let agents := orEmpty found
    let cronJobs := orEmpty (data.field "cronJobs")
    let stats : Except JsError LiveStats :=
      if (data.field "stats").truthy then .ok (.sent (data.field "stats"))
      else
        match Decoded.calculateStats eng agents cronJobs with
        | .error e => .error e
        | .ok computed => .ok (.computed computed)
    match stats with
    | .error e => .error e
    | .ok stats =>
      match Decoded.enhanceAgentData eng rt agents with
      | .error e => .error e
      | .ok enhanced => .ok { agents := enhanced, cronJobs := cronJobs, stats := stats }

/-- Lines 84-89: the `catch` of loadAgents. -/
def loadMock (rt : Runtime) (d : Dashboard) : Except JsError Dashboard :=
  let agents := (AgentDashboard.getMockAgents rt).map some
  let cronJobs := AgentDashboard.getMockCronJobs rt
  match calculateStats agents cronJobs with
  | .error e => .error e
  | .ok stats =>
    match enhanceAgentData rt agents with
    | .error e => .error e
    | .ok enhanced =>
      .ok { d with agents := enhanced, cronJobs := cronJobs, stats := some stats }

/-- What loadAgents leaves in the dashboard: the data of the live body, or the
dashboard with the mock data. -/
inductive Loaded where
  | live (data : LiveData)
  | mock (d : Dashboard)

/-- The console message that goes with what was loaded. -/
def Loaded.log : Loaded → LoadLog
  | .live _ => .loadedLive
  | .mock _ => .usedMock

/-- Lines 66-93. Whatever is thrown inside the `try` (the rejection of `fetch`
or of `response.json()`, the `Error` for a response that is not ok, a TypeError
from one of the statements on the body) lands in the `catch`, which stores the
mock data. -/
def loadAgents (eng : Engine) (rt : Runtime) (outcome : DataOutcome) (d : Dashboard) :
    Except JsError Loaded :=
  let live : Except JsError LiveData :=
    match outcome with
    | .rejected => .error .typeError
    | .response false _ => .error .typeError
    | .response true none => .error .syntaxError
    | .response true (some data) => loadLive eng rt data
  match live with
  | .ok data => .ok (.live data)
  | .error _ =>
    match loadMock rt d with
    | .error e => .error e
    | .ok d1 => .ok (.mock d1)

/-- The fields of an AgentDashboard right after its constructor has set them
(lines 4-11). -/
def Dashboard.fresh : Dashboard :=
  { agents := [], cronJobs := [], stats := none, filterStatus := "all", sort := "name" }

/-- A runtime whose clock reads 1000000000 and whose `Math.random()` is always 0. -/
def plainRuntime : Runtime :=
  { now := 1000000000, random := fun _ => 0 }

/-- Lines 920-952, with the answer of `prompt` (`none` when the dialog is
cancelled) and the clock value `now` of `Date.now()`. Nothing is cloned when no
agent has the id or the answer is empty; otherwise the clone is pushed before
the notification and the rendering, so that it stays even if they throw. -/
def cloneAgent (d : Dashboard) (agentId : String) (answer : Option String) (now : Int) :
    Dashboard :=
  match d.agents.find? (fun a => a.id == agentId) with
  | none => d
  | some agent =>
    match answer with
    | none => d
    | some newName =>
      if newName = "" then d
      else
        let cloneId := "agent:main:clone:" ++ toString now
        let clone : Agent :=
          { agent with
            id := cloneId, name := newName, tokens := some 0, cost := some 0,
            status := "offline", lastActivity := some now }
        { d with agents := d.agents ++ [clone] }

/-- The texts generateRecommendations can produce, with the values it puts into
them. -/
inductive AdviceText where
  | switchToSonnet (name : String)
  | archive (name : String)
  | costExceeds (totalCost : Shown)
  | lowUsage
  | wellOptimized
  | highActiveUsage
  | lowActivity (count : Nat)
  deriving DecidableEq, Repr

/-- One recommendation. -/
structure Advice where
  icon : String
  text : AdviceText
  deriving DecidableEq, Repr

/-- Is it one of the three messages of the cost branch (lines 373-388)? -/
def Advice.isCost (a : Advice) : Bool :=
  match a.text with
  | .costExceeds _ => true
  | .lowUsage => true
  | .wellOptimized => true
  | _ => false

/-- Lines 348-357: the recommendation about agents on an expensive model. -/
def expensiveAdvice (agents : List Agent) : List Advice :=
  match agents.filter (fun agent =>
      match agent.model with
      | some model => model != "" && includes model "opus" && gtNum agent.tokens 50000
      | none => false) with
  | first :: _ => [⟨"", .switchToSonnet first.name⟩]
  | [] => []

/-- Lines 360-368: the recommendation about inactive agents. -/
def inactiveAdvice (agents : List Agent) : List Advice :=
  match agents.filter (fun agent => agent.status == "offline" && gtNum agent.tokens 25000) with
  | first :: _ => [⟨"🗄️", .archive first.name⟩]
  | [] => []

/-- Lines 371-387: the cost message for the total the code has computed. -/
def costAdvice (totalCost : JNum) : Advice :=
  if JNum.lt (.finite 5) totalCost then ⟨"⚠️", .costExceeds (.fixed 2 totalCost.toOption)⟩
  else if JNum.lt totalCost (.finite 1) then ⟨"📈", .lowUsage⟩
  else ⟨"✅", .wellOptimized⟩

/-- Lines 390-400: the recommendation about active token usage. -/
def activeAdvice (agents : List Agent) : List Advice :=
  if JNum.lt (.finite 100000)
      (sumOf Agent.tokens (agents.filter fun a => a.status == "active")) then
    [⟨"🔍", .highActiveUsage⟩]
  else []

/-- Lines 402-409: the recommendation about agents with a low activity score;
`undefined < 60` is false. -/
def slowAdvice (agents : List Agent) : List Advice :=
  let slowAgents := agents.filter fun a =>
    match a.activityScore with
    | some score => decide (score < 60)
    | none => false
  if 0 < slowAgents.length then [⟨"⚡", .lowActivity slowAgents.length⟩] else []

/-- Lines 344-410. -/
def generateRecommendations (d : Dashboard) : List Advice :=
  let totalCost := sumOf Agent.cost d.agents
  (expensiveAdvice d.agents ++ inactiveAdvice d.agents ++ [costAdvice totalCost]
    ++ activeAdvice d.agents ++ slowAdvice d.agents).take 4

/-- A dashboard with two agents of the mock data. -/
def twoAgents : Dashboard :=
  { Dashboard.fresh with agents := [coffeeOperations, busyAnalyst] }

/-- An engine that knows one date and no numeral: every string is NaN as a
number, every number the string `0`, and of the names every object inherits it
knows `constructor`, `toString` and `valueOf`. Enough for bodies in which no
number has to become a string and no string a number. -/
def plainEngine : Engine :=
  { numberToString := fun _ => "0"
    stringToNumber := fun _ => .nan
    dateParse := fun text => if text = "1970-01-12T13:16:40.000Z" then some 998200000 else none
    inherited := fun name => name == "constructor" || name == "toString" || name == "valueOf" }

/-- A decoded agent as the endpoint sends it (src/api/data.js). -/
def analystEntry : JVal :=
  .obj [("id", .str "agent:research:001"), ("name", .str "Research Analyst"),
    ("purpose", .str "Market research, data analysis, and trend identification"),
    ("model", .str "claude-sonnet-4-20250514"), ("status", .str "active"),
    ("lastActivity", .str "1970-01-12T13:16:40.000Z"), ("tokens", .num 90000),
    ("cost", .num 0.45), ("channel", .str "api")]

/-- A decoded agent without `tokens`, `cost` and `lastActivity`. -/
def bareEntry : JVal :=
  .obj [("id", .str "agent:main:telegram:group:-5158435516"),
    ("name", .str "Coffee Operations"), ("status", .str "idle")]

/-- A body with two agents, the first without `tokens` and `cost`, and neither
`cronJobs` nor `stats`. -/
def sparseBody : JVal :=
  .obj [("agents", .arr [bareEntry, analystEntry])]

/-- A body whose second agent entry is `null`. -/
def holedBody : JVal :=
  .obj [("agents", .arr [analystEntry, .null]), ("cronJobs", .arr [])]

/-- The body `{"agents": [5]}`. -/
def numberEntryBody : JVal :=
  .obj [("agents", .arr [.num 5])]

/-- The body `{"agents": [{"cost": "1.5"}]}`. -/
def textCostBody : JVal :=
  .obj [("agents", .arr [.obj [("cost", .str "1.5")]])]

/-- The dashboard after loadAgents has fallen back to the mock data. -/
def mockDashboard : Dashboard :=
  match loadAgents plainEngine plainRuntime .rejected Dashboard.fresh with
  | .ok (.mock d) => d
  | _ => Dashboard.fresh

/-! ## Changing agents and sorting them (dashboard.js, lines 457-466, 894-918, 1118-1130) -/

/-- Apply `change` to the first agent with the given id: the object
`agents.find(a => a.id === agentId)` returns, changed in place. -/
def updateFirst (agentId : String) (change : Agent → Agent) : List Agent → List Agent
  | [] => []
  | a :: rest =>
    if a.id == agentId then change a :: rest else a :: updateFirst agentId change rest

/-- Lines 1118-1130, with the answer of `confirm`. Only `status` is assigned. -/
def toggleAgentStatus (d : Dashboard) (agentId : String) (confirmed : Bool) : Dashboard :=
  match d.agents.find? (fun a => a.id == agentId) with
  | none => d
  | some agent =>
    let newStatus := if agent.status = "active" then "idle" else "active"
    if confirmed then
      { d with agents := updateFirst agentId (fun a => { a with status := newStatus }) d.agents }
    else d

/-- Lines 894-918. The new cost is NaN when the agent has no token count. -/
def changeAgentModel (d : Dashboard) (agentId newModel : String) : Dashboard :=
  match d.agents.find? (fun a => a.id == agentId) with
  | none => d
  | some agent =>
    match ModelManager.getModelInfo (some newModel) with
    | .error _ => d
    | .ok info =>
      { d with
        agents := updateFirst agentId
          (fun a => { a with
            model := some newModel
            cost := agent.tokens.map fun tokens => info.cost * (tokens / 1000) })
          d.agents }

/-- Insert `a` into a sorted list, before the first entry it may precede. -/
def insertSorted {α : Type} (le : α → α → Bool) (a : α) : List α → List α
  | [] => [a]
  | b :: rest => if le a b then a :: b :: rest else b :: insertSorted le a rest

/-- The call `[...list].sort(compare)`: a stable sort. -/
def stableSort {α : Type} (le : α → α → Bool) : List α → List α
  | [] => []
  | a :: rest => insertSorted le a (stableSort le rest)

/-- Lines 458-463: the comparator for the sort key; `localeCompare` is the
collation of the browser. For `status` the difference of the levels decides
unless it is 0 or NaN (a level is missing). A key that is none of the four sorts
by name. -/
def sortFunction (localeCompare : String → String → ℚ) (key : String) (a b : Agent) : ℚ :=
  if key = "status" then
    match b.statusLevel, a.statusLevel with
    | some levelB, some levelA =>
      if levelB = levelA then localeCompare a.name b.name
      else (((levelB : ℤ) - (levelA : ℤ) : ℤ) : ℚ)
    | _, _ => localeCompare a.name b.name
  else if key = "tokens" then b.tokens.getD 0 - a.tokens.getD 0
  else if key = "cost" then b.cost.getD 0 - a.cost.getD 0
  else localeCompare a.name b.name

/-- Lines 457-466. -/
def sortAgents (localeCompare : String → String → ℚ) (d : Dashboard) (agents : List Agent) :
    List Agent :=
  stableSort (fun a b => decide (sortFunction localeCompare d.sort a b ≤ 0)) agents

/-- Does the cached `statusLevel` of every agent equal getStatusLevel of its
status? -/
def levelsCurrent (d : Dashboard) : Bool :=
  d.agents.all fun a => a.statusLevel == some (getStatusLevel a.status)

/-- Do the characters `a` come before the characters `b`, by code point? -/
def charsBefore : List Char → List Char → Bool
  | [], [] => false
  | [], _ :: _ => true
  | _ :: _, [] => false
  | a :: rest, b :: more =>
    if a.toNat < b.toNat then true
    else if a.toNat = b.toNat then charsBefore rest more
    else false

/-- A collation that orders names by the code points of their characters. -/
def plainCompare (a b : String) : ℚ :=
  if charsBefore a.data b.data then -1 else if a = b then 0 else 1

/-- The mock agent `Research Analyst` (dashboard.js, lines 849-859). -/
def researchAnalyst : Agent :=
  Agent.plain "agent:research:001" "Research Analyst"
    "Market research, data analysis, and trend identification" "claude-sonnet-4-20250514"
    "active" 0 45123 0.45 "api"

/-- A low-volume agent whose purpose names both a reminder and an analysis. -/
def digestAgent : Agent :=
  Agent.plain "agent:digest:001" "Daily Digest" "Daily reminder and trend analysis"
    "claude-sonnet-4-20250514" "active" 0 12000 0.04 "telegram"

/-- A low-volume agent for reminders. -/
def reminderAgent : Agent :=
  Agent.plain "agent:reminder:001" "Reminder Bot" "Daily reminder delivery"
    "claude-sonnet-4-20250514" "active" 0 8000 0.02 "telegram"

/-- What cloneAgent makes of `Research Analyst` when the dialog answers
`Analyst Clone` at the clock value 1700000000000: no tokens and no cost yet. -/
def analystClone : Agent :=
  { researchAnalyst with
    id := "agent:main:clone:1700000000000", name := "Analyst Clone", tokens := some 0,
    cost := some 0, status := "offline", lastActivity := some 1700000000000 }

/-! ## CostAlerts (src/model-manager.js, lines 395-514) -/

/-- The texts of the alert messages, with the values put into them. -/
inductive AlertMessage where
  | currentDailyCost (total : Shown) (budget : ℚ)
  | approachingBudget (total : Shown) (budget : ℚ)
  | projectedMonthlyCost (estimate : Shown) (budget : ℚ)
  | agentDailyCost (cost : Shown) (limit : ℚ)
  | offlineAgents (count : Nat)
  deriving DecidableEq, Repr

/-- One alert object; only the alert about an agent carries `agentId`. -/
structure Alert where
  type : String
  title : String
  message : AlertMessage
  action : String
  priority : String
  agentId : Option String
  deriving DecidableEq, Repr

/-- The fields of a CostAlerts instance: the budgets of `this.alerts` and
`this.notifications`. -/
structure CostAlerts where
  dailyBudget : ℚ
  weeklyBudget : ℚ
  monthlyBudget : ℚ
  agentMaxCost : ℚ
  notifications : List Alert
  deriving DecidableEq, Repr

/-- Lines 396-405: the constructor. -/
def CostAlerts.fresh : CostAlerts :=
  { dailyBudget := 5.00, weeklyBudget := 30.00, monthlyBudget := 120.00, agentMaxCost := 2.00,
    notifications := [] }

/-- Line 410: `agents.reduce((sum, agent) => sum + agent.cost, 0)`: the costs are
added one after the other, from the left, each sum rounded; the sum is NaN as
soon as one agent has no cost. -/
def totalDailyCost (agents : List Agent) : JNum :=
  agents.foldl
    (fun sum agent =>
      JNum.add sum
        (match agent.cost with
        | some cost => double cost
        | none => .nan))
    (.finite 0)

/-- Lines 414-431: the alert about the daily budget, for the total the code has
computed. -/
def dailyAlerts (ca : CostAlerts) (total : JNum) : List Alert :=
  if JNum.lt (double ca.dailyBudget) total then
    [{ type := "danger", title := "Daily Budget Exceeded",
       message := .currentDailyCost (.fixed 2 total.toOption) ca.dailyBudget,
       action := "Optimize expensive agents", priority := "high", agentId := none }]
  else if JNum.lt ((double ca.dailyBudget).mul (double 0.8)) total then
    [{ type := "warning", title := "Daily Budget Warning",
       message := .approachingBudget (.fixed 2 total.toOption) ca.dailyBudget,
       action := "Monitor usage closely", priority := "medium", agentId := none }]
  else []

/-- Lines 433-442: the alert about the monthly forecast. -/
def monthlyAlerts (ca : CostAlerts) (monthlyEstimate : JNum) : List Alert :=
  if JNum.lt (double ca.monthlyBudget) monthlyEstimate then
    [{ type := "warning", title := "Monthly Budget Forecast",
       message := .projectedMonthlyCost (.fixed 2 monthlyEstimate.toOption) ca.monthlyBudget,
       action := "Consider model optimization", priority := "medium", agentId := none }]
  else []

/-- Lines 445-456: one alert for every agent above the limit, in the order of
the agents. -/
def agentAlerts (ca : CostAlerts) : List Agent → List Alert
  | [] => []
  | agent :: rest =>
    if gtNum agent.cost ca.agentMaxCost then
      { type := "info", title := "Expensive Agent: " ++ agent.name,
        message := .agentDailyCost (.fixed 2 agent.cost) ca.agentMaxCost,
        action := "Consider switching to Sonnet model", priority := "low",
        agentId := some agent.id } :: agentAlerts ca rest
    else agentAlerts ca rest

/-- Lines 458-471: the alert about offline agents that still cost. -/
def inactiveAlerts (agents : List Agent) : List Alert :=
  let inactiveExpensive := agents.filter fun agent =>
    agent.status == "offline" && gtNum agent.cost 0.5
  if 0 < inactiveExpensive.length then
    [{ type := "info", title := "Inactive Expensive Agents",
       message := .offlineAgents inactiveExpensive.length,
       action := "Archive or optimize", priority := "low", agentId := none }]
  else []

/-- Lines 407-475: the instance afterwards and the list returned. -/
def checkAlerts (ca : CostAlerts) (agents : List Agent) : CostAlerts × List Alert :=
  let total := totalDailyCost agents
  let monthlyEstimate := total.mul (.finite 30)
  let alerts := dailyAlerts ca total ++ monthlyAlerts ca monthlyEstimate
    ++ agentAlerts ca agents ++ inactiveAlerts agents
  ({ ca with notifications := alerts }, alerts)

/-- What createAlertBanner puts into the banner: the count in its title, the
alerts it lists, and the `k` of `+k more alerts`, `none` when that line is not
written. -/
structure Banner where
  count : Nat
  displayAlerts : List Alert
  more : Option Nat
  deriving DecidableEq, Repr

/-- Lines 477-508; `none` is the `null` it returns. -/
def createAlertBanner (alerts : List Alert) : Option Banner :=
  if alerts.length = 0 then none
  else
    let highPriority := alerts.filter fun a => a.priority == "high"
    let mediumPriority := alerts.filter fun a => a.priority == "medium"
    some
      { count := alerts.length
        displayAlerts := (highPriority ++ mediumPriority).take 3
        more := if 3 < alerts.length then some (alerts.length - 3) else none }

/-- Three agents whose costs are the doubles written 0.8, 2.02 and 2.18:
their exact sum is above 5 by a fraction of the last binary place. -/
def thriftyAgents : List Agent :=
  [{ coffeeOperations with cost := some (nearestDouble 0.8) },
    { busyAnalyst with cost := some (nearestDouble 2.02) },
    { researchAnalyst with
      id := "agent:research:002"
      name := "Trend Analyst"
      cost := some (nearestDouble 2.18) }]

/-- Four agents with the costs 0.66, 1.12, 1.36 and 1.86, which as written add
up to exactly 5. -/
def roundAgents : List Agent :=
  [{ coffeeOperations with cost := some 0.66 },
    { busyAnalyst with cost := some 1.12 },
    { researchAnalyst with
      id := "agent:research:002"
      name := "Trend Analyst"
      cost := some 1.36 },
    { reminderAgent with cost := some 1.86 }]

/-- Three agents above the limit of 2.00 a day. -/
def costlyAgents : List Agent :=
  [{ coffeeOperations with cost := some 2.5 },
    { busyAnalyst with cost := some 2.2 },
    { researchAnalyst with
      id := "agent:research:002"
      name := "Trend Analyst"
      cost := some 2.1 }]

/-! ## Basic facts about the browser side -/

theorem absorb_client (w : World) (e : Effect) : (w.absorb e).client = w.client := by
  cases e <;> rfl

theorem foldl_absorb_client (es : List Effect) (w : World) :
    (es.foldl World.absorb w).client = w.client := by
  induction es generalizing w with
  | nil => rfl
  | cons e es ih => simp [List.foldl, ih, absorb_client]

theorem after_client (w : World) (r : Outcome) : (World.after w r).client = r.client := by
  simp [World.after, foldl_absorb_client]

theorem after_history (w : World) (r : Outcome) :
    (World.after w r).history = w.history ++ r.effects := rfl

theorem after_uncaught (w : World) (r : Outcome) :
    (World.after w r).uncaught = w.uncaught ++ r.raised.toList := rfl

theorem eraseIdx_length_append {α : Type} (l : List α) (a : α) :
    (l ++ [a]).eraseIdx l.length = l := by
  induction l with
  | nil => rfl
  | cons x l ih => simp [List.eraseIdx, ih]

theorem step_open (env : Env) (w : World) (id : Nat)
    (h : w.sockets[id]? = some .connecting) :
    step env w (.wsOpen id)
      = some (World.after { w with sockets := w.sockets.set id .opened }
          (onopen env w.client)) := by
  simp [step, h]

theorem step_close (env : Env) (w : World) (id : Nat)
    (h : (w.sockets[id]?).any ReadyState.live = true) :
    step env w (.wsClose id)
      = some (World.after { w with sockets := w.sockets.set id .closed }
          (onclose env w.client)) := by
  simp [step, h]

theorem invocations_onopen (env : Env) (c : Client) :
    invocations (onopen env c).effects = [(.onConnectionRestored, [])] := by
  cases hm : env.agentManager <;>
    simp [onopen, callHandler, onConnectionRestored, hm, invocations]

theorem raised_onopen (env : Env) (c : Client) : (onopen env c).raised = none := by
  cases hm : env.agentManager <;> simp [onopen, callHandler, onConnectionRestored, hm]

theorem onclose_retry (env : Env) (c : Client)
    (hlt : c.reconnectAttempts < c.maxReconnectAttempts) :
    onclose env c
      = ⟨{ c with reconnectAttempts := c.reconnectAttempts + 1 },
          [.consoleLog [.lit "WebSocket connection closed"],
            .consoleLog [.lit "Attempting to reconnect... (", .nat (c.reconnectAttempts + 1),
              .lit "/", .nat c.maxReconnectAttempts, .lit ")"],
            .setTimeout .setupWebSocket c.reconnectDelay],
          none⟩ := by
  simp [onclose, attemptReconnect, hlt]

theorem onclose_exhausted (env : Env) (c : Client)
    (hge : c.maxReconnectAttempts ≤ c.reconnectAttempts) :
    onclose env c
      = ⟨c, .consoleLog [.lit "WebSocket connection closed"]
            :: .consoleError [.lit "Max reconnection attempts reached"]
            :: .invoke .showConnectionError [] :: (showConnectionError env).effects,
          none⟩ := by
  have h : ¬ c.reconnectAttempts < c.maxReconnectAttempts := Nat.not_lt.mpr hge
  cases hm : env.agentManager <;>
    simp [onclose, attemptReconnect, h, callHandler, showConnectionError, hm]

theorem quiet_sockets {w : World} (hq : w.quiet = true) (id : Nat) :
    (w.sockets[id]?).any ReadyState.live = false := by
  simp only [World.quiet, Bool.and_eq_true, List.all_eq_true] at hq
  cases hs : w.sockets[id]? with
  | none => rfl
  | some s =>
    have hmem : s ∈ w.sockets := List.getElem?_mem hs
    simpa using hq.1 s hmem

theorem quiet_step_none (env : Env) (w : World) (e : Event) (hq : w.quiet = true)
    (he : e.isConfigure = false) : step env w e = none := by
  have hsock := quiet_sockets hq
  have htim : w.timers = [] := by
    simp only [World.quiet, Bool.and_eq_true] at hq
    exact List.isEmpty_iff.mp hq.2
  cases e with
  | wsOpen id =>
    have h := hsock id
    cases hs : w.sockets[id]? with
    | none => simp [step, hs]
    | some s => cases s <;> simp_all [step, ReadyState.live]
  | wsMessage id text =>
    have h := hsock id
    cases hs : w.sockets[id]? with
    | none => simp [step, hs]
    | some s => cases s <;> simp_all [step, ReadyState.live]
  | wsError id => simp [step, hsock id]
  | wsClose id => simp [step, hsock id]
  | timeout k => simp [step, htim]
  | configure config => simp [Event.isConfigure] at he

/-! ## The world in which every socket fails -/

theorem firstLive_replicate_closed (k : Nat) (rest : List ReadyState) :
    firstLive (List.replicate k .closed ++ rest) = (firstLive rest).map (· + k) := by
  induction k with
  | zero => simp
  | succ k ih =>
    have hcons : firstLive (ReadyState.closed :: (List.replicate k .closed ++ rest))
        = (firstLive (List.replicate k .closed ++ rest)).map (· + 1) := by
      simp [firstLive, ReadyState.live]
    rw [List.replicate_succ, List.cons_append, hcons, ih]
    cases firstLive rest <;> simp [Nat.add_assoc]

theorem set_replicate_closed (k : Nat) :
    (List.replicate k ReadyState.closed ++ [ReadyState.connecting]).set k ReadyState.closed
      = List.replicate (k + 1) ReadyState.closed := by
  induction k with
  | zero => rfl
  | succ k ih =>
    rw [List.replicate_succ, List.cons_append, List.set_cons_succ, ih, ← List.replicate_succ]

theorem runFailing_stuck (env : Env) (w : World) (h : nextFailure w = none) (fuel : Nat) :
    runFailing env fuel w = w := by
  cases fuel <;> simp [runFailing, h]

theorem runFailing_add (env : Env) (a b : Nat) (w : World) :
    runFailing env (a + b) w = runFailing env b (runFailing env a w) := by
  induction a generalizing w with
  | zero => simp [runFailing]
  | succ a ih =>
    rw [Nat.add_right_comm]
    cases hn : nextFailure w with
    | none => simp [runFailing, hn, runFailing_stuck]
    | some e =>
      cases hs : step env w e with
      | none =>
        simp only [runFailing, hn, hs]
        cases b <;> simp [runFailing, hn, hs]
      | some w1 => simp [runFailing, hn, hs, ih]

theorem retrying_next (env : Env) (k : Nat) (w : World) (h : Retrying env k w) :
    nextFailure w = some (.wsClose k) ∧ (w.sockets[k]?).any ReadyState.live = true := by
  constructor
  · simp [nextFailure, h.sockets, firstLive_replicate_closed, firstLive, ReadyState.live]
  · simp [h.sockets, List.getElem?_append_right, ReadyState.live]

theorem retrying_close (env : Env) (k : Nat) (w : World) (h : Retrying env k w)
    (hlt : k < w.client.maxReconnectAttempts) :
    (runFailing env 1 w).client = { w.client with reconnectAttempts := k + 1 } ∧
      (runFailing env 1 w).sockets = List.replicate (k + 1) .closed ∧
      (runFailing env 1 w).timers = [(.setupWebSocket, w.client.reconnectDelay)] ∧
      openAttempts (runFailing env 1 w).history = k + 1 := by
  obtain ⟨hn, hlive⟩ := retrying_next env k w h
  have hlt1 : w.client.reconnectAttempts < w.client.maxReconnectAttempts := by
    rw [h.attempts]; exact hlt
  have hc := onclose_retry env w.client hlt1
  have hrun : runFailing env 1 w
      = World.after { w with sockets := w.sockets.set k .closed } (onclose env w.client) := by
    simp [runFailing, hn, step_close env w k hlive]
  rw [hrun]
  refine ⟨?_, ?_, ?_, ?_⟩
  · simp [after_client, hc, h.attempts]
  · simp [World.after, hc, World.absorb, h.sockets, List.replicate_succ']
  · simp [World.after, hc, World.absorb, h.timers]
  · simp [after_history, hc, openAttempts, Effect.isOpenAttempt] 
    simpa [openAttempts] using h.opens

theorem firstLive_all_closed (n : Nat) :
    firstLive (List.replicate n ReadyState.closed) = none := by
  have h := firstLive_replicate_closed n []
  simpa [firstLive] using h

theorem runFailing_one (env : Env) (w w1 : World) (e : Event)
    (hn : nextFailure w = some e) (hs : step env w e = some w1) :
    runFailing env 1 w = w1 := by
  simp [runFailing, hn, hs]

theorem retrying_again (env : Env) (k : Nat) (w : World) (h : Retrying env k w)
    (hlt : k < w.client.maxReconnectAttempts) :
    Retrying env (k + 1) (runFailing env 2 w) ∧
      (runFailing env 2 w).client.maxReconnectAttempts = w.client.maxReconnectAttempts := by
  obtain ⟨hcl, hso, hti, hop⟩ := retrying_close env k w h hlt
  rw [show 2 = 1 + 1 from rfl, runFailing_add]
  generalize runFailing env 1 w = w1 at hcl hso hti hop ⊢
  have hn : nextFailure w1 = some (.timeout 0) := by
    simp [nextFailure, hso, hti, firstLive_all_closed]
  have hurl : env.webSocketThrows w1.client.wsUrl = false := by
    rw [hcl]; exact h.url
  have hsw : setupWebSocket env w1.client w1.sockets.length
      = ⟨{ w1.client with ws := some w1.sockets.length },
          [.newWebSocket w1.client.wsUrl w1.sockets.length], none⟩ := by
    simp [setupWebSocket, hurl]
  have hst : step env w1 (.timeout 0)
      = some (World.after { w1 with timers := [] }
          ⟨{ w1.client with ws := some w1.sockets.length },
            [.newWebSocket w1.client.wsUrl w1.sockets.length], none⟩) := by
    simp [step, hti, hsw]
  rw [runFailing_one env w1 _ _ hn hst]
  refine ⟨⟨?_, ?_, ?_, ?_, ?_⟩, ?_⟩
  · simp [after_client, hcl]
  · simp [after_client, hcl, h.url]
  · simp [World.after, World.absorb, hso]
  · simp [World.after, World.absorb]
  · simp [after_history, openAttempts, Effect.isOpenAttempt]
    simpa [openAttempts] using hop
  · simp [after_client, hcl]

theorem retrying_at (env : Env) (w : World) (h : Retrying env 0 w) (j : Nat)
    (hj : j ≤ w.client.maxReconnectAttempts) :
    Retrying env j (runFailing env (2 * j) w) ∧
      (runFailing env (2 * j) w).client.maxReconnectAttempts
        = w.client.maxReconnectAttempts := by
  induction j with
  | zero => exact ⟨by simpa [runFailing] using h, by simp [runFailing]⟩
  | succ j ih =>
    obtain ⟨hr, hm⟩ := ih (Nat.le_of_succ_le hj)
    have hlt : j < (runFailing env (2 * j) w).client.maxReconnectAttempts := by
      rw [hm]; exact hj
    obtain ⟨hr2, hm2⟩ := retrying_again env j _ hr hlt
    rw [show 2 * (j + 1) = 2 * j + 2 by ring, runFailing_add]
    exact ⟨hr2, hm2.trans hm⟩

theorem retrying_last (env : Env) (k : Nat) (w : World) (h : Retrying env k w)
    (hge : w.client.maxReconnectAttempts ≤ k) :
    (runFailing env 1 w).client = w.client ∧
      (runFailing env 1 w).sockets = List.replicate (k + 1) .closed ∧
      (runFailing env 1 w).timers = [] ∧
      openAttempts (runFailing env 1 w).history = k + 1 := by
  obtain ⟨hn, hlive⟩ := retrying_next env k w h
  have hge1 : w.client.maxReconnectAttempts ≤ w.client.reconnectAttempts := by
    rw [h.attempts]; exact hge
  have hc := onclose_exhausted env w.client hge1
  rw [runFailing_one env w _ _ hn (step_close env w k hlive), hc]
  refine ⟨?_, ?_, ?_, ?_⟩
  · simp [after_client]
  · cases hm : env.agentManager <;>
      simp [World.after, showConnectionError, hm, World.absorb, h.sockets,
        List.replicate_succ']
  · cases hm : env.agentManager <;>
      simp [World.after, showConnectionError, hm, World.absorb, h.timers]
  · cases hm : env.agentManager <;>
      simp [after_history, showConnectionError, hm, openAttempts, Effect.isOpenAttempt] <;>
      simpa [openAttempts] using h.opens

/-! ## What the methods do to the fields -/

theorem applyTo_keeps (config : Config) (c : Client) :
    (config.applyTo c).ws = c.ws ∧
      (config.applyTo c).reconnectAttempts = c.reconnectAttempts ∧
      (config.applyTo c).maxReconnectAttempts = c.maxReconnectAttempts := by
  unfold Config.applyTo
  split_ifs <;> exact ⟨rfl, rfl, rfl⟩

theorem handleWebSocketMessage_client (env : Env) (c : Client) (data : JVal) :
    (handleWebSocketMessage env c data).client = c := by
  unfold handleWebSocketMessage
  cases data.prop "type" with
  | error e => rfl
  | ok type =>
    simp only [callHandler]
    split_ifs <;> rfl

theorem onmessage_client (env : Env) (c : Client) (text : String) :
    (onmessage env c text).client = c := by
  unfold onmessage
  cases env.jsonParse text with
  | none => rfl
  | some data => exact handleWebSocketMessage_client env c data

theorem setupWebSocket_counters (env : Env) (c : Client) (fresh : Nat) :
    (setupWebSocket env c fresh).client.reconnectAttempts = c.reconnectAttempts ∧
      (setupWebSocket env c fresh).client.maxReconnectAttempts = c.maxReconnectAttempts := by
  unfold setupWebSocket
  split_ifs <;> exact ⟨rfl, rfl⟩

theorem configure_counters (env : Env) (c : Client) (config : Config) (fresh : Nat) :
    (configure env c config fresh).client.reconnectAttempts = c.reconnectAttempts ∧
      (configure env c config fresh).client.maxReconnectAttempts
        = c.maxReconnectAttempts := by
  simp only [configure]
  exact ⟨(setupWebSocket_counters env _ fresh).1.trans (applyTo_keeps config c).2.1,
    (setupWebSocket_counters env _ fresh).2.trans (applyTo_keeps config c).2.2⟩

theorem onclose_counters (env : Env) (c : Client)
    (h : c.reconnectAttempts ≤ c.maxReconnectAttempts) :
    (onclose env c).client.reconnectAttempts ≤ (onclose env c).client.maxReconnectAttempts ∧
      (onclose env c).client.maxReconnectAttempts = c.maxReconnectAttempts := by
  by_cases hlt : c.reconnectAttempts < c.maxReconnectAttempts
  · rw [onclose_retry env c hlt]; exact ⟨hlt, rfl⟩
  · rw [onclose_exhausted env c (Nat.not_lt.mp hlt)]; exact ⟨h, rfl⟩

theorem step_bounded (env : Env) (w w1 : World) (e : Event) (hs : step env w e = some w1)
    (h : w.client.reconnectAttempts ≤ w.client.maxReconnectAttempts) :
    w1.client.reconnectAttempts ≤ w1.client.maxReconnectAttempts ∧
      w1.client.maxReconnectAttempts = w.client.maxReconnectAttempts := by
  cases e with
  | wsOpen id =>
    simp only [step] at hs
    split_ifs at hs
    cases hs
    simp [after_client, onopen, callHandler]
  | wsMessage id text =>
    simp only [step] at hs
    split_ifs at hs
    cases hs
    simp [after_client, onmessage_client, h]
  | wsError id =>
    simp only [step] at hs
    split_ifs at hs
    cases hs
    simp [after_client, onerror, h]
  | wsClose id =>
    simp only [step] at hs
    split_ifs at hs
    cases hs
    simpa [after_client] using onclose_counters env w.client h
  | timeout k =>
    simp only [step] at hs
    split at hs
    · cases hs
      simp [after_client, setupWebSocket_counters, h]
    · cases hs
  | configure config =>
    simp only [step] at hs
    cases hs
    simp [after_client, configure_counters, h]

theorem run_bounded (env : Env) (events : List Event) (w w1 : World)
    (hr : run env w events = some w1)
    (h : w.client.reconnectAttempts ≤ w.client.maxReconnectAttempts) :
    w1.client.reconnectAttempts ≤ w1.client.maxReconnectAttempts ∧
      w1.client.maxReconnectAttempts = w.client.maxReconnectAttempts := by
  induction events generalizing w with
  | nil =>
    simp only [run, Option.some.injEq] at hr
    subst hr
    exact ⟨h, rfl⟩
  | cons e rest ih =>
    simp only [run] at hr
    cases hs : step env w e with
    | none => simp [hs] at hr
    | some w2 =>
      rw [hs] at hr
      obtain ⟨hb, hm⟩ := step_bounded env w w2 e hs h
      obtain ⟨hb1, hm1⟩ := ih w2 hr hb
      exact ⟨hb1, hm1.trans hm⟩

theorem start_counters (env : Env) :
    (start env).client.reconnectAttempts = 0 ∧ (start env).client.maxReconnectAttempts = 5 := by
  simp only [start, after_client, construct]
  exact setupWebSocket_counters env _ 0

theorem configure_opens (env : Env) (c : Client) (config : Config) (fresh : Nat)
    (hctor : ∀ url, env.webSocketThrows url = false) :
    configure env c config fresh
      = ⟨{ config.applyTo c with ws := some fresh },
          (match c.ws with
            | some id => [.wsClose id]
            | none => []) ++ [.newWebSocket (config.applyTo c).wsUrl fresh],
          none⟩ := by
  simp only [configure, setupWebSocket, hctor, (applyTo_keeps config c).1]
  rfl

/-! ## Which handlers a message reaches -/

theorem invocations_append (xs ys : List Effect) :
    invocations (xs ++ ys) = invocations xs ++ invocations ys := by
  induction xs with
  | nil => rfl
  | cons e xs ih => cases e <;> simp [invocations, ih]

theorem template_cases (pieces : List Piece) :
    (pieces.all Piece.stringable = true ∧ template pieces = .ok pieces) ∨
      (pieces.all Piece.stringable = false ∧ template pieces = .error .typeError) := by
  unfold template
  cases h : pieces.all Piece.stringable <;> simp

theorem invocations_updateCards (status : JVal) (cards : List Bool) (i : Nat) :
    invocations (updateCards status i cards).effects = [] := by
  induction cards generalizing i with
  | nil => rfl
  | cons b rest ih =>
    cases b with
    | false => simpa [updateCards] using ih (i + 1)
    | true =>
      rcases template_cases [.lit "status status-", .val status] with ⟨_, h⟩ | ⟨_, h⟩
      · cases status <;> simp [updateCards, h, invocations]
        exact ih (i + 1)
      · simp [updateCards, h, invocations]

theorem invocations_updateAgentStatus (env : Env) (agentId status : JVal) :
    invocations (updateAgentStatus env agentId status).effects = [] := by
  unfold updateAgentStatus
  rcases template_cases [.lit "[data-agent-id=\x22", .val agentId, .lit "\x22]"]
    with ⟨_, h⟩ | ⟨_, h⟩
  · rw [h]
    cases env.querySelectorAll agentId with
    | none => rfl
    | some cards =>
      have hc := invocations_updateCards status cards 0
      cases hr : (updateCards status 0 cards).raised with
      | some e => simpa [hr] using hc
      | none =>
        rcases template_cases [.lit "Agent ", .val agentId, .lit " is now ", .val status]
          with ⟨_, ht⟩ | ⟨_, ht⟩ <;>
          cases hm : env.agentManager <;>
            simp [hr, hm, ht, invocations_append, hc, invocations]
  · rw [h]
    rfl

theorem invocations_notifyCronExecution (env : Env) (jobId result : JVal) :
    invocations (notifyCronExecution env jobId result).effects = [] := by
  unfold notifyCronExecution
  cases result.prop "success" with
  | error e => rfl
  | ok success =>
    cases result.prop "error" with
    | error e =>
      rcases template_cases [.lit "Cron job ", .val jobId, .lit " completed successfully"]
        with ⟨_, h⟩ | ⟨_, h⟩ <;>
        cases ht : success.truthy <;> cases hm : env.agentManager <;>
          simp [ht, hm, h, invocations]
    | ok error =>
      rcases template_cases [.lit "Cron job ", .val jobId, .lit " completed successfully"]
        with ⟨_, h⟩ | ⟨_, h⟩ <;>
        rcases template_cases [.lit "Cron job ", .val jobId, .lit " failed: ", .val error]
          with ⟨_, h1⟩ | ⟨_, h1⟩ <;>
          cases ht : success.truthy <;> cases hm : env.agentManager <;>
            simp [ht, hm, h, h1, invocations]

theorem invocations_showCostAlert (env : Env) (message amount : JVal) :
    invocations (showCostAlert env message amount).effects = [] := by
  rcases template_cases [.lit "Cost Alert: ", .val message, .lit " ($", .val amount, .lit ")"]
    with ⟨_, h⟩ | ⟨_, h⟩ <;>
    cases hm : env.agentManager <;> simp [showCostAlert, hm, h, invocations]

theorem invocations_showSystemNotification (env : Env) (message priority : JVal) :
    invocations (showSystemNotification env message priority).effects = [] := by
  cases hm : env.agentManager <;> simp [showSystemNotification, hm, invocations]

theorem prop_field {data v : JVal} {k k1 : String} (h : data.prop k = .ok v) :
    data.prop k1 = .ok (data.field k1) := by
  cases data <;> simp_all [JVal.prop, JVal.field]

/-! ## Which handlers can raise -/

theorem updateCards_string (s : String) (cards : List Bool) (i : Nat) :
    (updateCards (.str s) i cards).raised = none := by
  induction cards generalizing i with
  | nil => rfl
  | cons b rest ih =>
    cases b with
    | false => simpa [updateCards] using ih (i + 1)
    | true => simpa [updateCards, template, Piece.stringable, JVal.stringable] using ih (i + 1)

theorem showCostAlert_raised (env : Env) (message amount : JVal) :
    (showCostAlert env message amount).raised
      = (if env.agentManager && !(message.stringable && amount.stringable) then
          some .typeError
        else none) := by
  cases hm : env.agentManager <;> cases h1 : message.stringable <;>
    cases h2 : amount.stringable <;>
      simp [showCostAlert, template, Piece.stringable, hm, h1, h2]

theorem showCostAlert_effects (env : Env) (message amount : JVal) :
    (showCostAlert env message amount).effects
      = (if env.agentManager && message.stringable && amount.stringable then
          [.showNotification
            [.lit "Cost Alert: ", .val message, .lit " ($", .val amount, .lit ")"] "warning"]
        else []) := by
  cases hm : env.agentManager <;> cases h1 : message.stringable <;>
    cases h2 : amount.stringable <;>
      simp [showCostAlert, template, Piece.stringable, hm, h1, h2]

theorem prop_of_present (v : JVal) (k : String) (hnull : v ≠ .null)
    (hundefined : v ≠ .undefined) : v.prop k = .ok (v.field k) := by
  cases v <;> simp_all [JVal.prop, JVal.field]

theorem notifyCronExecution_present (env : Env) (jobId result : JVal)
    (hnull : result ≠ .null) (hundefined : result ≠ .undefined) :
    notifyCronExecution env jobId result
      = (if (result.field "success").truthy then
          if jobId.stringable then
            ⟨if env.agentManager then
                [.showNotification
                  [.lit "Cron job ", .val jobId, .lit " completed successfully"] "success"]
              else [], none⟩
          else ⟨[], some .typeError⟩
        else
          if jobId.stringable && (result.field "error").stringable then
            ⟨if env.agentManager then
                [.showNotification
                  [.lit "Cron job ", .val jobId, .lit " failed: ", .val (result.field "error")]
                  "error"]
              else [], none⟩
          else ⟨[], some .typeError⟩) := by
  have hs := prop_of_present result "success" hnull hundefined
  have he := prop_of_present result "error" hnull hundefined
  cases ht : (result.field "success").truthy <;> cases hj : jobId.stringable <;>
    cases hr : (result.field "error").stringable <;> cases hm : env.agentManager <;>
      simp [notifyCronExecution, hs, he, ht, hj, hr, hm, template, Piece.stringable]

theorem notifyCronExecution_missing (env : Env) (jobId result : JVal)
    (h : result = .undefined ∨ result = .null) :
    notifyCronExecution env jobId result = ⟨[], some .typeError⟩ := by
  rcases h with h | h <;> simp [h, notifyCronExecution, JVal.prop]

theorem updateCards_raised (status : JVal) (cards : List Bool) (i : Nat) :
    (updateCards status i cards).raised = none
      ↔ (cards.any id = true → ∃ s, status = .str s) := by
  induction cards generalizing i with
  | nil => simp [updateCards]
  | cons b rest ih =>
    cases b with
    | false => simpa [updateCards] using ih (i + 1)
    | true =>
      rcases template_cases [.lit "status status-", .val status] with ⟨_, h⟩ | ⟨_, h⟩
      · cases status <;> simp [updateCards, h, updateCards_string]
      · have hno : ¬ ∃ s, status = .str s := by
          rintro ⟨s, rfl⟩
          simp [template, Piece.stringable, JVal.stringable] at h
        simpa [updateCards, h] using hno

theorem updateAgentStatus_raised (env : Env) (agentId status : JVal) :
    (updateAgentStatus env agentId status).raised = none
      ↔ agentId.stringable = true ∧
        ∃ cards, env.querySelectorAll agentId = some cards ∧
          (cards.any id = true → ∃ s, status = .str s) ∧
          (env.agentManager = true → status.stringable = true) := by
  cases hid : agentId.stringable
  · simp [updateAgentStatus, template, Piece.stringable, hid]
  · cases hsel : env.querySelectorAll agentId with
    | none => simp [updateAgentStatus, template, Piece.stringable, hid, hsel]
    | some cards =>
      have hc := updateCards_raised status cards 0
      cases hr : (updateCards status 0 cards).raised with
      | some e =>
        have hno : ¬ (cards.any id = true → ∃ s, status = .str s) := by
          rw [← hc, hr]
          simp
        rw [show (updateAgentStatus env agentId status).raised = some e by
          simp [updateAgentStatus, template, Piece.stringable, hid, hsel, hr]]
        constructor
        · intro h
          cases h
        · rintro ⟨_, cards1, hc1, h, _⟩
          cases hc1
          exact absurd h hno
      | none =>
        have hyes := hc.mp hr
        cases hm : env.agentManager <;> cases hs : status.stringable <;>
          simp [updateAgentStatus, template, Piece.stringable, hid, hsel, hr, hm, hs]
        all_goals simpa using hyes

/-! ## Rounding to doubles -/

theorem roundHalfEven_of_floor {x : ℚ} (f : ℤ) (h1 : (f : ℚ) ≤ x) (h2 : x < f + 1) :
    roundHalfEven x
      = (if x - f < 1 / 2 then f
        else if x - f = 1 / 2 then (if f % 2 = 0 then f else f + 1)
        else f + 1) := by
  have hf : Int.floor x = f := Int.floor_eq_iff.mpr ⟨h1, h2⟩
  simp [roundHalfEven, hf]

theorem ulpExponent_of_pos {x : ℚ} (e : ℤ) (he : -1074 ≤ e)
    (hlo : (2 : ℚ) ^ (e + 52) ≤ x) (hhi : x < (2 : ℚ) ^ (e + 53)) :
    ulpExponent x = e := by
  have hpos : 0 < x := lt_of_lt_of_le (by positivity) hlo
  have hlog : Int.log 2 x = e + 52 := by
    apply le_antisymm
    · have := (Int.lt_zpow_iff_log_lt (b := 2) (by norm_num) (x := e + 53) hpos).mp
        (by simpa using hhi)
      omega
    · exact (Int.zpow_le_iff_le_log (b := 2) (by norm_num) hpos).mp (by simpa using hlo)
  unfold ulpExponent
  rw [abs_of_pos hpos, hlog]
  omega

theorem nearestDouble_of_pos {x : ℚ} (e f : ℤ) (he : -1074 ≤ e)
    (hlo : (2 : ℚ) ^ (e + 52) ≤ x) (hhi : x < (2 : ℚ) ^ (e + 53))
    (h1 : (f : ℚ) ≤ x / 2 ^ e) (h2 : x / 2 ^ e < f + 1) :
    nearestDouble x
      = ((if x / 2 ^ e - f < 1 / 2 then f
          else if x / 2 ^ e - f = 1 / 2 then (if f % 2 = 0 then f else f + 1)
          else f + 1 : ℤ) : ℚ) * 2 ^ e := by
  have hpos : 0 < x := lt_of_lt_of_le (by positivity) hlo
  unfold nearestDouble
  rw [if_neg (ne_of_gt hpos), ulpExponent_of_pos e he hlo hhi, roundHalfEven_of_floor f h1 h2]

theorem double_of_nearest {x y : ℚ} (h : nearestDouble x = y) (h0 : 0 ≤ y)
    (h1 : y < 2 ^ 1024) : double x = .finite y := by
  unfold double
  rw [h, abs_of_nonneg h0, if_neg (not_le.mpr h1)]

theorem double_zero : double 0 = .finite 0 := by
  apply double_of_nearest _ (le_refl 0) (by norm_num)
  simp [nearestDouble]

theorem costly_cost1 :
    double (2.5)
      = .finite (5 / 2) := by
  apply double_of_nearest _ (by norm_num) (by norm_num)
  rw [nearestDouble_of_pos (-51) 5629499534213120 (by norm_num) (by norm_num) (by norm_num)
    (by norm_num) (by norm_num)]
  norm_num

theorem costly_cost2 :
    double (2.2)
      = .finite (2476979795053773 / 1125899906842624) := by
  apply double_of_nearest _ (by norm_num) (by norm_num)
  rw [nearestDouble_of_pos (-51) 4953959590107545 (by norm_num) (by norm_num) (by norm_num)
    (by norm_num) (by norm_num)]
  norm_num

theorem costly_cost3 :
    double (2.1)
      = .finite (4728779608739021 / 2251799813685248) := by
  apply double_of_nearest _ (by norm_num) (by norm_num)
  rw [nearestDouble_of_pos (-51) 4728779608739020 (by norm_num) (by norm_num) (by norm_num)
    (by norm_num) (by norm_num)]
  norm_num

theorem costly_sum1 :
    double (0 + 5 / 2)
      = .finite (5 / 2) := by
  apply double_of_nearest _ (by norm_num) (by norm_num)
  rw [nearestDouble_of_pos (-51) 5629499534213120 (by norm_num) (by norm_num) (by norm_num)
    (by norm_num) (by norm_num)]
  norm_num

theorem costly_sum2 :
    double (5 / 2 + 2476979795053773 / 1125899906842624)
      = .finite (5291729562160333 / 1125899906842624) := by
  apply double_of_nearest _ (by norm_num) (by norm_num)
  rw [nearestDouble_of_pos (-50) 5291729562160333 (by norm_num) (by norm_num) (by norm_num)
    (by norm_num) (by norm_num)]
  norm_num

theorem costly_sum3 :
    double (5291729562160333 / 1125899906842624 + 4728779608739021 / 2251799813685248)
      = .finite (1914029841632461 / 281474976710656) := by
  apply double_of_nearest _ (by norm_num) (by norm_num)
  rw [nearestDouble_of_pos (-50) 7656119366529843 (by norm_num) (by norm_num) (by norm_num)
    (by norm_num) (by norm_num)]
  norm_num

theorem costly_month :
    double (1914029841632461 / 281474976710656 * 30)
      = .finite (7177611906121729 / 35184372088832) := by
  apply double_of_nearest _ (by norm_num) (by norm_num)
  rw [nearestDouble_of_pos (-45) 7177611906121728 (by norm_num) (by norm_num) (by norm_num)
    (by norm_num) (by norm_num)]
  norm_num

theorem four_cost1 :
    double (0.66)
      = .finite (5944751508129055 / 9007199254740992) := by
  apply double_of_nearest _ (by norm_num) (by norm_num)
  rw [nearestDouble_of_pos (-53) 5944751508129054 (by norm_num) (by norm_num) (by norm_num)
    (by norm_num) (by norm_num)]
  norm_num

theorem four_cost2 :
    double (1.12)
      = .finite (1261007895663739 / 1125899906842624) := by
  apply double_of_nearest _ (by norm_num) (by norm_num)
  rw [nearestDouble_of_pos (-52) 5044031582654955 (by norm_num) (by norm_num) (by norm_num)
    (by norm_num) (by norm_num)]
  norm_num

theorem four_cost3 :
    double (1.36)
      = .finite (6124895493223875 / 4503599627370496) := by
  apply double_of_nearest _ (by norm_num) (by norm_num)
  rw [nearestDouble_of_pos (-52) 6124895493223874 (by norm_num) (by norm_num) (by norm_num)
    (by norm_num) (by norm_num)]
  norm_num

theorem four_cost4 :
    double (1.86)
      = .finite (8376695306909123 / 4503599627370496) := by
  apply double_of_nearest _ (by norm_num) (by norm_num)
  rw [nearestDouble_of_pos (-52) 8376695306909122 (by norm_num) (by norm_num) (by norm_num)
    (by norm_num) (by norm_num)]
  norm_num

theorem four_sum1 :
    double (0 + 5944751508129055 / 9007199254740992)
      = .finite (5944751508129055 / 9007199254740992) := by
  apply double_of_nearest _ (by norm_num) (by norm_num)
  rw [nearestDouble_of_pos (-53) 5944751508129055 (by norm_num) (by norm_num) (by norm_num)
    (by norm_num) (by norm_num)]
  norm_num

theorem four_sum2 :
    double (5944751508129055 / 9007199254740992 + 1261007895663739 / 1125899906842624)
      = .finite (2004101834179871 / 1125899906842624) := by
  apply double_of_nearest _ (by norm_num) (by norm_num)
  rw [nearestDouble_of_pos (-52) 8016407336719483 (by norm_num) (by norm_num) (by norm_num)
    (by norm_num) (by norm_num)]
  norm_num

theorem four_sum3 :
    double (2004101834179871 / 1125899906842624 + 6124895493223875 / 4503599627370496)
      = .finite (220957856717865 / 70368744177664) := by
  apply double_of_nearest _ (by norm_num) (by norm_num)
  rw [nearestDouble_of_pos (-51) 7070651414971679 (by norm_num) (by norm_num) (by norm_num)
    (by norm_num) (by norm_num)]
  norm_num

theorem four_sum4 :
    double (220957856717865 / 70368744177664 + 8376695306909123 / 4503599627370496)
      = .finite (5629499534213121 / 1125899906842624) := by
  apply double_of_nearest _ (by norm_num) (by norm_num)
  rw [nearestDouble_of_pos (-50) 5629499534213120 (by norm_num) (by norm_num) (by norm_num)
    (by norm_num) (by norm_num)]
  norm_num

theorem four_month :
    double (5629499534213121 / 1125899906842624 * 30)
      = .finite (5277655813324801 / 35184372088832) := by
  apply double_of_nearest _ (by norm_num) (by norm_num)
  rw [nearestDouble_of_pos (-45) 5277655813324800 (by norm_num) (by norm_num) (by norm_num)
    (by norm_num) (by norm_num)]
  norm_num

theorem near_080 :
    nearestDouble (0.8) = 3602879701896397 / 4503599627370496 := by
  rw [nearestDouble_of_pos (-53) 7205759403792793 (by norm_num) (by norm_num) (by norm_num)
    (by norm_num) (by norm_num)]
  norm_num

theorem near_202 :
    nearestDouble (2.02) = 4548635623644201 / 2251799813685248 := by
  rw [nearestDouble_of_pos (-51) 4548635623644200 (by norm_num) (by norm_num) (by norm_num)
    (by norm_num) (by norm_num)]
  norm_num

theorem near_218 :
    nearestDouble (2.18) = 4908923593833841 / 2251799813685248 := by
  rw [nearestDouble_of_pos (-51) 4908923593833840 (by norm_num) (by norm_num) (by norm_num)
    (by norm_num) (by norm_num)]
  norm_num

theorem three_cost1 :
    double (3602879701896397 / 4503599627370496)
      = .finite (3602879701896397 / 4503599627370496) := by
  apply double_of_nearest _ (by norm_num) (by norm_num)
  rw [nearestDouble_of_pos (-53) 7205759403792794 (by norm_num) (by norm_num) (by norm_num)
    (by norm_num) (by norm_num)]
  norm_num

theorem three_cost2 :
    double (4548635623644201 / 2251799813685248)
      = .finite (4548635623644201 / 2251799813685248) := by
  apply double_of_nearest _ (by norm_num) (by norm_num)
  rw [nearestDouble_of_pos (-51) 4548635623644201 (by norm_num) (by norm_num) (by norm_num)
    (by norm_num) (by norm_num)]
  norm_num

theorem three_cost3 :
    double (4908923593833841 / 2251799813685248)
      = .finite (4908923593833841 / 2251799813685248) := by
  apply double_of_nearest _ (by norm_num) (by norm_num)
  rw [nearestDouble_of_pos (-51) 4908923593833841 (by norm_num) (by norm_num) (by norm_num)
    (by norm_num) (by norm_num)]
  norm_num

theorem three_sum1 :
    double (0 + 3602879701896397 / 4503599627370496)
      = .finite (3602879701896397 / 4503599627370496) := by
  apply double_of_nearest _ (by norm_num) (by norm_num)
  rw [nearestDouble_of_pos (-53) 7205759403792794 (by norm_num) (by norm_num) (by norm_num)
    (by norm_num) (by norm_num)]
  norm_num

theorem three_sum2 :
    double (3602879701896397 / 4503599627370496 + 4548635623644201 / 2251799813685248)
      = .finite (396879717162025 / 140737488355328) := by
  apply double_of_nearest _ (by norm_num) (by norm_num)
  rw [nearestDouble_of_pos (-51) 6350075474592399 (by norm_num) (by norm_num) (by norm_num)
    (by norm_num) (by norm_num)]
  norm_num

theorem three_sum3 :
    double (396879717162025 / 140737488355328 + 4908923593833841 / 2251799813685248)
      = .finite (5) := by
  apply double_of_nearest _ (by norm_num) (by norm_num)
  rw [nearestDouble_of_pos (-50) 5629499534213120 (by norm_num) (by norm_num) (by norm_num)
    (by norm_num) (by norm_num)]
  norm_num

theorem three_month :
    double (5 * 30)
      = .finite (150) := by
  apply double_of_nearest _ (by norm_num) (by norm_num)
  rw [nearestDouble_of_pos (-45) 5277655813324800 (by norm_num) (by norm_num) (by norm_num)
    (by norm_num) (by norm_num)]
  norm_num

theorem budget_daily :
    double (5.00)
      = .finite (5) := by
  apply double_of_nearest _ (by norm_num) (by norm_num)
  rw [nearestDouble_of_pos (-50) 5629499534213120 (by norm_num) (by norm_num) (by norm_num)
    (by norm_num) (by norm_num)]
  norm_num

theorem budget_monthly :
    double (120.00)
      = .finite (120) := by
  apply double_of_nearest _ (by norm_num) (by norm_num)
  rw [nearestDouble_of_pos (-46) 8444249301319680 (by norm_num) (by norm_num) (by norm_num)
    (by norm_num) (by norm_num)]
  norm_num

theorem eight_tenths :
    double (0.8)
      = .finite (3602879701896397 / 4503599627370496) := by
  apply double_of_nearest _ (by norm_num) (by norm_num)
  rw [nearestDouble_of_pos (-53) 7205759403792793 (by norm_num) (by norm_num) (by norm_num)
    (by norm_num) (by norm_num)]
  norm_num

theorem budget_warning :
    double (5 * (3602879701896397 / 4503599627370496))
      = .finite (4) := by
  apply double_of_nearest _ (by norm_num) (by norm_num)
  rw [nearestDouble_of_pos (-50) 4503599627370496 (by norm_num) (by norm_num) (by norm_num)
    (by norm_num) (by norm_num)]
  norm_num

theorem sparse_cost :
    double (0.45)
      = .finite (8106479329266893 / 18014398509481984) := by
  apply double_of_nearest _ (by norm_num) (by norm_num)
  rw [nearestDouble_of_pos (-54) 8106479329266892 (by norm_num) (by norm_num) (by norm_num)
    (by norm_num) (by norm_num)]
  norm_num

theorem sparse_cost_sum :
    double (0 + 8106479329266893 / 18014398509481984)
      = .finite (8106479329266893 / 18014398509481984) := by
  apply double_of_nearest _ (by norm_num) (by norm_num)
  rw [nearestDouble_of_pos (-54) 8106479329266893 (by norm_num) (by norm_num) (by norm_num)
    (by norm_num) (by norm_num)]
  norm_num

theorem sparse_tokens :
    double (90000)
      = .finite (90000) := by
  apply double_of_nearest _ (by norm_num) (by norm_num)
  rw [nearestDouble_of_pos (-36) 6184752906240000 (by norm_num) (by norm_num) (by norm_num)
    (by norm_num) (by norm_num)]
  norm_num

theorem sparse_tokens_sum :
    double (0 + 90000)
      = .finite (90000) := by
  apply double_of_nearest _ (by norm_num) (by norm_num)
  rw [nearestDouble_of_pos (-36) 6184752906240000 (by norm_num) (by norm_num) (by norm_num)
    (by norm_num) (by norm_num)]
  norm_num

/-! ## The dashboard -/

theorem advice_shape (r1 r2 r4 r5 : List Advice) (c : Advice)
    (h1 : r1 = [] ∨ ∃ x, r1 = [x] ∧ x.isCost = false)
    (h2 : r2 = [] ∨ ∃ x, r2 = [x] ∧ x.isCost = false)
    (h4 : r4 = [] ∨ ∃ x, r4 = [x] ∧ x.isCost = false)
    (h5 : r5 = [] ∨ ∃ x, r5 = [x] ∧ x.isCost = false)
    (hc : c.isCost = true) :
    1 ≤ ((r1 ++ r2 ++ [c] ++ r4 ++ r5).take 4).length ∧
      ((r1 ++ r2 ++ [c] ++ r4 ++ r5).take 4).length ≤ 4 ∧
      ((r1 ++ r2 ++ [c] ++ r4 ++ r5).take 4).countP Advice.isCost = 1 ∧
      c ∈ (r1 ++ r2 ++ [c] ++ r4 ++ r5).take 4 := by
  rcases h1 with rfl | ⟨x1, rfl, hx1⟩ <;> rcases h2 with rfl | ⟨x2, rfl, hx2⟩ <;>
    rcases h4 with rfl | ⟨x4, rfl, hx4⟩ <;> rcases h5 with rfl | ⟨x5, rfl, hx5⟩ <;>
    simp [List.countP_cons, *]

theorem expensiveAdvice_shape (agents : List Agent) :
    expensiveAdvice agents = [] ∨ ∃ x, expensiveAdvice agents = [x] ∧ x.isCost = false := by
  unfold expensiveAdvice
  split
  · exact Or.inr ⟨_, rfl, rfl⟩
  · exact Or.inl rfl

theorem inactiveAdvice_shape (agents : List Agent) :
    inactiveAdvice agents = [] ∨ ∃ x, inactiveAdvice agents = [x] ∧ x.isCost = false := by
  unfold inactiveAdvice
  split
  · exact Or.inr ⟨_, rfl, rfl⟩
  · exact Or.inl rfl

theorem activeAdvice_shape (agents : List Agent) :
    activeAdvice agents = [] ∨ ∃ x, activeAdvice agents = [x] ∧ x.isCost = false := by
  unfold activeAdvice
  split
  · exact Or.inr ⟨_, rfl, rfl⟩
  · exact Or.inl rfl

theorem slowAdvice_shape (agents : List Agent) :
    slowAdvice agents = [] ∨ ∃ x, slowAdvice agents = [x] ∧ x.isCost = false := by
  unfold slowAdvice
  simp only
  split
  · exact Or.inr ⟨_, rfl, rfl⟩
  · exact Or.inl rfl

theorem costAdvice_isCost (totalCost : JNum) : (costAdvice totalCost).isCost = true := by
  unfold costAdvice
  split_ifs <;> rfl

/-! ## The rules of getModelRecommendation -/

theorem low_is_not_high (tokens : Option ℚ) (h : ltNum tokens 20000 = true) :
    gtNum tokens 80000 = false := by
  cases tokens with
  | none => rfl
  | some q =>
    simp only [ltNum, decide_eq_true_eq] at h
    simp only [gtNum, decide_eq_false_iff_not, not_lt]
    linarith

theorem recommend_ok (agent : Agent) (model recommended reason : String)
    (hm : agent.model = some model) :
    ∃ impact, ModelManager.recommend agent recommended reason
      = .ok (some ⟨recommended, reason, impact⟩) := by
  unfold ModelManager.recommend ModelManager.calculateCostImpact ModelManager.getModelInfo
  rw [hm]
  simp only
  cases ModelManager.models model <;> cases ModelManager.models recommended <;> exact ⟨_, rfl⟩

/-! ## Cost alerts -/

theorem banner_view (alerts : List Alert) :
    (createAlertBanner alerts).map (fun b => (b.displayAlerts.map (·.title), b.more))
      = if alerts.length = 0 then none
        else some
          (List.map Prod.fst
            ((((alerts.map fun a => (a.title, a.priority)).filter fun p => p.2 == "high")
              ++ ((alerts.map fun a => (a.title, a.priority)).filter
                fun p => p.2 == "medium")).take 3),
            if 3 < alerts.length then some (alerts.length - 3) else none) := by
  unfold createAlertBanner
  split_ifs <;> simp [List.map_take, List.filter_map, Function.comp_def]

theorem expensive_title_starts (name : String) :
    ("Expensive Agent: " ++ name).data.head? = some 'E' := by
  rw [String.data_append]
  rfl

theorem expensive_title_ne (name other : String) (h : other.data.head? = some 'D') :
    (("Expensive Agent: " ++ name) == other) = false := by
  rw [beq_eq_false_iff_ne]
  intro heq
  have h1 := expensive_title_starts name
  rw [heq, h] at h1
  exact absurd h1 (by decide)

theorem agentAlerts_titles (ca : CostAlerts) (agents : List Agent) (other : String)
    (h : other.data.head? = some 'D') :
    (agentAlerts ca agents).countP (fun a => a.title == other) = 0 := by
  induction agents with
  | nil => rfl
  | cons a rest ih =>
    unfold agentAlerts
    split_ifs
    · rw [List.countP_cons, ih]
      simp [expensive_title_ne a.name other h]
    · exact ih

theorem agentAlerts_ids (ca : CostAlerts) (agents : List Agent) :
    (agentAlerts ca agents).filterMap (·.agentId)
        = (agents.filter fun a => gtNum a.cost ca.agentMaxCost).map (·.id) ∧
      (agentAlerts ca agents).map (·.title)
        = (agents.filter fun a => gtNum a.cost ca.agentMaxCost).map
            (fun a => "Expensive Agent: " ++ a.name) ∧
      (agentAlerts ca agents).filter (fun a => a.agentId.isSome) = agentAlerts ca agents := by
  induction agents with
  | nil => exact ⟨rfl, rfl, rfl⟩
  | cons a rest ih =>
    unfold agentAlerts
    by_cases hgt : gtNum a.cost ca.agentMaxCost = true
    · simp [hgt, ih.1, ih.2.1, ih.2.2]
    · simp [hgt, ih.1, ih.2.1, ih.2.2]

theorem dailyAlerts_exceeded (ca : CostAlerts) (total : JNum) :
    (dailyAlerts ca total).countP (fun a => a.title == "Daily Budget Exceeded")
      = (if JNum.lt (double ca.dailyBudget) total then 1 else 0) := by
  unfold dailyAlerts
  split_ifs <;> simp

theorem dailyAlerts_warning (ca : CostAlerts) (total : JNum) :
    (dailyAlerts ca total).countP (fun a => a.title == "Daily Budget Warning")
      = (if JNum.lt ((double ca.dailyBudget).mul (double 0.8)) total
            && !JNum.lt (double ca.dailyBudget) total then 1
        else 0) := by
  unfold dailyAlerts
  split_ifs <;> simp_all

theorem monthlyAlerts_other (ca : CostAlerts) (estimate : JNum) (title : String)
    (hne : (title == "Monthly Budget Forecast") = false) :
    (monthlyAlerts ca estimate).countP (fun a => a.title == title) = 0 := by
  unfold monthlyAlerts
  split_ifs
  · simp only [List.countP_cons, List.countP_nil]
    rw [beq_eq_false_iff_ne] at hne
    simp [Ne.symm hne]
  · rfl

theorem inactiveAlerts_other (agents : List Agent) (title : String)
    (hne : (title == "Inactive Expensive Agents") = false) :
    (inactiveAlerts agents).countP (fun a => a.title == title) = 0 := by
  unfold inactiveAlerts
  simp only
  split_ifs
  · simp only [List.countP_cons, List.countP_nil]
    rw [beq_eq_false_iff_ne] at hne
    simp [Ne.symm hne]
  · rfl

theorem alerts_without_id (ca : CostAlerts) (agents : List Agent) (total estimate : JNum) :
    (dailyAlerts ca total).filterMap (·.agentId) = [] ∧
      (monthlyAlerts ca estimate).filterMap (·.agentId) = [] ∧
      (inactiveAlerts agents).filterMap (·.agentId) = [] ∧
      (dailyAlerts ca total).filter (fun a => a.agentId.isSome) = [] ∧
      (monthlyAlerts ca estimate).filter (fun a => a.agentId.isSome) = [] ∧
      (inactiveAlerts agents).filter (fun a => a.agentId.isSome) = [] := by
  unfold dailyAlerts monthlyAlerts inactiveAlerts
  simp only
  refine ⟨?_, ?_, ?_, ?_, ?_, ?_⟩ <;> split_ifs <;> rfl

theorem checkAlerts_parts (ca : CostAlerts) (agents : List Agent) :
    (checkAlerts ca agents).2
      = dailyAlerts ca (totalDailyCost agents)
        ++ monthlyAlerts ca ((totalDailyCost agents).mul (.finite 30))
        ++ agentAlerts ca agents ++ inactiveAlerts agents :=
  rfl

theorem fresh_daily : double CostAlerts.fresh.dailyBudget = .finite 5 :=
  budget_daily

theorem fresh_monthly : double CostAlerts.fresh.monthlyBudget = .finite 120 :=
  budget_monthly

theorem fresh_warning :
    (double CostAlerts.fresh.dailyBudget).mul (double 0.8) = .finite 4 := by
  rw [fresh_daily, eight_tenths]
  exact budget_warning

theorem costly_total :
    totalDailyCost costlyAgents = .finite (1914029841632461 / 281474976710656) := by
  show JNum.add (JNum.add (JNum.add (.finite 0) (double 2.5)) (double 2.2)) (double 2.1) = _
  simp only [costly_cost1, costly_cost2, costly_cost3, JNum.add, costly_sum1, costly_sum2,
    costly_sum3]

theorem thrifty_total : totalDailyCost thriftyAgents = .finite 5 := by
  show JNum.add (JNum.add (JNum.add (.finite 0) (double (nearestDouble 0.8)))
    (double (nearestDouble 2.02))) (double (nearestDouble 2.18)) = _
  simp only [near_080, near_202, near_218, three_cost1, three_cost2, three_cost3, JNum.add,
    three_sum1, three_sum2, three_sum3]

theorem round_total :
    totalDailyCost roundAgents = .finite (5629499534213121 / 1125899906842624) := by
  show JNum.add (JNum.add (JNum.add (JNum.add (.finite 0) (double 0.66)) (double 1.12))
    (double 1.36)) (double 1.86) = _
  simp only [four_cost1, four_cost2, four_cost3, four_cost4, JNum.add, four_sum1, four_sum2,
    four_sum3, four_sum4]

/-- The total of generateRecommendations (dashboard.js, line 346) for the costs
0.66, 1.12, 1.36 and 1.86 is the double next above 5, and the cost message is
the one for a total above 5. -/
theorem round_sum :
    sumOf Agent.cost roundAgents = .finite (5629499534213121 / 1125899906842624) ∧
      (costAdvice (sumOf Agent.cost roundAgents)).text
        = .costExceeds (.fixed 2 (some (5629499534213121 / 1125899906842624))) := by
  have h : sumOf Agent.cost roundAgents
      = .finite (5629499534213121 / 1125899906842624) := round_total
  refine ⟨h, ?_⟩
  rw [h]
  simp only [costAdvice, JNum.lt, JNum.toOption]
  norm_num

/-! ## The decoded body -/

theorem toPrimitive_of_isPrimitive (eng : Engine) (v : JVal) (h : v.isPrimitive = true) :
    ∃ p, v.toPrimitive eng = .ok p := by
  cases v <;> simp_all [JVal.toPrimitive, JVal.isPrimitive]

theorem toStr_of_isPrimitive (eng : Engine) (v : JVal) (h : v.isPrimitive = true) :
    ∃ s, v.toStr eng = .ok s := by
  cases v <;> simp_all [JVal.toStr, JVal.isPrimitive]

theorem prop_of_assignable (v : JVal) (k : String) (h : v.assignable = true) :
    v.prop k = .ok (v.field k) := by
  cases v <;> simp_all [JVal.prop, JVal.field, JVal.assignable]

theorem enhanceAgent_plain (eng : Engine) (rt : Runtime) (i : Nat) (agent : JVal)
    (h : plainEntry agent = true) :
    ∃ x, Decoded.enhanceAgent eng rt i agent = .ok x ∧ x.agent = agent := by
  simp only [plainEntry, Bool.and_eq_true] at h
  obtain ⟨⟨⟨⟨ha, ht⟩, hc⟩, hs⟩, hl⟩ := h
  obtain ⟨tokens, htokens⟩ := toPrimitive_of_isPrimitive eng _ ht
  obtain ⟨cost, hcost⟩ := toPrimitive_of_isPrimitive eng _ hc
  obtain ⟨status, hstatus⟩ := toStr_of_isPrimitive eng _ hs
  obtain ⟨last, hlast⟩ := toPrimitive_of_isPrimitive eng _ hl
  have htime : ∃ tv, Decoded.timeValue eng (agent.field "lastActivity") = .ok tv := by
    unfold Decoded.timeValue
    rw [hlast]
    cases last <;> exact ⟨_, rfl⟩
  obtain ⟨tv, htime⟩ := htime
  have hscore : ∃ n, Decoded.calculateActivityScore eng rt agent = .ok n := by
    unfold Decoded.calculateActivityScore
    simp only [prop_of_assignable agent "lastActivity" ha, htime]
    cases tv <;> exact ⟨_, rfl⟩
  obtain ⟨score, hscore⟩ := hscore
  unfold Decoded.enhanceAgent Decoded.getStatusLevel
  simp only [prop_of_assignable agent "tokens" ha, htokens, hcost, hstatus, hscore, ha, if_true]
  split_ifs <;> exact ⟨_, rfl, rfl⟩

theorem enhanceFrom_plain (eng : Engine) (rt : Runtime) (entries : List JVal) (i : Nat)
    (h : ∀ e ∈ entries, plainEntry e = true) :
    ∃ enhanced, Decoded.enhanceFrom eng rt i entries = .ok enhanced ∧
      enhanced.map (·.agent) = entries := by
  induction entries generalizing i with
  | nil => exact ⟨[], rfl, rfl⟩
  | cons e rest ih =>
    obtain ⟨x, hx, hagent⟩ := enhanceAgent_plain eng rt i e (h e (List.mem_cons_self _ _))
    obtain ⟨more, hmore, hagents⟩ := ih (i + 1) (fun a ha => h a (List.mem_cons_of_mem _ ha))
    exact ⟨x :: more, by simp [Decoded.enhanceFrom, hx, hmore], by simp [hagent, hagents]⟩

theorem countWhere_ok (test : JVal → Except JsError Bool) (found : JVal → Bool)
    (xs : List JVal) (h : ∀ x ∈ xs, test x = .ok (found x)) :
    Decoded.countWhere test xs = .ok (xs.countP found) := by
  induction xs with
  | nil => rfl
  | cons x rest ih =>
    have hx := h x (List.mem_cons_self _ _)
    have hrest := ih (fun a ha => h a (List.mem_cons_of_mem _ ha))
    simp only [Decoded.countWhere, hx, hrest, List.countP_cons]
    cases found x <;> simp

theorem plus_ok (eng : Engine) (sum : Prim) (v : JVal) (p : Prim)
    (h : v.toPrimitive eng = .ok p) : ∃ next, plus eng sum v = .ok next := by
  unfold plus
  rw [h]
  cases sum <;> cases p <;> exact ⟨_, rfl⟩

theorem orZero_isPrimitive (v : JVal) (h : v.isPrimitive = true) :
    (orZero v).isPrimitive = true := by
  unfold orZero
  split_ifs
  · exact h
  · rfl

theorem sumOf_primitive (eng : Engine) (key : String) (entries : List JVal) (sum : Prim)
    (h : ∀ e ∈ entries, e.assignable = true ∧ (e.field key).isPrimitive = true) :
    ∃ total, Decoded.sumOf eng key sum entries = .ok total := by
  induction entries generalizing sum with
  | nil => exact ⟨sum, rfl⟩
  | cons e rest ih =>
    obtain ⟨ha, hp⟩ := h e (List.mem_cons_self _ _)
    obtain ⟨p, hprim⟩ := toPrimitive_of_isPrimitive eng _ (orZero_isPrimitive _ hp)
    obtain ⟨next, hnext⟩ := plus_ok eng sum _ p hprim
    obtain ⟨total, htotal⟩ := ih next (fun a ha => h a (List.mem_cons_of_mem _ ha))
    exact ⟨total, by simp only [Decoded.sumOf, prop_of_assignable e key ha, hnext, htotal]⟩

theorem plus_number (eng : Engine) (acc : JNum) (v : JVal)
    (h : v.truthy = false ∨ v.isNumber = true) :
    plus eng (.num acc) (orZero v) = .ok (.num (acc.add (double v.numberOrZero))) := by
  rcases h with h | h
  · have hz : orZero v = .num 0 := by simp [orZero, h]
    have hn : v.numberOrZero = 0 := by
      cases v <;> simp_all [JVal.numberOrZero, JVal.truthy]
    rw [hz, hn]
    rfl
  · cases v <;> simp_all [JVal.isNumber]
    rename_i q
    by_cases hq : q = 0
    · subst hq
      rfl
    · have hz : orZero (.num q) = .num q := by simp [orZero, JVal.truthy, hq]
      rw [hz]
      rfl

theorem sumOf_numbers (eng : Engine) (key : String) (entries : List JVal) (acc : JNum)
    (h : ∀ e ∈ entries, e.assignable = true ∧
      ((e.field key).truthy = false ∨ (e.field key).isNumber = true)) :
    Decoded.sumOf eng key (.num acc) entries
      = .ok (.num (entries.foldl
          (fun sum e => sum.add (double (e.field key).numberOrZero)) acc)) := by
  induction entries generalizing acc with
  | nil => rfl
  | cons e rest ih =>
    obtain ⟨ha, hv⟩ := h e (List.mem_cons_self _ _)
    simp only [Decoded.sumOf, prop_of_assignable e key ha, plus_number eng acc _ hv,
      List.foldl]
    exact ih _ (fun a ha => h a (List.mem_cons_of_mem _ ha))

theorem plainEntry_parts (agent : JVal) (h : plainEntry agent = true) :
    agent.assignable = true ∧ (agent.field "tokens").isPrimitive = true ∧
      (agent.field "cost").isPrimitive = true := by
  simp only [plainEntry, Bool.and_eq_true] at h
  exact ⟨h.1.1.1.1, h.1.1.1.2, h.1.1.2⟩

theorem calculateStats_plain (eng : Engine) (entries jobs : List JVal)
    (hentries : ∀ e ∈ entries, plainEntry e = true)
    (hcosts : ∀ e ∈ entries,
      (e.field "cost").truthy = false ∨ (e.field "cost").isNumber = true)
    (hjobs : ∀ j ∈ jobs, j ≠ .null ∧ j ≠ .undefined) :
    ∃ computed, Decoded.calculateStats eng (.arr entries) (.arr jobs) = .ok computed ∧
      computed.activeAgents = entries.countP (fun a => (a.field "status").isStr "active") ∧
      computed.pendingTasks = jobs.countP (fun j => (j.field "enabled").truthy) ∧
      computed.totalCost
        = .fixed 2 (entries.foldl
            (fun (sum : JNum) e => sum.add (double (e.field "cost").numberOrZero))
            (.finite 0)).toOption ∧
      ((∀ e ∈ entries,
          (e.field "tokens").truthy = false ∨ (e.field "tokens").isNumber = true) →
        computed.totalTokens
          = .num (entries.foldl
              (fun (sum : JNum) e => sum.add (double (e.field "tokens").numberOrZero))
              (.finite 0))) := by
  have hactive := countWhere_ok (fun a => (a.prop "status").map (·.isStr "active"))
    (fun a => (a.field "status").isStr "active") entries
    (fun a ha => by
      simp only [prop_of_assignable a "status" (plainEntry_parts a (hentries a ha)).1]
      rfl)
  have hpending := countWhere_ok (fun j => (j.prop "enabled").map JVal.truthy)
    (fun j => (j.field "enabled").truthy) jobs
    (fun j hj => by
      simp only [prop_of_present j "enabled" (hjobs j hj).1 (hjobs j hj).2]
      rfl)
  have hcost := sumOf_numbers eng "cost" entries (.finite 0)
    (fun e he => ⟨(plainEntry_parts e (hentries e he)).1, hcosts e he⟩)
  obtain ⟨tokens, htokens⟩ := sumOf_primitive eng "tokens" entries (.num (.finite 0))
    (fun e he => ⟨(plainEntry_parts e (hentries e he)).1,
      (plainEntry_parts e (hentries e he)).2.1⟩)
  refine ⟨
    { activeAgents := entries.countP (fun a => (a.field "status").isStr "active")
      pendingTasks := jobs.countP (fun j => (j.field "enabled").truthy)
      totalCost := .fixed 2 (entries.foldl
        (fun (sum : JNum) e => sum.add (double (e.field "cost").numberOrZero))
        (.finite 0)).toOption
      totalTokens := tokens
      tokensToday := ((tokens.toNumber eng).mul (double 0.15)).round
      burnRate := ((((tokens.toNumber eng).mul (double 0.15)).round).div (.finite 24)).round },
    ?_, rfl, rfl, rfl, ?_⟩
  · simp only [Decoded.calculateStats, Decoded.items, hactive, hpending, hcost, htokens]
  · intro hnumbers
    have hnum := sumOf_numbers eng "tokens" entries (.finite 0)
      (fun e he => ⟨(plainEntry_parts e (hentries e he)).1, hnumbers e he⟩)
    rw [hnum] at htokens
    cases htokens
    rfl

theorem enhanceAgent_primitive (eng : Engine) (rt : Runtime) (i : Nat) (agent : JVal)
    (h : agent.assignable = false) :
    ∃ err, Decoded.enhanceAgent eng rt i agent = .error err := by
  cases agent <;>
    simp_all [Decoded.enhanceAgent, JVal.prop, JVal.toPrimitive, Prim.toNumber, JNum.lt,
      JVal.assignable]

theorem enhanceFrom_primitive (eng : Engine) (rt : Runtime) (entries : List JVal) (i : Nat)
    (h : ∃ e ∈ entries, e.assignable = false) :
    ∃ err, Decoded.enhanceFrom eng rt i entries = .error err := by
  induction entries generalizing i with
  | nil =>
    obtain ⟨e, he, _⟩ := h
    cases he
  | cons a rest ih =>
    unfold Decoded.enhanceFrom
    cases ha : Decoded.enhanceAgent eng rt i a with
    | error err => exact ⟨err, rfl⟩
    | ok x =>
      obtain ⟨e, he, hbad⟩ := h
      rcases List.mem_cons.mp he with rfl | hrest
      · obtain ⟨err, herr⟩ := enhanceAgent_primitive eng rt i e hbad
        rw [herr] at ha
        cases ha
      · obtain ⟨err, herr⟩ := ih (i + 1) ⟨e, hrest, hbad⟩
        exact ⟨err, by simp only [herr]⟩

theorem field_of_prop {data found : JVal} {k : String} (h : data.prop k = .ok found) :
    data.field k = found := by
  simp [JVal.field, h]

theorem loadLive_enhance_error (eng : Engine) (rt : Runtime) (data : JVal) (err : JsError)
    (h : Decoded.enhanceAgentData eng rt (orEmpty (data.field "agents")) = .error err) :
    ∃ e, loadLive eng rt data = .error e := by
  unfold loadLive
  cases hp : data.prop "agents" with
  | error e => exact ⟨e, rfl⟩
  | ok found =>
    rw [field_of_prop hp] at h
    simp only [h]
    split
    · exact ⟨_, rfl⟩
    · exact ⟨_, rfl⟩

theorem loadLive_stats_error (eng : Engine) (rt : Runtime) (data : JVal) (err : JsError)
    (hstats : (data.field "stats").truthy = false)
    (h : Decoded.calculateStats eng (orEmpty (data.field "agents"))
      (orEmpty (data.field "cronJobs")) = .error err) :
    ∃ e, loadLive eng rt data = .error e := by
  unfold loadLive
  cases hp : data.prop "agents" with
  | error e => exact ⟨e, rfl⟩
  | ok found =>
    rw [field_of_prop hp] at h
    simp only [hstats, h]
    exact ⟨_, rfl⟩

theorem loadAgents_error (eng : Engine) (rt : Runtime) (data : JVal) (d : Dashboard)
    (err : JsError) (h : loadLive eng rt data = .error err) :
    loadAgents eng rt (.response true (some data)) d = loadAgents eng rt .rejected d := by
  simp [loadAgents, h]

theorem plus_text_left (eng : Engine) (t : String) (v : JVal) (next : Prim)
    (h : plus eng (.str t) v = .ok next) : ∃ s, next = .str s := by
  unfold plus at h
  cases hp : v.toPrimitive eng with
  | error e => simp [hp] at h
  | ok p =>
    simp only [hp] at h
    cases h
    exact ⟨_, rfl⟩

theorem plus_text_right (eng : Engine) (sum : Prim) (s : String) (next : Prim)
    (hs : s ≠ "") (h : plus eng sum (orZero (.str s)) = .ok next) : ∃ t, next = .str t := by
  have hz : orZero (.str s) = .str s := by simp [orZero, JVal.truthy, hs]
  rw [hz] at h
  cases sum <;> simp [plus, JVal.toPrimitive] at h <;> exact ⟨_, h.symm⟩

theorem sumOf_text (eng : Engine) (key : String) (entries : List JVal) (sum total : Prim)
    (h : Decoded.sumOf eng key sum entries = .ok total)
    (htext : (∃ t, sum = .str t) ∨ ∃ e ∈ entries, ∃ s, e.field key = .str s ∧ s ≠ "") :
    ∃ t, total = .str t := by
  induction entries generalizing sum with
  | nil =>
    rcases htext with ⟨t, rfl⟩ | ⟨e, he, _⟩
    · simp only [Decoded.sumOf] at h
      cases h
      exact ⟨t, rfl⟩
    · cases he
  | cons a rest ih =>
    unfold Decoded.sumOf at h
    cases hp : a.prop key with
    | error e => simp [hp] at h
    | ok v =>
      simp only [hp] at h
      cases hn : plus eng sum (orZero v) with
      | error e => simp [hn] at h
      | ok next =>
        simp only [hn] at h
        apply ih next h
        rcases htext with ⟨t, rfl⟩ | ⟨e, he, s, hs, hne⟩
        · exact Or.inl (plus_text_left eng t _ next hn)
        · rcases List.mem_cons.mp he with rfl | hrest
          · rw [field_of_prop hp] at hs
            subst hs
            exact Or.inl (plus_text_right eng sum s next hne hn)
          · exact Or.inr ⟨e, hrest, s, hs, hne⟩

theorem calculateStats_text (eng : Engine) (entries : List JVal) (cronJobs : JVal)
    (h : ∃ e ∈ entries, ∃ s, e.field "cost" = .str s ∧ s ≠ "") :
    ∃ err, Decoded.calculateStats eng (.arr entries) cronJobs = .error err := by
  unfold Decoded.calculateStats
  rw [show Decoded.items (.arr entries) = .ok entries from rfl]
  simp only
  cases Decoded.countWhere (fun a => (a.prop "status").map (·.isStr "active")) entries with
  | error e => exact ⟨e, rfl⟩
  | ok active =>
    simp only
    cases Decoded.items cronJobs with
    | error e => exact ⟨e, rfl⟩
    | ok jobs =>
      simp only
      cases Decoded.countWhere (fun j => (j.prop "enabled").map JVal.truthy) jobs with
      | error e => exact ⟨e, rfl⟩
      | ok pending =>
        simp only
        cases hc : Decoded.sumOf eng "cost" (.num (.finite 0)) entries with
        | error e => exact ⟨e, rfl⟩
        | ok totalCost =>
          obtain ⟨t, rfl⟩ := sumOf_text eng "cost" entries _ totalCost hc (Or.inr h)
          simp only
          cases Decoded.sumOf eng "tokens" (.num (.finite 0)) entries with
          | error e => exact ⟨e, rfl⟩
          | ok totalTokens => exact ⟨_, rfl⟩

theorem loadLive_plain (eng : Engine) (rt : Runtime) (data : JVal) (entries : List JVal)
    (hnull : data ≠ .null) (hundefined : data ≠ .undefined)
    (hagents : orEmpty (data.field "agents") = .arr entries)
    (hentries : ∀ e ∈ entries, plainEntry e = true)
    (hstats : (data.field "stats").truthy = true ∨
      ((∀ e ∈ entries, (e.field "cost").truthy = false ∨ (e.field "cost").isNumber = true) ∧
        ∃ jobs, orEmpty (data.field "cronJobs") = .arr jobs ∧
          ∀ j ∈ jobs, j ≠ .null ∧ j ≠ .undefined)) :
    ∃ enhanced stats,
      loadLive eng rt data
        = .ok { agents := enhanced, cronJobs := orEmpty (data.field "cronJobs"), stats := stats } ∧
      enhanced.map (·.agent) = entries ∧
      ((data.field "stats").truthy = true → stats = .sent (data.field "stats")) ∧
      ((data.field "stats").truthy = false →
        ∃ computed, stats = .computed computed ∧
          Decoded.calculateStats eng (.arr entries) (orEmpty (data.field "cronJobs"))
            = .ok computed ∧
          computed.activeAgents
            = entries.countP (fun a => (a.field "status").isStr "active") ∧
          computed.totalCost
            = .fixed 2 (entries.foldl
                (fun (sum : JNum) e => sum.add (double (e.field "cost").numberOrZero))
                (.finite 0)).toOption ∧
          ((∀ e ∈ entries,
              (e.field "tokens").truthy = false ∨ (e.field "tokens").isNumber = true) →
            computed.totalTokens
              = .num (entries.foldl
                  (fun (sum : JNum) e => sum.add (double (e.field "tokens").numberOrZero))
                  (.finite 0)))) := by
  obtain ⟨enhanced, henh, hmap⟩ := enhanceFrom_plain eng rt entries 0 hentries
  have hprop := prop_of_present data "agents" hnull hundefined
  have henhance : Decoded.enhanceAgentData eng rt (.arr entries) = .ok enhanced := by
    simp only [Decoded.enhanceAgentData, Decoded.items, henh]
  cases hs : (data.field "stats").truthy with
  | true =>
    refine ⟨enhanced, .sent (data.field "stats"), ?_, hmap, (fun _ => rfl),
      (fun h => by cases h)⟩
    simp only [loadLive, hprop, hagents, hs, henhance, if_true]
  | false =>
    rcases hstats with h | ⟨hcosts, jobs, hjobs, hpresent⟩
    · rw [hs] at h
      cases h
    · obtain ⟨computed, hcomputed, hactive, _, hcost, htokens⟩ :=
        calculateStats_plain eng entries jobs hentries hcosts hpresent
      refine ⟨enhanced, .computed computed, ?_, hmap, (fun h => by cases h),
        fun _ => ⟨computed, rfl, (by rw [hjobs]; exact hcomputed), hactive, hcost, htokens⟩⟩
      simp only [loadLive, hprop, hagents, hs, hjobs, hcomputed, henhance]
      rfl

theorem loadAgents_live (eng : Engine) (rt : Runtime) (data : JVal) (d : Dashboard)
    (live : LiveData) (h : loadLive eng rt data = .ok live) :
    loadAgents eng rt (.response true (some data)) d = .ok (.live live) := by
  simp [loadAgents, h]

theorem loadLive_unassignable (eng : Engine) (rt : Runtime) (data : JVal)
    (entries : List JVal) (hagents : data.field "agents" = .arr entries)
    (hbad : ∃ e ∈ entries, e.assignable = false) :
    ∃ err, loadLive eng rt data = .error err := by
  obtain ⟨err, herr⟩ := enhanceFrom_primitive eng rt entries 0 hbad
  apply loadLive_enhance_error eng rt data err
  rw [hagents]
  simp only [orEmpty, JVal.truthy, if_true, Decoded.enhanceAgentData, Decoded.items, herr]

theorem loadLive_text_cost (eng : Engine) (rt : Runtime) (data : JVal)
    (entries : List JVal) (hagents : data.field "agents" = .arr entries)
    (hstats : (data.field "stats").truthy = false)
    (hcost : ∃ e ∈ entries, ∃ s, e.field "cost" = .str s ∧ s ≠ "") :
    ∃ err, loadLive eng rt data = .error err := by
  obtain ⟨err, herr⟩ := calculateStats_text eng entries (orEmpty (data.field "cronJobs")) hcost
  apply loadLive_stats_error eng rt data err hstats
  rw [hagents]
  simpa only [orEmpty, JVal.truthy, if_true] using herr

theorem sparse_cost_total :
    [bareEntry, analystEntry].foldl
        (fun (sum : JNum) a => sum.add (double (a.field "cost").numberOrZero)) (.finite 0)
      = .finite (8106479329266893 / 18014398509481984) := by
  have h1 : (bareEntry.field "cost").numberOrZero = 0 := by
    simp [bareEntry, JVal.field, JVal.prop, JVal.numberOrZero, List.lookup]
  have h2 : (analystEntry.field "cost").numberOrZero = 0.45 := by
    simp [analystEntry, JVal.field, JVal.prop, JVal.numberOrZero, List.lookup]
  have h0 : JNum.add (.finite 0) (.finite 0) = .finite 0 := by
    simp only [JNum.add, add_zero, double_zero]
  rw [List.foldl_cons, List.foldl_cons, List.foldl_nil, h1, h2, double_zero, sparse_cost, h0]
  exact sparse_cost_sum

theorem sparse_tokens_total :
    [bareEntry, analystEntry].foldl
        (fun (sum : JNum) a => sum.add (double (a.field "tokens").numberOrZero)) (.finite 0)
      = .finite 90000 := by
  have h1 : (bareEntry.field "tokens").numberOrZero = 0 := by
    simp [bareEntry, JVal.field, JVal.prop, JVal.numberOrZero, List.lookup]
  have h2 : (analystEntry.field "tokens").numberOrZero = 90000 := by
    simp [analystEntry, JVal.field, JVal.prop, JVal.numberOrZero, List.lookup]
  have h0 : JNum.add (.finite 0) (.finite 0) = .finite 0 := by
    simp only [JNum.add, add_zero, double_zero]
  rw [List.foldl_cons, List.foldl_cons, List.foldl_nil, h1, h2, double_zero, sparse_tokens, h0]
  exact sparse_tokens_sum

/-! ## The claims -/

/-- C1. Whenever the transport opens (the `onopen` callback runs on a connecting
socket), the event is delivered, `reconnectAttempts` is exactly 0 afterwards
whatever it was before, `onConnectionRestored` is called exactly once and no
other handler is, and nothing is raised. -/
theorem open_resets_attempts (env : Env) (w : World) (id : Nat)
    (h : w.sockets[id]? = some .connecting) :
    ∃ w1, step env w (.wsOpen id) = some w1 ∧
      w1.client.reconnectAttempts = 0 ∧
      (onopen env w.client).client.reconnectAttempts = 0 ∧
      w1.history = w.history ++ (onopen env w.client).effects ∧
      invocations (onopen env w.client).effects = [(.onConnectionRestored, [])] ∧
      (onopen env w.client).raised = none ∧
      w1.uncaught = w.uncaught := by
  refine ⟨_, step_open env w id h, ?_, rfl, ?_, invocations_onopen env _,
    raised_onopen env _, ?_⟩
  · simp [after_client, onopen, callHandler]
  · simp [after_history]
  · simp [after_uncaught, raised_onopen]

/-- Witness for C1: after the first socket of a fresh client has failed the
counter reads 1; the second socket opens and the counter is back at 0. -/
theorem open_resets_attempts_witness :
    (runFailing plainEnv 2 (start plainEnv)).client.reconnectAttempts = 1 ∧
    ∃ w1, step plainEnv (runFailing plainEnv 2 (start plainEnv)) (.wsOpen 1) = some w1 ∧
      w1.client.reconnectAttempts = 0 ∧
      invocations (onopen plainEnv (runFailing plainEnv 2 (start plainEnv)).client).effects
        = [(.onConnectionRestored, [])] ∧
      (onopen plainEnv (runFailing plainEnv 2 (start plainEnv)).client).raised = none ∧
      w1.uncaught = (runFailing plainEnv 2 (start plainEnv)).uncaught := by
  obtain ⟨w1, hstep, hzero, _, _, hcalls, hraised, huncaught⟩ :=
    open_resets_attempts plainEnv (runFailing plainEnv 2 (start plainEnv)) 1 (by decide)
  exact ⟨by decide, w1, hstep, hzero, hcalls, hraised, huncaught⟩

/-- C2. In every state with `reconnectAttempts < maxReconnectAttempts`, a close
event on a socket that is not closed yet is delivered, raises `reconnectAttempts`
by exactly 1, opens no socket itself and sets exactly one timer, with delay
`reconnectDelay`; when that timer fires it runs `setupWebSocket`. -/
theorem close_schedules_one_retry (env : Env) (w : World) (id : Nat)
    (hlive : (w.sockets[id]?).any ReadyState.live = true)
    (hlt : w.client.reconnectAttempts < w.client.maxReconnectAttempts) :
    ∃ w1, step env w (.wsClose id) = some w1 ∧
      w1.client.reconnectAttempts = w.client.reconnectAttempts + 1 ∧
      w1.client.maxReconnectAttempts = w.client.maxReconnectAttempts ∧
      timersSet (onclose env w.client).effects
        = [(.setupWebSocket, w.client.reconnectDelay)] ∧
      openAttempts (onclose env w.client).effects = 0 ∧
      (onclose env w.client).raised = none ∧
      w1.timers = w.timers ++ [(.setupWebSocket, w.client.reconnectDelay)] ∧
      w1.sockets = w.sockets.set id .closed ∧
      step env w1 (.timeout w.timers.length)
        = some (World.after { w1 with timers := w.timers }
            (setupWebSocket env w1.client w1.sockets.length)) := by
  have hc := onclose_retry env w.client hlt
  refine ⟨_, step_close env w id hlive, ?_, ?_, ?_, ?_, ?_, ?_, ?_, ?_⟩
  · simp [after_client, hc]
  · simp [after_client, hc]
  · rw [hc]; rfl
  · rw [hc]; rfl
  · rw [hc]
  · simp [World.after, hc, World.absorb]
  · simp [World.after, hc, World.absorb]
  · simp [step, World.after, hc, World.absorb, eraseIdx_length_append]

/-- Witness for C2: the first socket of a fresh client closes. -/
theorem close_schedules_one_retry_witness :
    ∃ w1, step plainEnv (start plainEnv) (.wsClose 0) = some w1 ∧
      w1.client.reconnectAttempts = (start plainEnv).client.reconnectAttempts + 1 ∧
      w1.client.maxReconnectAttempts = (start plainEnv).client.maxReconnectAttempts ∧
      timersSet (onclose plainEnv (start plainEnv).client).effects
        = [(.setupWebSocket, (start plainEnv).client.reconnectDelay)] ∧
      openAttempts (onclose plainEnv (start plainEnv).client).effects = 0 ∧
      (onclose plainEnv (start plainEnv).client).raised = none ∧
      w1.timers = (start plainEnv).timers
        ++ [(.setupWebSocket, (start plainEnv).client.reconnectDelay)] ∧
      w1.sockets = (start plainEnv).sockets.set 0 .closed ∧
      step plainEnv w1 (.timeout (start plainEnv).timers.length)
        = some (World.after { w1 with timers := (start plainEnv).timers }
            (setupWebSocket plainEnv w1.client w1.sockets.length)) :=
  close_schedules_one_retry plainEnv (start plainEnv) 0 (by decide) (by decide)

/-- C3 as stated fails: after one `configure` call two chains of sockets share
the counter; when socket 5 closes with the counter at its maximum, the close
sets no timer, but the retry timer of socket 4 is still pending and, when it
fires, the reconnect loop opens socket 6. -/
theorem exhausted_close_reopens :
    ∃ w w1 w2, run plainEnv (start plainEnv) twoChains = some w ∧
      w.client.maxReconnectAttempts ≤ w.client.reconnectAttempts ∧
      w.sockets[5]? = some .connecting ∧
      w.timers = [(.setupWebSocket, 5000)] ∧
      step plainEnv w (.wsClose 5) = some w1 ∧
      w1.client.maxReconnectAttempts ≤ w1.client.reconnectAttempts ∧
      w1.timers = w.timers ∧
      step plainEnv w1 (.timeout 0) = some w2 ∧
      openAttempts w2.history = openAttempts w1.history + 1 ∧
      w2.sockets[6]? = some .connecting :=
  ⟨_, _, _, rfl, by decide, by decide, by decide, rfl, by decide, by decide, rfl, by decide,
    by decide⟩

/-- C3, amended. In every state with `reconnectAttempts >= maxReconnectAttempts`,
a close event on a socket that is not closed yet is delivered, sets no timer,
opens no socket, leaves the fields unchanged, calls `showConnectionError` exactly
once and raises nothing. If after it no timer is pending and no socket is live,
neither the transport nor a timer can deliver anything any more, and every run of
such events leaves the world as it is: no socket is opened again. -/
theorem exhausted_close_is_terminal (env : Env) (w : World) (id : Nat)
    (hlive : (w.sockets[id]?).any ReadyState.live = true)
    (hge : w.client.maxReconnectAttempts ≤ w.client.reconnectAttempts) :
    ∃ w1, step env w (.wsClose id) = some w1 ∧
      w1.client = w.client ∧
      timersSet (onclose env w.client).effects = [] ∧
      openAttempts (onclose env w.client).effects = 0 ∧
      invocations (onclose env w.client).effects = [(.showConnectionError, [])] ∧
      (onclose env w.client).raised = none ∧
      w1.uncaught = w.uncaught ∧
      w1.timers = w.timers ∧
      w1.sockets = w.sockets.set id .closed ∧
      (w1.quiet = true →
        (∀ e, e.isConfigure = false → step env w1 e = none) ∧
        ∀ events w2, (∀ e ∈ events, e.isConfigure = false) →
          run env w1 events = some w2 → events = [] ∧ w2 = w1) := by
  have hc := onclose_exhausted env w.client hge
  refine ⟨_, step_close env w id hlive, ?_, ?_, ?_, ?_, ?_, ?_, ?_, ?_, ?_⟩
  · simp [after_client, hc]
  · rw [hc]; cases hm : env.agentManager <;> simp [showConnectionError, hm, timersSet]
  · rw [hc]; cases hm : env.agentManager <;>
      simp [showConnectionError, hm, openAttempts, Effect.isOpenAttempt]
  · rw [hc]; cases hm : env.agentManager <;> simp [showConnectionError, hm, invocations]
  · rw [hc]
  · simp [after_uncaught, hc]
  · rw [hc]; cases hm : env.agentManager <;>
      simp [World.after, showConnectionError, hm, World.absorb]
  · rw [hc]; cases hm : env.agentManager <;>
      simp [World.after, showConnectionError, hm, World.absorb]
  · intro hq
    refine ⟨fun e he => quiet_step_none env _ e hq he, ?_⟩
    intro events w2 hev hrun
    cases events with
    | nil => exact ⟨rfl, by simpa [run] using hrun.symm⟩
    | cons e rest =>
      have hnone := quiet_step_none env _ e hq (hev e (List.mem_cons_self _ _))
      simp [run, hnone] at hrun

/-- Witness for C3, amended: a fresh client whose first six sockets all failed;
when socket 5 closes the counter is at 5, and afterwards nothing can happen. -/
theorem exhausted_close_is_terminal_witness :
    ∃ w1, step plainEnv (runFailing plainEnv 10 (start plainEnv)) (.wsClose 5) = some w1 ∧
      w1.client = (runFailing plainEnv 10 (start plainEnv)).client ∧
      w1.timers = [] ∧
      w1.quiet = true ∧
      (∀ e, e.isConfigure = false → step plainEnv w1 e = none) ∧
      ∀ events w2, (∀ e ∈ events, e.isConfigure = false) →
        run plainEnv w1 events = some w2 → events = [] ∧ w2 = w1 := by
  obtain ⟨w1, hstep, hclient, _, _, _, _, _, htimers, hsockets, hterminal⟩ :=
    exhausted_close_is_terminal plainEnv (runFailing plainEnv 10 (start plainEnv)) 5
      (by decide) (by decide)
  have hquiet : w1.quiet = true := by
    simp only [World.quiet, htimers, hsockets]
    decide
  exact ⟨w1, hstep, hclient, htimers, hquiet, (hterminal hquiet).1, (hterminal hquiet).2⟩

/-- C4. Start with the counter at 0, the first socket connecting, no timer
pending, and a `WebSocket` constructor that does not throw. If every socket ends
in a close without ever opening, then the counter reads `j` right after the
`j`-th close for every `1 ≤ j ≤ maxReconnectAttempts`, with `j` sockets opened
by then; after `2 * maxReconnectAttempts + 1` events exactly
`maxReconnectAttempts + 1` sockets have been opened in total, nothing is left to
happen, and more events change nothing. -/
theorem failing_transport_open_attempts (env : Env) (w : World)
    (hattempts : w.client.reconnectAttempts = 0)
    (hurl : env.webSocketThrows w.client.wsUrl = false)
    (hsockets : w.sockets = [.connecting])
    (htimers : w.timers = [])
    (hopens : openAttempts w.history = 1) :
    (∀ j, 1 ≤ j → j ≤ w.client.maxReconnectAttempts →
      (runFailing env (2 * j - 1) w).client.reconnectAttempts = j ∧
      openAttempts (runFailing env (2 * j - 1) w).history = j) ∧
    openAttempts (runFailing env (2 * w.client.maxReconnectAttempts + 1) w).history
      = w.client.maxReconnectAttempts + 1 ∧
    (runFailing env (2 * w.client.maxReconnectAttempts + 1) w).quiet = true ∧
    ∀ fuel, 2 * w.client.maxReconnectAttempts + 1 ≤ fuel →
      runFailing env fuel w = runFailing env (2 * w.client.maxReconnectAttempts + 1) w := by
  have h0 : Retrying env 0 w := ⟨hattempts, hurl, by simpa using hsockets, htimers, hopens⟩
  have hlast := retrying_at env w h0 w.client.maxReconnectAttempts (Nat.le_refl _)
  have hfin := retrying_last env _ _ hlast.1 (Nat.le_of_eq hlast.2)
  rw [← runFailing_add] at hfin
  obtain ⟨_, hso, hti, hop⟩ := hfin
  have hquiet : (runFailing env (2 * w.client.maxReconnectAttempts + 1) w).quiet = true := by
    simp [World.quiet, hso, hti, ReadyState.live]
  have hstuck : nextFailure (runFailing env (2 * w.client.maxReconnectAttempts + 1) w)
      = none := by
    simp [nextFailure, hso, hti, firstLive_all_closed]
  refine ⟨?_, hop, hquiet, ?_⟩
  · intro j h1 hj
    obtain ⟨i, rfl⟩ : ∃ i, j = i + 1 := ⟨j - 1, by omega⟩
    obtain ⟨hr, hm⟩ := retrying_at env w h0 i (Nat.le_of_succ_le hj)
    have hlt : i < (runFailing env (2 * i) w).client.maxReconnectAttempts := by
      rw [hm]; exact hj
    obtain ⟨hcl, _, _, hop1⟩ := retrying_close env i _ hr hlt
    rw [← runFailing_add] at hcl hop1
    rw [show 2 * (i + 1) - 1 = 2 * i + 1 by omega]
    exact ⟨by rw [hcl], hop1⟩
  · intro fuel hfuel
    obtain ⟨d, rfl⟩ : ∃ d, fuel = 2 * w.client.maxReconnectAttempts + 1 + d :=
      ⟨fuel - (2 * w.client.maxReconnectAttempts + 1), by omega⟩
    rw [runFailing_add, runFailing_stuck env _ hstuck]

/-- Witness for C4, the scenario of the specification (`maxReconnectAttempts = 2`,
`reconnectDelay = 0`): the counter reads 1 and then 2 at the first two closes,
exactly 3 sockets are opened, and the client then stops. -/
theorem failing_transport_open_attempts_witness :
    (runFailing plainEnv 1 scenario).client.reconnectAttempts = 1 ∧
    (runFailing plainEnv 3 scenario).client.reconnectAttempts = 2 ∧
    openAttempts (runFailing plainEnv 5 scenario).history = 3 ∧
    (runFailing plainEnv 5 scenario).quiet = true ∧
    ∀ fuel, 5 ≤ fuel → runFailing plainEnv fuel scenario = runFailing plainEnv 5 scenario := by
  have h := failing_transport_open_attempts plainEnv scenario rfl rfl rfl rfl (by decide)
  exact ⟨(h.1 1 (by decide) (by decide)).1, (h.1 2 (by decide) (by decide)).1, h.2.1,
    h.2.2.1, h.2.2.2⟩

/-- C5. In every state reached from construction through any sequence of open,
message, error and close events, timer expiries and `configure` calls, the
attempt counter is bounded, `0 ≤ reconnectAttempts ≤ maxReconnectAttempts`, and
`maxReconnectAttempts` is still the 5 of the constructor. -/
theorem reachable_attempts_bounded (env : Env) (w : World) (h : Reachable env w) :
    0 ≤ w.client.reconnectAttempts ∧
      w.client.reconnectAttempts ≤ w.client.maxReconnectAttempts ∧
      w.client.maxReconnectAttempts = 5 := by
  obtain ⟨events, hr⟩ := h
  obtain ⟨h0, h5⟩ := start_counters env
  obtain ⟨hb, hm⟩ := run_bounded env events (start env) w hr (by rw [h0]; exact Nat.zero_le _)
  exact ⟨Nat.zero_le _, hb, hm.trans h5⟩

/-- Witness for C5: the state after two chains of sockets have used up the
retries. -/
theorem reachable_attempts_bounded_witness :
    ∃ w, run plainEnv (start plainEnv) twoChains = some w ∧
      0 ≤ w.client.reconnectAttempts ∧
      w.client.reconnectAttempts ≤ w.client.maxReconnectAttempts ∧
      w.client.maxReconnectAttempts = 5 :=
  ⟨_, rfl, reachable_attempts_bounded plainEnv _ ⟨twoChains, rfl⟩⟩


/-- C6 as stated fails: setupWebSocket has no guard. Called twice in immediate
succession on a fresh client it creates two sockets, and a `configure` call
right after construction, while the first socket is still connecting, opens a
second one. -/
theorem second_start_opens_again :
    openAttempts ((setupWebSocket plainEnv (start plainEnv).client 1).effects
      ++ (setupWebSocket plainEnv (setupWebSocket plainEnv (start plainEnv).client 1).client
            2).effects) = 2 ∧
    (start plainEnv).sockets = [.connecting] ∧
    openAttempts (start plainEnv).history = 1 ∧
    ∃ w, step plainEnv (start plainEnv) (.configure ⟨none, none⟩) = some w ∧
      openAttempts w.history = 2 ∧
      w.sockets = [.closing, .connecting] :=
  ⟨by decide, by decide, by decide, _, rfl, by decide, by decide⟩

/-- C6, amended. Starting the connection is not idempotent: with a `WebSocket`
constructor that does not throw, every call of setupWebSocket opens exactly one
socket and makes it the current one, whatever the state, so two calls in
immediate succession open exactly two; `configure` calls `close()` on the current
socket, if there is one, and then opens exactly one new socket, which the
browser holds in addition to the old ones. -/
theorem every_start_opens_a_socket (env : Env) (c : Client) (config : Config)
    (fresh next : Nat) (w : World)
    (hctor : ∀ url, env.webSocketThrows url = false) :
    openAttempts (setupWebSocket env c fresh).effects = 1 ∧
      (setupWebSocket env c fresh).client.ws = some fresh ∧
      (setupWebSocket env c fresh).raised = none ∧
      openAttempts ((setupWebSocket env c fresh).effects
        ++ (setupWebSocket env (setupWebSocket env c fresh).client next).effects) = 2 ∧
      openAttempts (configure env c config fresh).effects = 1 ∧
      (configure env c config fresh).client.ws = some fresh ∧
      (∀ id, c.ws = some id →
        (configure env c config fresh).effects.head? = some (.wsClose id)) ∧
      ∃ w1, step env w (.configure config) = some w1 ∧
        openAttempts w1.history = openAttempts w.history + 1 ∧
        w1.sockets.length = w.sockets.length + 1 := by
  have hs : ∀ (c : Client) (n : Nat), setupWebSocket env c n
      = ⟨{ c with ws := some n }, [.newWebSocket c.wsUrl n], none⟩ := by
    intro c n
    simp [setupWebSocket, hctor]
  have hc2 := configure_opens env c config fresh hctor
  have hc3 := configure_opens env w.client config w.sockets.length hctor
  refine ⟨?_, ?_, ?_, ?_, ?_, ?_, ?_, _, rfl, ?_, ?_⟩
  · simp [hs, openAttempts, Effect.isOpenAttempt]
  · simp [hs]
  · simp [hs]
  · simp [hs, openAttempts, Effect.isOpenAttempt]
  · rw [hc2]
    cases c.ws <;> simp [openAttempts, Effect.isOpenAttempt]
  · rw [hc2]
  · intro id hid
    rw [hc2, hid]
    rfl
  · rw [after_history, hc3]
    cases w.client.ws <;> simp [openAttempts, Effect.isOpenAttempt]
  · rw [hc3]
    cases w.client.ws <;> simp [World.after, World.absorb, List.length_modify]

/-- Witness for C6, amended: a fresh client and an empty configuration. -/
theorem every_start_opens_a_socket_witness :
    openAttempts (setupWebSocket plainEnv (start plainEnv).client 1).effects = 1 ∧
      openAttempts ((setupWebSocket plainEnv (start plainEnv).client 1).effects
        ++ (setupWebSocket plainEnv (setupWebSocket plainEnv (start plainEnv).client 1).client
              2).effects) = 2 ∧
      openAttempts (configure plainEnv (start plainEnv).client ⟨none, none⟩ 1).effects = 1 ∧
      (configure plainEnv (start plainEnv).client ⟨none, none⟩ 1).effects.head?
        = some (.wsClose 0) ∧
      ∃ w1, step plainEnv (start plainEnv) (.configure ⟨none, none⟩) = some w1 ∧
        openAttempts w1.history = openAttempts (start plainEnv).history + 1 ∧
        w1.sockets.length = (start plainEnv).sockets.length + 1 := by
  have h := every_start_opens_a_socket plainEnv (start plainEnv).client ⟨none, none⟩ 1 2
    (start plainEnv) (fun _ => rfl)
  exact ⟨h.1, h.2.2.2.1, h.2.2.2.2.1, h.2.2.2.2.2.2.1 0 rfl, h.2.2.2.2.2.2.2⟩

/-- C7 as stated fails: when the `WebSocket` constructor throws inside
setupWebSocket, or the error event arrives, nothing is raised, but no retry is
scheduled although `reconnectAttempts < maxReconnectAttempts`. A client built
while the constructor throws has no socket and no timer: nothing will ever
retry. -/
theorem transport_error_schedules_no_retry :
    (start throwingEnv).client.reconnectAttempts
        < (start throwingEnv).client.maxReconnectAttempts ∧
      timersSet (setupWebSocket throwingEnv (start throwingEnv).client 0).effects = [] ∧
      (start throwingEnv).timers = [] ∧
      (start throwingEnv).sockets = [] ∧
      (start throwingEnv).quiet = true ∧
      timersSet (onerror plainEnv (start plainEnv).client).effects = [] ∧
      ∃ w, step plainEnv (start plainEnv) (.wsError 0) = some w ∧ w.timers = [] :=
  ⟨by decide, by decide, by decide, by decide, by decide, by decide, _, rfl, by decide⟩

/-- C7, amended. Every transport error is recovered locally and nothing is
raised: the `onerror` handler and the `catch` around the `WebSocket` constructor
only log the error, change no field, open no socket and set no timer. The
reconnect policy is triggered by the close event: with
`reconnectAttempts < maxReconnectAttempts` the `onclose` handler sets the retry
timer and raises nothing. -/
theorem transport_errors_are_logged (env : Env) (c : Client) (fresh : Nat)
    (hthrow : env.webSocketThrows c.wsUrl = true)
    (hlt : c.reconnectAttempts < c.maxReconnectAttempts) :
    onerror env c = ⟨c, [.consoleError [.lit "WebSocket error:", .errorEvent]], none⟩ ∧
      setupWebSocket env c fresh
        = ⟨c, [.consoleError [.lit "Failed to setup WebSocket:", .err .domException]], none⟩ ∧
      timersSet (onerror env c).effects = [] ∧
      timersSet (setupWebSocket env c fresh).effects = [] ∧
      openAttempts (setupWebSocket env c fresh).effects = 0 ∧
      timersSet (onclose env c).effects = [(.setupWebSocket, c.reconnectDelay)] ∧
      (onclose env c).raised = none := by
  have hs : setupWebSocket env c fresh
      = ⟨c, [.consoleError [.lit "Failed to setup WebSocket:", .err .domException]], none⟩ := by
    simp [setupWebSocket, hthrow]
  refine ⟨rfl, hs, rfl, ?_, ?_, ?_, ?_⟩
  · rw [hs]; rfl
  · rw [hs]; rfl
  · rw [onclose_retry env c hlt]; rfl
  · rw [onclose_retry env c hlt]

/-- Witness for C7, amended: a fresh client in a browser whose `WebSocket`
constructor throws. -/
theorem transport_errors_are_logged_witness :
    onerror throwingEnv (start throwingEnv).client
        = ⟨(start throwingEnv).client,
            [.consoleError [.lit "WebSocket error:", .errorEvent]], none⟩ ∧
      setupWebSocket throwingEnv (start throwingEnv).client 0
        = ⟨(start throwingEnv).client,
            [.consoleError [.lit "Failed to setup WebSocket:", .err .domException]], none⟩ ∧
      timersSet (onerror throwingEnv (start throwingEnv).client).effects = [] ∧
      timersSet (setupWebSocket throwingEnv (start throwingEnv).client 0).effects = [] ∧
      openAttempts (setupWebSocket throwingEnv (start throwingEnv).client 0).effects = 0 ∧
      timersSet (onclose throwingEnv (start throwingEnv).client).effects
        = [(.setupWebSocket, (start throwingEnv).client.reconnectDelay)] ∧
      (onclose throwingEnv (start throwingEnv).client).raised = none :=
  transport_errors_are_logged throwingEnv (start throwingEnv).client 0 rfl (by decide)

/-- C8. The four message types reach their handlers one-to-one: a message object
whose `type` is `agent_status_update` makes exactly one handler call, of
updateAgentStatus with `(data.agentId, data.status)`; `cron_job_executed` exactly
one, of notifyCronExecution with `(data.jobId, data.result)`; `cost_alert` exactly
one, of showCostAlert with `(data.message, data.amount)`; `system_notification`
exactly one, of showSystemNotification with `(data.message, data.priority)`. -/
theorem message_types_reach_their_handlers (env : Env) (c : Client) (d1 d2 d3 d4 : JVal)
    (h1 : d1.prop "type" = .ok (.str "agent_status_update"))
    (h2 : d2.prop "type" = .ok (.str "cron_job_executed"))
    (h3 : d3.prop "type" = .ok (.str "cost_alert"))
    (h4 : d4.prop "type" = .ok (.str "system_notification")) :
    invocations (handleWebSocketMessage env c d1).effects
        = [(.updateAgentStatus, [d1.field "agentId", d1.field "status"])] ∧
      invocations (handleWebSocketMessage env c d2).effects
        = [(.notifyCronExecution, [d2.field "jobId", d2.field "result"])] ∧
      invocations (handleWebSocketMessage env c d3).effects
        = [(.showCostAlert, [d3.field "message", d3.field "amount"])] ∧
      invocations (handleWebSocketMessage env c d4).effects
        = [(.showSystemNotification, [d4.field "message", d4.field "priority"])] := by
  refine ⟨?_, ?_, ?_, ?_⟩
  · simp [handleWebSocketMessage, h1, JVal.isStr, callHandler, invocations,
      invocations_updateAgentStatus]
  · simp [handleWebSocketMessage, h2, JVal.isStr, callHandler, invocations,
      invocations_notifyCronExecution]
  · simp [handleWebSocketMessage, h3, JVal.isStr, callHandler, invocations,
      invocations_showCostAlert]
  · simp [handleWebSocketMessage, h4, JVal.isStr, callHandler, invocations,
      invocations_showSystemNotification]

/-- Witness for C8: one message of each type. -/
theorem message_types_reach_their_handlers_witness :
    invocations (handleWebSocketMessage plainEnv (start plainEnv).client statusMessage).effects
        = [(.updateAgentStatus, [.str "agent-main", .str "idle"])] ∧
      invocations (handleWebSocketMessage plainEnv (start plainEnv).client cronMessage).effects
        = [(.notifyCronExecution, [.str "cron-weather", .obj [("success", .bool true)]])] ∧
      invocations (handleWebSocketMessage plainEnv (start plainEnv).client costMessage).effects
        = [(.showCostAlert, [.str "Daily budget exceeded", .num 12.5])] ∧
      invocations (handleWebSocketMessage plainEnv (start plainEnv).client noticeMessage).effects
        = [(.showSystemNotification, [.str "Maintenance at noon", .str "high"])] :=
  message_types_reach_their_handlers plainEnv (start plainEnv).client
    statusMessage cronMessage costMessage noticeMessage rfl rfl rfl rfl

/-- C9 as stated fails: the decoded value `null`, which `JSON.parse` returns for
the text `null`, is a message whose type is none of the four known ones, and
reading `data.type` from it raises a TypeError that nothing catches. No handler
is called and no field changes, but the call does not complete. -/
theorem null_message_is_not_dropped :
    decodingEnv.jsonParse "null" = some .null ∧
      handleWebSocketMessage decodingEnv (start decodingEnv).client .null
        = ⟨(start decodingEnv).client, [], some .typeError⟩ ∧
      ∃ w1 w2, step decodingEnv (start decodingEnv) (.wsOpen 0) = some w1 ∧
        step decodingEnv w1 (.wsMessage 0 "null") = some w2 ∧
        w2.uncaught = [.typeError] ∧
        w2.client = w1.client :=
  ⟨rfl, rfl, _, _, rfl, rfl, by decide, by decide⟩

/-- C9, amended. A decoded message other than `null` whose `type` is none of
the four known strings (a message without `type`, and a decoded number, string,
boolean or array, included) reaches no handler: handleWebSocketMessage only logs
it, leaves the fields of the client as they are and raises nothing. For the
decoded value `null` it raises a TypeError, with no effect at all and the fields
of the client unchanged. -/
theorem unknown_type_is_dropped (env : Env) (c : Client) (data : JVal)
    (hnull : data ≠ .null) (hundefined : data ≠ .undefined)
    (h1 : (data.field "type").isStr "agent_status_update" = false)
    (h2 : (data.field "type").isStr "cron_job_executed" = false)
    (h3 : (data.field "type").isStr "cost_alert" = false)
    (h4 : (data.field "type").isStr "system_notification" = false) :
    handleWebSocketMessage env c data
        = ⟨c, [.consoleLog [.lit "Unknown WebSocket message:", .val data]], none⟩ ∧
      invocations (handleWebSocketMessage env c data).effects = [] ∧
      (handleWebSocketMessage env c data).client = c ∧
      (handleWebSocketMessage env c data).raised = none ∧
      handleWebSocketMessage env c .null = ⟨c, [], some .typeError⟩ := by
  have h : handleWebSocketMessage env c data
      = ⟨c, [.consoleLog [.lit "Unknown WebSocket message:", .val data]], none⟩ := by
    simp [handleWebSocketMessage, prop_of_present data "type" hnull hundefined, h1, h2, h3, h4]
  refine ⟨h, ?_, ?_, ?_, rfl⟩ <;> rw [h]
  rfl

/-- Witness for C9, amended: a message object without a `type` field. -/
theorem unknown_type_is_dropped_witness :
    handleWebSocketMessage plainEnv (start plainEnv).client untypedMessage
        = ⟨(start plainEnv).client,
            [.consoleLog [.lit "Unknown WebSocket message:", .val untypedMessage]], none⟩ ∧
      invocations
        (handleWebSocketMessage plainEnv (start plainEnv).client untypedMessage).effects = [] ∧
      (handleWebSocketMessage plainEnv (start plainEnv).client untypedMessage).client
        = (start plainEnv).client ∧
      (handleWebSocketMessage plainEnv (start plainEnv).client untypedMessage).raised = none ∧
      handleWebSocketMessage plainEnv (start plainEnv).client .null
        = ⟨(start plainEnv).client, [], some .typeError⟩ :=
  unknown_type_is_dropped plainEnv (start plainEnv).client untypedMessage
    (fun h => by cases h) (fun h => by cases h) rfl rfl rfl rfl

/-- C10. A message of type `cost_alert` with fields `message` m and `amount` a
makes exactly one handler call, showCostAlert with exactly (m, a), and leaves
the fields of the client as they are. With `agentManager` set the one
notification it shows carries m and a unchanged; if m or a cannot be converted to
a string, building the text raises a TypeError inside showCostAlert, after the
call, and nothing is shown. Without `agentManager` nothing is shown and nothing
raised. -/
theorem cost_alert_is_delivered (env : Env) (c : Client) (data m a : JVal)
    (htype : data.prop "type" = .ok (.str "cost_alert"))
    (hm : data.prop "message" = .ok m)
    (ha : data.prop "amount" = .ok a) :
    invocations (handleWebSocketMessage env c data).effects = [(.showCostAlert, [m, a])] ∧
      (handleWebSocketMessage env c data).client = c ∧
      (handleWebSocketMessage env c data).effects
        = .invoke .showCostAlert [m, a] ::
            (if env.agentManager && m.stringable && a.stringable then
              [.showNotification
                [.lit "Cost Alert: ", .val m, .lit " ($", .val a, .lit ")"] "warning"]
            else []) ∧
      (handleWebSocketMessage env c data).raised
        = (if env.agentManager && !(m.stringable && a.stringable) then some .typeError
          else none) := by
  have hfm : data.field "message" = m := by simp [JVal.field, hm]
  have hfa : data.field "amount" = a := by simp [JVal.field, ha]
  have hrun : handleWebSocketMessage env c data
      = callHandler c [] .showCostAlert [m, a] (showCostAlert env m a) := by
    simp [handleWebSocketMessage, htype, JVal.isStr, hfm, hfa]
  rw [hrun]
  refine ⟨?_, rfl, ?_, ?_⟩
  · simp [callHandler, invocations, invocations_showCostAlert]
  · simp [callHandler, showCostAlert_effects]
  · simp [callHandler, showCostAlert_raised]

/-- Witness for C10: `{type:'cost_alert', message:'Daily budget exceeded',
amount:12.5}` delivers ('Daily budget exceeded', 12.5). -/
theorem cost_alert_is_delivered_witness :
    invocations (handleWebSocketMessage plainEnv (start plainEnv).client costMessage).effects
        = [(.showCostAlert, [.str "Daily budget exceeded", .num 12.5])] ∧
      (handleWebSocketMessage plainEnv (start plainEnv).client costMessage).effects
        = [.invoke .showCostAlert [.str "Daily budget exceeded", .num 12.5],
            .showNotification
              [.lit "Cost Alert: ", .val (.str "Daily budget exceeded"), .lit " ($",
                .val (.num 12.5), .lit ")"] "warning"] ∧
      (handleWebSocketMessage plainEnv (start plainEnv).client costMessage).raised = none :=
  have h := cost_alert_is_delivered plainEnv (start plainEnv).client costMessage
    (.str "Daily budget exceeded") (.num 12.5) rfl rfl rfl
  ⟨h.1, h.2.2.1, h.2.2.2⟩

/-- C11 as stated fails: the `onmessage` handler has no `try`. A text that
`JSON.parse` rejects makes it raise a SyntaxError, the text `null` a TypeError
(from `data.type`), and the browser records the exception as uncaught. -/
theorem undecodable_message_raises :
    (onmessage plainEnv (start plainEnv).client "oops").raised = some .syntaxError ∧
      (onmessage decodingEnv (start decodingEnv).client "null").raised = some .typeError ∧
      ∃ w1 w2, step plainEnv (start plainEnv) (.wsOpen 0) = some w1 ∧
        step plainEnv w1 (.wsMessage 0 "oops") = some w2 ∧
        w2.uncaught = [.syntaxError] :=
  ⟨by decide, by decide, _, _, rfl, rfl, by decide⟩

/-- C11, amended. For every inbound text the `onmessage` handler leaves the
fields of the client as they are. A text that is not valid JSON makes it raise a
SyntaxError and the text of JSON `null` a TypeError, in both cases with no effect
at all and no handler called: the message is dropped, but the exception leaves
the handler. A text that decodes to any other value is handed to
handleWebSocketMessage. -/
theorem undecodable_message_is_dropped (env : Env) (c : Client) (bad nul good : String)
    (data : JVal)
    (hbad : env.jsonParse bad = none)
    (hnul : env.jsonParse nul = some .null)
    (hgood : env.jsonParse good = some data) :
    onmessage env c bad = ⟨c, [], some .syntaxError⟩ ∧
      onmessage env c nul = ⟨c, [], some .typeError⟩ ∧
      onmessage env c good = handleWebSocketMessage env c data ∧
      (onmessage env c good).client = c := by
  refine ⟨?_, ?_, ?_, ?_⟩
  · simp [onmessage, hbad]
  · simp [onmessage, hnul, handleWebSocketMessage, JVal.prop]
  · simp [onmessage, hgood]
  · exact onmessage_client env c good

/-- Witness for C11, amended: a text that does not parse, the text `null`, and a
cost alert. -/
theorem undecodable_message_is_dropped_witness :
    onmessage decodingEnv (start decodingEnv).client "oops"
        = ⟨(start decodingEnv).client, [], some .syntaxError⟩ ∧
      onmessage decodingEnv (start decodingEnv).client "null"
        = ⟨(start decodingEnv).client, [], some .typeError⟩ ∧
      onmessage decodingEnv (start decodingEnv).client "alert"
        = handleWebSocketMessage decodingEnv (start decodingEnv).client costMessage ∧
      (onmessage decodingEnv (start decodingEnv).client "alert").client
        = (start decodingEnv).client :=
  undecodable_message_is_dropped decodingEnv (start decodingEnv).client "oops" "null" "alert"
    costMessage rfl rfl rfl

/-- C12 as stated fails: a `cron_job_executed` message that carries `jobId`,
`succeeded` and `detail` but no `result` makes notifyCronExecution read
`result.success` from `undefined`, a TypeError that nothing catches. -/
theorem cron_without_result_raises :
    flatCronMessage.field "result" = .undefined ∧
      (handleWebSocketMessage plainEnv (start plainEnv).client flatCronMessage).raised
        = some .typeError ∧
      invocations
        (handleWebSocketMessage plainEnv (start plainEnv).client flatCronMessage).effects
        = [(.notifyCronExecution, [.str "cron-weather", .undefined])] :=
  ⟨rfl, rfl, rfl⟩

/-- C12, amended. A `system_notification` message never raises. A `cost_alert`
message raises exactly when `agentManager` is set and `message` or `amount`
cannot be converted to a string; a missing field is converted like any other
value. A `cron_job_executed` message raises a TypeError when `result` is missing
or `null`; with any other `result` it is handled without raising exactly when
`jobId` can be converted to a string and `result.success` is truthy or
`result.error` can be converted, and it is then reported as a success when
`result.success` is truthy and as a failure with `result.error` otherwise. An
`agent_status_update` message is handled without raising exactly when `agentId`
can be converted to a string, the card selector is accepted, `status` is a string
if a matched card has a `.status` element, and `status` can be converted to a
string if `agentManager` is set. -/
theorem known_types_raise_only_on_missing_result (env : Env) (c : Client)
    (d1 d2 d3 d4 : JVal)
    (h1 : d1.prop "type" = .ok (.str "agent_status_update"))
    (h2 : d2.prop "type" = .ok (.str "cron_job_executed"))
    (h3 : d3.prop "type" = .ok (.str "cost_alert"))
    (h4 : d4.prop "type" = .ok (.str "system_notification")) :
    (handleWebSocketMessage env c d4).raised = none ∧
      ((handleWebSocketMessage env c d3).raised = none
        ↔ (env.agentManager = true →
            (d3.field "message").stringable = true ∧ (d3.field "amount").stringable = true)) ∧
      ((d2.field "result" = .undefined ∨ d2.field "result" = .null) →
        (handleWebSocketMessage env c d2).raised = some .typeError) ∧
      (d2.field "result" ≠ .undefined → d2.field "result" ≠ .null →
        ((handleWebSocketMessage env c d2).raised = none
          ↔ ((d2.field "jobId").stringable = true ∧
              (((d2.field "result").field "success").truthy = true ∨
                ((d2.field "result").field "error").stringable = true))) ∧
        ((handleWebSocketMessage env c d2).raised = none →
          (handleWebSocketMessage env c d2).effects
            = .invoke .notifyCronExecution [d2.field "jobId", d2.field "result"] ::
              (if env.agentManager then
                [if ((d2.field "result").field "success").truthy then
                    .showNotification
                      [.lit "Cron job ", .val (d2.field "jobId"), .lit " completed successfully"]
                      "success"
                  else
                    .showNotification
                      [.lit "Cron job ", .val (d2.field "jobId"), .lit " failed: ",
                        .val ((d2.field "result").field "error")]
                      "error"]
              else []))) ∧
      ((handleWebSocketMessage env c d1).raised = none
        ↔ ((d1.field "agentId").stringable = true ∧
            ∃ cards, env.querySelectorAll (d1.field "agentId") = some cards ∧
              (cards.any id = true → ∃ s, d1.field "status" = .str s) ∧
              (env.agentManager = true → (d1.field "status").stringable = true))) := by
  have hrun1 : handleWebSocketMessage env c d1
      = callHandler c [] .updateAgentStatus [d1.field "agentId", d1.field "status"]
          (updateAgentStatus env (d1.field "agentId") (d1.field "status")) := by
    simp [handleWebSocketMessage, h1, JVal.isStr]
  have hrun2 : handleWebSocketMessage env c d2
      = callHandler c [] .notifyCronExecution [d2.field "jobId", d2.field "result"]
          (notifyCronExecution env (d2.field "jobId") (d2.field "result")) := by
    simp [handleWebSocketMessage, h2, JVal.isStr]
  have hrun3 : handleWebSocketMessage env c d3
      = callHandler c [] .showCostAlert [d3.field "message", d3.field "amount"]
          (showCostAlert env (d3.field "message") (d3.field "amount")) := by
    simp [handleWebSocketMessage, h3, JVal.isStr]
  refine ⟨?_, ?_, ?_, ?_, ?_⟩
  · cases hm : env.agentManager <;>
      simp [handleWebSocketMessage, h4, JVal.isStr, callHandler, showSystemNotification, hm]
  · rw [hrun3]
    simp only [callHandler, showCostAlert_raised]
    cases env.agentManager <;> cases (d3.field "message").stringable <;>
      cases (d3.field "amount").stringable <;> simp
  · intro hmissing
    rw [hrun2]
    simp [callHandler, notifyCronExecution_missing env _ _ hmissing]
  · intro hundefined hnull
    rw [hrun2]
    simp only [callHandler, notifyCronExecution_present env _ _ hnull hundefined]
    cases ((d2.field "result").field "success").truthy <;>
      cases (d2.field "jobId").stringable <;>
        cases ((d2.field "result").field "error").stringable <;>
          cases env.agentManager <;> simp
  · rw [hrun1]
    simp only [callHandler]
    exact updateAgentStatus_raised env _ _

/-- Witness for C12, amended: one message of each known type, two of them
without payload, and the cron message without `result`. -/
theorem known_types_raise_only_on_missing_result_witness :
    (handleWebSocketMessage plainEnv (start plainEnv).client statusMessage).raised = none ∧
      (handleWebSocketMessage plainEnv (start plainEnv).client cronMessage).raised = none ∧
      (handleWebSocketMessage plainEnv (start plainEnv).client bareCostMessage).raised
        = none ∧
      (handleWebSocketMessage plainEnv (start plainEnv).client bareNoticeMessage).raised
        = none ∧
      (handleWebSocketMessage plainEnv (start plainEnv).client flatCronMessage).raised
        = some .typeError :=
  have h := known_types_raise_only_on_missing_result plainEnv (start plainEnv).client
    statusMessage cronMessage bareCostMessage bareNoticeMessage rfl rfl rfl rfl
  have g := known_types_raise_only_on_missing_result plainEnv (start plainEnv).client
    statusMessage flatCronMessage bareCostMessage bareNoticeMessage rfl rfl rfl rfl
  ⟨h.2.2.2.2.mpr ⟨rfl, [], rfl, fun _ => ⟨"idle", rfl⟩, fun _ => rfl⟩,
    (h.2.2.2.1 (fun e => by cases e) (fun e => by cases e)).1.mpr ⟨rfl, Or.inl rfl⟩,
    h.2.1.mpr (fun _ => ⟨rfl, rfl⟩), h.1, g.2.2.1 (Or.inl rfl)⟩

/-- C16 as stated fails: the class has no `stop()` and never cancels a timer.
After the first socket has closed, its retry timer is pending; `configure` opens
socket 1 and leaves the timer pending, and when the timer fires it opens socket
2, so that two connections are live. -/
theorem teardown_keeps_retry_timer :
    ∃ w1 w2 w3, step plainEnv (start plainEnv) (.wsClose 0) = some w1 ∧
      w1.timers = [(.setupWebSocket, 5000)] ∧
      step plainEnv w1 (.configure ⟨none, none⟩) = some w2 ∧
      w2.timers = [(.setupWebSocket, 5000)] ∧
      step plainEnv w2 (.timeout 0) = some w3 ∧
      openAttempts w3.history = openAttempts w2.history + 1 ∧
      w3.sockets = [.closed, .connecting, .connecting] :=
  ⟨_, _, _, rfl, by decide, rfl, by decide, rfl, by decide, by decide⟩

/-- C16, amended. The connection teardown in `configure` cancels nothing: with a
`WebSocket` constructor that does not throw, `configure` sets and clears no
timer, so every retry timer that was pending is still pending afterwards, and
when such a timer fires it opens one more socket next to the one `configure`
opened. -/
theorem teardown_cancels_nothing (env : Env) (w : World) (config : Config) (k : Nat)
    (timer : Callback × Nat)
    (hctor : ∀ url, env.webSocketThrows url = false)
    (hpending : w.timers[k]? = some timer) :
    ∃ w1 w2, step env w (.configure config) = some w1 ∧
      timersSet (configure env w.client config w.sockets.length).effects = [] ∧
      w1.timers = w.timers ∧
      w1.sockets.length = w.sockets.length + 1 ∧
      step env w1 (.timeout k) = some w2 ∧
      openAttempts w2.history = openAttempts w1.history + 1 ∧
      w2.sockets = w1.sockets ++ [.connecting] := by
  have hc := configure_opens env w.client config w.sockets.length hctor
  have hs : ∀ (c : Client) (n : Nat), setupWebSocket env c n
      = ⟨{ c with ws := some n }, [.newWebSocket c.wsUrl n], none⟩ := by
    intro c n
    simp [setupWebSocket, hctor]
  have htimers : (World.after w (configure env w.client config w.sockets.length)).timers
      = w.timers := by
    rw [hc]
    cases w.client.ws <;> simp [World.after, World.absorb]
  obtain ⟨cb, d⟩ := timer
  cases cb
  refine ⟨World.after w (configure env w.client config w.sockets.length),
    World.after
      { World.after w (configure env w.client config w.sockets.length) with
        timers := w.timers.eraseIdx k }
      (setupWebSocket env (World.after w (configure env w.client config w.sockets.length)).client
        (World.after w (configure env w.client config w.sockets.length)).sockets.length),
    rfl, ?_, htimers, ?_, ?_, ?_, ?_⟩
  · rw [hc]
    cases w.client.ws <;> simp [timersSet]
  · rw [hc]
    cases w.client.ws <;> simp [World.after, World.absorb, List.length_modify]
  · simp [step, htimers, hpending]
  · simp [after_history, hs, openAttempts, Effect.isOpenAttempt, Nat.add_assoc]
  · simp [World.after, hs, World.absorb]

/-- Witness for C16, amended: the retry timer of the first socket of a fresh
client survives an empty `configure` call. -/
theorem teardown_cancels_nothing_witness :
    ∃ w1 w2, step plainEnv (runFailing plainEnv 1 (start plainEnv))
        (.configure ⟨none, none⟩) = some w1 ∧
      timersSet (configure plainEnv (runFailing plainEnv 1 (start plainEnv)).client
        ⟨none, none⟩ (runFailing plainEnv 1 (start plainEnv)).sockets.length).effects = [] ∧
      w1.timers = (runFailing plainEnv 1 (start plainEnv)).timers ∧
      w1.sockets.length = (runFailing plainEnv 1 (start plainEnv)).sockets.length + 1 ∧
      step plainEnv w1 (.timeout 0) = some w2 ∧
      openAttempts w2.history = openAttempts w1.history + 1 ∧
      w2.sockets = w1.sockets ++ [.connecting] :=
  teardown_cancels_nothing plainEnv (runFailing plainEnv 1 (start plainEnv)) ⟨none, none⟩ 0
    (.setupWebSocket, 5000) (fun _ => rfl) (by decide)

/-- C13 as stated fails: nothing marks the result of a read as live or as
fallback. After a failing read the mock agents come back, after a succeeding one
the decoded body, and in neither is there an `isLive` property; a live body
equal to the mock agents gives the caller the very value a failing read gives. -/
theorem snapshot_carries_no_live_mark :
    (getAgents deadNet (start plainEnv).client).value = .ok (getMockAgents deadNet) ∧
      (getMockAgents deadNet).prop "isLive" = .ok .undefined ∧
      (getAgents liveNet (start plainEnv).client).value = .ok (.obj [("agents", .arr [])]) ∧
      (JVal.obj [("agents", .arr [])]).prop "isLive" = .ok .undefined ∧
      (getAgents echoNet (start plainEnv).client).value
        = (getAgents deadNet (start plainEnv).client).value :=
  ⟨rfl, rfl, rfl, rfl, rfl⟩

/-- C13, amended. For every failing read (`fetch` rejected, status not ok, body
not decodable) getAgents resolves to the mock agents and loadAgents stores what
its `catch` builds from the mock data. For every succeeding read getAgents
resolves to the decoded body itself; loadAgents stores the data of the body when
no statement of its `try` raises on it, as for a body whose agents are objects
with primitive `tokens`, `cost`, `status` and `lastActivity` and which carries
`stats` (or numeric costs and an array of cron jobs without `null`), and it
stores the mock data, exactly as after a failing read, when one raises, as for
the body `null`. Nothing marks either result as live or as fallback: the mock
agents have no `isLive`, the body is handed on as it is. -/
theorem snapshot_is_body_or_fallback (net1 net2 : Net) (c : Client) (e : FetchError)
    (status : Nat) (body : JVal) (eng : Engine) (rt : Runtime) (d : Dashboard)
    (failing : DataOutcome) (data : JVal) (entries : List JVal)
    (hfail : fetchJson net1 (c.baseUrl ++ "/agents") = .error e)
    (hlive : net2.fetch (c.baseUrl ++ "/agents") = .response true status (some body))
    (hfailing : failing = .rejected ∨ (∃ b, failing = .response false b)
      ∨ failing = .response true none)
    (hnull : data ≠ .null) (hundefined : data ≠ .undefined)
    (hagents : orEmpty (data.field "agents") = .arr entries)
    (hentries : ∀ a ∈ entries, plainEntry a = true)
    (hstats : (data.field "stats").truthy = true ∨
      ((∀ a ∈ entries, (a.field "cost").truthy = false ∨ (a.field "cost").isNumber = true) ∧
        ∃ jobs, orEmpty (data.field "cronJobs") = .arr jobs ∧
          ∀ j ∈ jobs, j ≠ .null ∧ j ≠ .undefined)) :
    getAgents net1 c = ⟨.ok (getMockAgents net1), [("Failed to fetch agents:", e)]⟩ ∧
      (getMockAgents net1).field "isLive" = .undefined ∧
      getAgents net2 c = ⟨.ok body, []⟩ ∧
      loadAgents eng rt failing d
        = (match loadMock rt d with
          | .error err => .error err
          | .ok d1 => .ok (.mock d1)) ∧
      loadAgents eng rt (.response true (some .null)) d = loadAgents eng rt failing d ∧
      (∀ raw err, loadLive eng rt raw = .error err →
        loadAgents eng rt (.response true (some raw)) d = loadAgents eng rt failing d) ∧
      ∃ enhanced stats,
        loadAgents eng rt (.response true (some data)) d
          = .ok (.live
              { agents := enhanced, cronJobs := orEmpty (data.field "cronJobs"),
                stats := stats }) ∧
        enhanced.map (·.agent) = entries := by
  have hsame : loadAgents eng rt failing d = loadAgents eng rt .rejected d := by
    rcases hfailing with rfl | ⟨b, rfl⟩ | rfl <;> rfl
  obtain ⟨enhanced, stats, hload, hmap, _, _⟩ :=
    loadLive_plain eng rt data entries hnull hundefined hagents hentries hstats
  refine ⟨?_, rfl, ?_, ?_, ?_, ?_, enhanced, stats, loadAgents_live eng rt data d _ hload, hmap⟩
  · simp [getAgents, hfail]
  · simp [getAgents, fetchJson, hlive]
  · rw [hsame]
    rfl
  · rw [hsame]
    rfl
  · intro raw err herr
    rw [hsame]
    exact loadAgents_error eng rt raw d err herr

/-- Witness for C13, amended: a refused request against an answered one; the
body `null` and a body with an empty list of agents. -/
theorem snapshot_is_body_or_fallback_witness :
    getAgents deadNet (start plainEnv).client
        = ⟨.ok (getMockAgents deadNet), [("Failed to fetch agents:", .network)]⟩ ∧
      getAgents liveNet (start plainEnv).client = ⟨.ok (.obj [("agents", .arr [])]), []⟩ ∧
      loadAgents plainEngine plainRuntime (.response true (some .null)) Dashboard.fresh
        = loadAgents plainEngine plainRuntime .rejected Dashboard.fresh ∧
      ∃ enhanced stats,
        loadAgents plainEngine plainRuntime (.response true (some (.obj [("agents", .arr [])])))
            Dashboard.fresh
          = .ok (.live { agents := enhanced, cronJobs := .arr [], stats := stats }) ∧
        enhanced.map (·.agent) = [] :=
  have h := snapshot_is_body_or_fallback deadNet liveNet (start plainEnv).client .network 200
    (.obj [("agents", .arr [])]) plainEngine plainRuntime Dashboard.fresh .rejected
    (.obj [("agents", .arr [])]) [] rfl rfl (Or.inl rfl) (fun h => by cases h)
    (fun h => by cases h) rfl (fun a ha => by cases ha)
    (Or.inr ⟨(fun a ha => by cases ha), [], rfl, (fun j hj => by cases hj)⟩)
  ⟨h.1, h.2.2.1, h.2.2.2.2.1, h.2.2.2.2.2.2⟩

/-- C14. The reads getAgents, getCronJobs and getAnalytics never raise: whether
`fetch` rejects, answers with a status that is not ok, answers with a body that
cannot be decoded, or succeeds, each of them resolves to a value; in the three
failing cases the value is the mock dataset of the read, and the error is only
logged. -/
theorem snapshot_reads_never_raise (net : Net) (c : Client) (timeRange : String)
    (hagents : (∃ status body, net.fetch (c.baseUrl ++ "/agents") = .response false status body)
      ∨ net.fetch (c.baseUrl ++ "/agents") = .rejected
      ∨ ∃ status, net.fetch (c.baseUrl ++ "/agents") = .response true status none)
    (hjobs : (∃ status body,
        net.fetch (c.baseUrl ++ "/cron/jobs") = .response false status body)
      ∨ net.fetch (c.baseUrl ++ "/cron/jobs") = .rejected
      ∨ ∃ status, net.fetch (c.baseUrl ++ "/cron/jobs") = .response true status none)
    (hanalytics : (∃ status body,
        net.fetch (c.baseUrl ++ "/analytics?range=" ++ timeRange) = .response false status body)
      ∨ net.fetch (c.baseUrl ++ "/analytics?range=" ++ timeRange) = .rejected
      ∨ ∃ status,
        net.fetch (c.baseUrl ++ "/analytics?range=" ++ timeRange) = .response true status none) :
    (getAgents net c).value = .ok (getMockAgents net) ∧
      (getCronJobs net c).value = .ok (getMockCronJobs net) ∧
      (getAnalytics net c timeRange).value = .ok getMockAnalytics ∧
      ∀ (net1 : Net) (c1 : Client) (range : String),
        (∃ v, (getAgents net1 c1).value = .ok v) ∧
        (∃ v, (getCronJobs net1 c1).value = .ok v) ∧
        (∃ v, (getAnalytics net1 c1 range).value = .ok v) := by
  refine ⟨?_, ?_, ?_, ?_⟩
  · rcases hagents with ⟨status, body, h⟩ | h | ⟨status, h⟩ <;>
      simp [getAgents, fetchJson, h]
  · rcases hjobs with ⟨status, body, h⟩ | h | ⟨status, h⟩ <;>
      simp [getCronJobs, fetchJson, h]
  · rcases hanalytics with ⟨status, body, h⟩ | h | ⟨status, h⟩ <;>
      simp [getAnalytics, fetchJson, h]
  · intro net1 c1 range
    refine ⟨?_, ?_, ?_⟩
    · unfold getAgents
      cases fetchJson net1 (c1.baseUrl ++ "/agents") <;> exact ⟨_, rfl⟩
    · unfold getCronJobs
      cases fetchJson net1 (c1.baseUrl ++ "/cron/jobs") <;> exact ⟨_, rfl⟩
    · unfold getAnalytics
      cases fetchJson net1 (c1.baseUrl ++ "/analytics?range=" ++ range) <;> exact ⟨_, rfl⟩

/-- Witness for C14: every request is refused. -/
theorem snapshot_reads_never_raise_witness :
    (getAgents deadNet (start plainEnv).client).value = .ok (getMockAgents deadNet) ∧
      (getCronJobs deadNet (start plainEnv).client).value = .ok (getMockCronJobs deadNet) ∧
      (getAnalytics deadNet (start plainEnv).client "week").value = .ok getMockAnalytics :=
  have h := snapshot_reads_never_raise deadNet (start plainEnv).client "week"
    (Or.inr (Or.inl rfl)) (Or.inr (Or.inl rfl)) (Or.inr (Or.inl rfl))
  ⟨h.1, h.2.1, h.2.2.1⟩

/-- C19: the code at a high-volume agent. The mock agent `Research Analyst`, at
90000 tokens on Sonnet, is recommended `claude-opus-4-5`, not Sonnet; once it
runs on `claude-opus-4-5` the same function recommends Sonnet again. -/
theorem high_volume_analyst_is_sent_to_opus :
    gtNum busyAnalyst.tokens 80000 = true ∧
      ModelManager.recommendedModel busyAnalyst = some "claude-opus-4-5" ∧
      ModelManager.recommendedModel { busyAnalyst with model := some "claude-opus-4-5" }
        = some "claude-sonnet-4-20250514" := by
  refine ⟨by decide, ?_, ?_⟩ <;> rfl

/-- C20: the code at an agent on another Opus model id. For
`claude-opus-4-20250514` at 124278 tokens Sonnet is recommended with the reason
`5x lower cost`, but getModelInfo falls back to the cost 0.005, which is not 5
times the 0.003 of Sonnet, and the reported `savingsPercent` is 40.0; on
`claude-opus-4-5` it is 80.0. -/
theorem other_opus_is_not_five_times_sonnet :
    includes "claude-opus-4-20250514" "opus" = true ∧
      gtNum otherOpus.tokens 80000 = true ∧
      ModelManager.recommendedModel otherOpus = some "claude-sonnet-4-20250514" ∧
      ModelManager.costOf otherOpus.model = some 0.005 ∧
      ModelManager.costOf (some "claude-sonnet-4-20250514") = some 0.003 ∧
      (0.005 : ℚ) ≠ 5 * 0.003 ∧
      ModelManager.reportedSavings otherOpus = some (.fixed 1 (some 40)) ∧
      ModelManager.reportedSavings coffeeOperations = some (.fixed 1 (some 80)) := by
  have hgt : gtNum (some 124278) 80000 = true := by decide
  have h1 : includes "claude-opus-4-20250514" "opus" = true := by decide
  have h2 : includes "claude-opus-4-5" "opus" = true := by decide
  refine ⟨h1, hgt, rfl, rfl, rfl, by norm_num, ?_, ?_⟩
  · simp only [ModelManager.reportedSavings, ModelManager.getModelRecommendation,
      ModelManager.sonnetRule, otherOpus, Agent.plain, ModelManager.recommend,
      ModelManager.calculateCostImpact, ModelManager.getModelInfo, ModelManager.models]
    simp [hgt, h1, jsDiv]
    norm_num
  · simp only [ModelManager.reportedSavings, ModelManager.getModelRecommendation,
      ModelManager.sonnetRule, coffeeOperations, Agent.plain, ModelManager.recommend,
      ModelManager.calculateCostImpact, ModelManager.getModelInfo, ModelManager.models]
    simp [hgt, h2, jsDiv]
    norm_num

/-- C18. For every agent list generateRecommendations returns at least 1 and at
most 4 recommendations, and exactly one of them is a cost message: with the
total cost the code computes (the costs added from the left, each sum rounded to
a double), the one for a total above 5, else the one for a total below 1, else
the one saying that usage is well-optimized. -/
theorem recommendations_one_to_four (d : Dashboard) :
    1 ≤ (generateRecommendations d).length ∧
      (generateRecommendations d).length ≤ 4 ∧
      (generateRecommendations d).countP Advice.isCost = 1 ∧
      costAdvice (sumOf Agent.cost d.agents) ∈ generateRecommendations d ∧
      (costAdvice (sumOf Agent.cost d.agents)).text
        = (if JNum.lt (.finite 5) (sumOf Agent.cost d.agents) then
            .costExceeds (.fixed 2 (sumOf Agent.cost d.agents).toOption)
          else if JNum.lt (sumOf Agent.cost d.agents) (.finite 1) then .lowUsage
          else .wellOptimized) ∧
      sumOf Agent.cost d.agents
        = d.agents.foldl (fun sum agent => sum.add (double (agent.cost.getD 0))) (.finite 0) := by
  obtain ⟨h1, h2, h3, h4⟩ := advice_shape _ _ _ _ _ (expensiveAdvice_shape d.agents)
    (inactiveAdvice_shape d.agents) (activeAdvice_shape d.agents) (slowAdvice_shape d.agents)
    (costAdvice_isCost (sumOf Agent.cost d.agents))
  refine ⟨h1, h2, h3, h4, ?_, rfl⟩
  unfold costAdvice
  split_ifs <;> rfl

/-- C17 as stated fails: the id of a clone is built from the clock alone. Two
clones made at the same clock value get the same id, although the ids were
pairwise distinct before. -/
theorem clones_at_one_clock_value_share_an_id :
    (twoAgents.agents.map (·.id)).Nodup ∧
      ((cloneAgent twoAgents "agent:research:001" (some "First") 1700000000000).agents.map
        (·.id)).Nodup ∧
      ¬ ((cloneAgent (cloneAgent twoAgents "agent:research:001" (some "First") 1700000000000)
        "agent:research:001" (some "Second") 1700000000000).agents.map (·.id)).Nodup := by
  refine ⟨by decide, by decide, by decide⟩

/-- C17, amended. If the ids in `agents` are pairwise distinct and no agent has
the id `agent:main:clone:` followed by the clock value of the call, the ids are
still pairwise distinct after cloneAgent, whatever agent is cloned and whatever
the dialog answers. -/
theorem clone_keeps_ids_distinct (d : Dashboard) (agentId : String) (answer : Option String)
    (now : Int)
    (hdistinct : (d.agents.map (·.id)).Nodup)
    (hfresh : ("agent:main:clone:" ++ toString now) ∉ d.agents.map (·.id)) :
    ((cloneAgent d agentId answer now).agents.map (·.id)).Nodup := by
  unfold cloneAgent
  split
  · exact hdistinct
  · split
    · exact hdistinct
    · split_ifs
      · exact hdistinct
      · simp only [List.map_append, List.map_cons, List.map_nil]
        exact List.Nodup.append hdistinct (List.nodup_singleton _)
          (List.disjoint_singleton.mpr hfresh)

/-- Witness for C17, amended: a first clone and then a second one a millisecond
later. -/
theorem clone_keeps_ids_distinct_witness :
    ((cloneAgent (cloneAgent twoAgents "agent:research:001" (some "First") 1700000000000)
      "agent:research:001" (some "Second") 1700000000001).agents.map (·.id)).Nodup :=
  clone_keeps_ids_distinct
    (cloneAgent twoAgents "agent:research:001" (some "First") 1700000000000)
    "agent:research:001" (some "Second") 1700000000001 (by decide) (by decide)

/-- C15 as stated fails: one agent entry that is `null` makes the `try` of
loadAgents raise, and the `catch` replaces the whole snapshot: the result is the
one of a failed request, the six mock agents, and the good entry of the body is
gone. The same happens for the body `{"agents": [5]}`, whose entry cannot take a
property, and for the body `{"agents": [{"cost": "1.5"}]}`, whose total cost
becomes a string without `toFixed`. -/
theorem null_entry_discards_the_snapshot :
    loadAgents plainEngine plainRuntime (.response true (some holedBody)) Dashboard.fresh
        = loadAgents plainEngine plainRuntime .rejected Dashboard.fresh ∧
      loadAgents plainEngine plainRuntime .rejected Dashboard.fresh = .ok (.mock mockDashboard) ∧
      mockDashboard.agents.map (·.name)
        = ["Troy (Main)", "Health Tracker", "Coffee Operations", "Developer Assistant",
            "Fitness App Dev", "Research Analyst"] ∧
      loadAgents plainEngine plainRuntime (.response true (some numberEntryBody)) Dashboard.fresh
        = loadAgents plainEngine plainRuntime .rejected Dashboard.fresh ∧
      loadAgents plainEngine plainRuntime (.response true (some textCostBody)) Dashboard.fresh
        = loadAgents plainEngine plainRuntime .rejected Dashboard.fresh := by
  obtain ⟨e1, h1⟩ := loadLive_unassignable plainEngine plainRuntime holedBody
    [analystEntry, .null] rfl ⟨.null, (by simp), rfl⟩
  obtain ⟨e2, h2⟩ := loadLive_unassignable plainEngine plainRuntime numberEntryBody
    [.num 5] rfl ⟨.num 5, (by simp), rfl⟩
  obtain ⟨e3, h3⟩ := loadLive_text_cost plainEngine plainRuntime textCostBody
    [.obj [("cost", .str "1.5")]] rfl rfl
    ⟨.obj [("cost", .str "1.5")], (by simp), "1.5", rfl, (by decide)⟩
  exact ⟨loadAgents_error _ _ _ _ e1 h1, rfl, (by decide), loadAgents_error _ _ _ _ e2 h2,
    loadAgents_error _ _ _ _ e3 h3⟩

/-- C15, amended. A successfully fetched body is kept when no statement of the
`try` raises on it, and that is so for every body other than `null` whose
`agents`, where present, is an array of objects whose `tokens`, `cost`, `status`
and `lastActivity`, where present, are primitive values, and which either
carries `stats` or has only costs that are numbers or missing and, where
present, an array of cron jobs without `null`. Then missing `agents` or
`cronJobs` become the empty list, every agent of the body is there, enhanced, and
missing `stats` are the ones calculateStats computes, in whose totals an agent
without `tokens` or `cost` counts as 0. The whole snapshot is replaced by the
mock data when an agent entry is `null` or a primitive value, and, for a body
without `stats`, when a cost is a non-empty string. -/
theorem missing_fields_get_defaults (eng : Engine) (rt : Runtime) (d : Dashboard)
    (data holed texty : JVal) (entries bad priced : List JVal)
    (hnull : data ≠ .null) (hundefined : data ≠ .undefined)
    (hagents : orEmpty (data.field "agents") = .arr entries)
    (hentries : ∀ a ∈ entries, plainEntry a = true)
    (hstats : (data.field "stats").truthy = true ∨
      ((∀ a ∈ entries, (a.field "cost").truthy = false ∨ (a.field "cost").isNumber = true) ∧
        ∃ jobs, orEmpty (data.field "cronJobs") = .arr jobs ∧
          ∀ j ∈ jobs, j ≠ .null ∧ j ≠ .undefined))
    (hholed : holed.field "agents" = .arr bad)
    (hbad : ∃ a ∈ bad, a.assignable = false)
    (htexty : texty.field "agents" = .arr priced)
    (hnostats : (texty.field "stats").truthy = false)
    (hpriced : ∃ a ∈ priced, ∃ s, a.field "cost" = .str s ∧ s ≠ "") :
    (∃ enhanced stats,
        loadAgents eng rt (.response true (some data)) d
          = .ok (.live
              { agents := enhanced, cronJobs := orEmpty (data.field "cronJobs"),
                stats := stats }) ∧
        enhanced.map (·.agent) = entries ∧
        ((data.field "agents").truthy = false → enhanced = []) ∧
        ((data.field "cronJobs").truthy = false → orEmpty (data.field "cronJobs") = .arr []) ∧
        ((data.field "stats").truthy = true → stats = .sent (data.field "stats")) ∧
        ((data.field "stats").truthy = false →
          ∃ computed, stats = .computed computed ∧
            Decoded.calculateStats eng (.arr entries) (orEmpty (data.field "cronJobs"))
              = .ok computed ∧
            computed.activeAgents
              = entries.countP (fun a => (a.field "status").isStr "active") ∧
            computed.totalCost
              = .fixed 2 (entries.foldl
                  (fun (sum : JNum) a => sum.add (double (a.field "cost").numberOrZero))
                  (.finite 0)).toOption ∧
            ((∀ a ∈ entries,
                (a.field "tokens").truthy = false ∨ (a.field "tokens").isNumber = true) →
              computed.totalTokens
                = .num (entries.foldl
                    (fun (sum : JNum) a => sum.add (double (a.field "tokens").numberOrZero))
                    (.finite 0))))) ∧
      loadAgents eng rt (.response true (some holed)) d = loadAgents eng rt .rejected d ∧
      loadAgents eng rt (.response true (some texty)) d = loadAgents eng rt .rejected d := by
  obtain ⟨enhanced, stats, hload, hmap, hsent, hcomputed⟩ :=
    loadLive_plain eng rt data entries hnull hundefined hagents hentries hstats
  obtain ⟨e1, h1⟩ := loadLive_unassignable eng rt holed bad hholed hbad
  obtain ⟨e2, h2⟩ := loadLive_text_cost eng rt texty priced htexty hnostats hpriced
  refine ⟨⟨enhanced, stats, loadAgents_live eng rt data d _ hload, hmap, ?_, ?_, hsent,
    hcomputed⟩, loadAgents_error eng rt holed d e1 h1, loadAgents_error eng rt texty d e2 h2⟩
  · intro hmissing
    have hempty : entries = [] := by
      simp only [orEmpty, hmissing] at hagents
      cases hagents
      rfl
    rw [hempty] at hmap
    simpa using hmap
  · intro hmissing
    simp [orEmpty, hmissing]

/-- Witness for C15, amended: a body with two agents, the first without `tokens`
and `cost`, and neither `cronJobs` nor `stats`. The snapshot is kept, the job
list is empty, one agent is active and the totals are those of the second agent
alone; the bodies `{"agents": [5]}` and `{"agents": [{"cost": "1.5"}]}` are
replaced by the mock data. -/
theorem missing_fields_get_defaults_witness :
    (∃ enhanced computed,
        loadAgents plainEngine plainRuntime (.response true (some sparseBody)) Dashboard.fresh
          = .ok (.live
              { agents := enhanced, cronJobs := .arr [], stats := .computed computed }) ∧
        enhanced.map (·.agent) = [bareEntry, analystEntry] ∧
        computed.activeAgents = 1 ∧
        computed.totalCost = .fixed 2 (some (8106479329266893 / 18014398509481984)) ∧
        computed.totalTokens = .num (.finite 90000)) ∧
      loadAgents plainEngine plainRuntime (.response true (some numberEntryBody)) Dashboard.fresh
        = loadAgents plainEngine plainRuntime .rejected Dashboard.fresh ∧
      loadAgents plainEngine plainRuntime (.response true (some textCostBody)) Dashboard.fresh
        = loadAgents plainEngine plainRuntime .rejected Dashboard.fresh := by
  have hplain : ∀ a ∈ [bareEntry, analystEntry], plainEntry a = true := by
    intro a ha
    simp only [List.mem_cons, List.mem_singleton, List.not_mem_nil, or_false] at ha
    rcases ha with rfl | rfl <;> decide
  have hcosts : ∀ a ∈ [bareEntry, analystEntry],
      (a.field "cost").truthy = false ∨ (a.field "cost").isNumber = true := by
    intro a ha
    simp only [List.mem_cons, List.mem_singleton, List.not_mem_nil, or_false] at ha
    rcases ha with rfl | rfl
    · exact Or.inl rfl
    · exact Or.inr rfl
  have htokensOk : ∀ a ∈ [bareEntry, analystEntry],
      (a.field "tokens").truthy = false ∨ (a.field "tokens").isNumber = true := by
    intro a ha
    simp only [List.mem_cons, List.mem_singleton, List.not_mem_nil, or_false] at ha
    rcases ha with rfl | rfl
    · exact Or.inl rfl
    · exact Or.inr rfl
  obtain ⟨⟨enhanced, stats, hload, hmap, _, _, _, hcomputed⟩, hnumber, htext⟩ :=
    missing_fields_get_defaults plainEngine plainRuntime Dashboard.fresh sparseBody
      numberEntryBody textCostBody [bareEntry, analystEntry] [.num 5]
      [.obj [("cost", .str "1.5")]] (fun h => by cases h) (fun h => by cases h) rfl hplain
      (Or.inr ⟨hcosts, [], rfl, (fun j hj => by cases hj)⟩)
      rfl ⟨.num 5, (by simp), rfl⟩ rfl rfl
      ⟨.obj [("cost", .str "1.5")], (by simp), "1.5", rfl, (by decide)⟩
  obtain ⟨computed, rfl, _, hactive, hcost, htokens⟩ := hcomputed rfl
  refine ⟨⟨enhanced, computed, hload, hmap, ?_, ?_, ?_⟩, hnumber, htext⟩
  · rw [hactive]
    decide
  · rw [hcost, sparse_cost_total]
    rfl
  · rw [htokens htokensOk, sparse_tokens_total]

/-- C23: the code after a status change. Right after loadAgents every cached
`statusLevel` is current. toggleAgentStatus on the active agent `Health Tracker`
makes its status `idle` and leaves its `statusLevel` at 3 (getStatusLevel gives
2); cloneAgent on the active agent `Troy (Main)` makes a clone with status
`offline` and the copied `statusLevel` 3 (getStatusLevel gives 1). Sorted by
`status`, the offline clone is then listed before the idle agent
`Coffee Operations`. -/
theorem status_change_leaves_level_stale :
    levelsCurrent mockDashboard = true ∧
      levelsCurrent (toggleAgentStatus mockDashboard "agent:main:telegram:group:-5251868903" true)
        = false ∧
      ((toggleAgentStatus mockDashboard "agent:main:telegram:group:-5251868903" true).agents.map
          fun a => (a.name, a.status, a.statusLevel))[1]?
        = some ("Health Tracker", "idle", some 3) ∧
      getStatusLevel "idle" = 2 ∧
      levelsCurrent (cloneAgent mockDashboard "agent:main:main" (some "Troy Clone") 1700000000000)
        = false ∧
      ((cloneAgent mockDashboard "agent:main:main" (some "Troy Clone") 1700000000000).agents.map
          fun a => (a.name, a.status, a.statusLevel))[6]?
        = some ("Troy Clone", "offline", some 3) ∧
      getStatusLevel "offline" = 1 ∧
      (sortAgents plainCompare
          { cloneAgent mockDashboard "agent:main:main" (some "Troy Clone") 1700000000000 with
            sort := "status" }
          (cloneAgent mockDashboard "agent:main:main" (some "Troy Clone")
            1700000000000).agents).map (fun a => (a.name, a.status))
        = [("Health Tracker", "active"), ("Research Analyst", "active"),
            ("Troy (Main)", "active"), ("Troy Clone", "offline"),
            ("Coffee Operations", "idle"), ("Developer Assistant", "idle"),
            ("Fitness App Dev", "offline")] := by
  refine ⟨by decide, by decide, by decide, by decide, by decide, by decide, by decide, ?_⟩
  decide

/-- C21 as stated fails: the rule for low-volume agents is tried before the rule
for complex reasoning. An agent at 12000 tokens on Sonnet whose purpose names
both a reminder and an analysis is recommended Haiku, not Opus. -/
theorem simple_analysis_is_sent_to_haiku :
    digestAgent.purpose = some "Daily reminder and trend analysis" ∧
      includes "Daily reminder and trend analysis" "analysis" = true ∧
      includes "claude-sonnet-4-20250514" "opus" = false ∧
      ModelManager.recommendedModel digestAgent = some "claude-haiku-3-20240307" := by
  refine ⟨rfl, by decide, by decide, rfl⟩

/-- C21, amended. For every agent whose purpose contains `analysis`, `strategy`
or `complex` and whose model id does not contain `opus`, getModelRecommendation
recommends `claude-opus-4-5`, unless the token count is below 20000 and the
purpose also contains `reminder` or `simple`: then it recommends
`claude-haiku-3-20240307`. -/
theorem complex_purpose_is_sent_to_opus (agent : Agent) (purpose model : String)
    (hpurpose : agent.purpose = some purpose)
    (hmodel : agent.model = some model)
    (hcomplex : includes purpose "analysis" = true ∨ includes purpose "strategy" = true
      ∨ includes purpose "complex" = true)
    (hnot : includes model "opus" = false) :
    ModelManager.recommendedModel agent
      = some (if ltNum agent.tokens 20000
            && (includes purpose "reminder" || includes purpose "simple") then
          "claude-haiku-3-20240307"
        else "claude-opus-4-5") := by
  obtain ⟨i1, h1⟩ := recommend_ok agent model "claude-haiku-3-20240307"
    "Low complexity tasks - Haiku is 2x faster and cheaper" hmodel
  obtain ⟨i2, h2⟩ := recommend_ok agent model "claude-opus-4-5"
    "Complex reasoning tasks benefit from Opus capabilities" hmodel
  have hany : (includes purpose "analysis" || (includes purpose "strategy"
      || includes purpose "complex")) = true := by
    rcases hcomplex with h | h | h <;> simp [h]
  cases hhigh : gtNum agent.tokens 80000 <;>
    cases hlow : ltNum agent.tokens 20000 <;>
      cases hr : includes purpose "reminder" <;>
        cases hs : includes purpose "simple" <;>
          simp [ModelManager.recommendedModel, ModelManager.getModelRecommendation,
            ModelManager.sonnetRule, ModelManager.haikuRule, ModelManager.opusRule,
            ModelManager.purposeIncludes, hhigh, hlow, hr, hs, hpurpose, hmodel, hnot, hany,
            h1, h2]

/-- Witness for C21, amended: the mock agent `Research Analyst`, at 45123
tokens on Sonnet, is recommended Opus, and so is the same agent at 90000
tokens. -/
theorem complex_purpose_is_sent_to_opus_witness :
    ModelManager.recommendedModel researchAnalyst = some "claude-opus-4-5" ∧
      ModelManager.recommendedModel busyAnalyst = some "claude-opus-4-5" :=
  ⟨complex_purpose_is_sent_to_opus researchAnalyst
      "Market research, data analysis, and trend identification" "claude-sonnet-4-20250514"
      rfl rfl (Or.inl (by decide)) (by decide),
    complex_purpose_is_sent_to_opus busyAnalyst
      "Market research, data analysis, and trend identification" "claude-sonnet-4-20250514"
      rfl rfl (Or.inl (by decide)) (by decide)⟩

/-- C22. For every agent with a token count below 20000 whose purpose contains
`reminder` or `simple`, getModelRecommendation recommends
`claude-haiku-3-20240307`; and for every agent that matches none of the three
rules (not above 80000 tokens on a model id containing `opus`, not below 20000
tokens with such a purpose, not a purpose containing `analysis`, `strategy` or
`complex` on a model id without `opus`) it returns `null`. Both agents carry a
purpose and a model id. -/
theorem low_volume_simple_is_sent_to_haiku (a b : Agent)
    (purposeA modelA purposeB modelB : String)
    (hpa : a.purpose = some purposeA) (hma : a.model = some modelA)
    (hlow : ltNum a.tokens 20000 = true)
    (hsimple : includes purposeA "reminder" = true ∨ includes purposeA "simple" = true)
    (hpb : b.purpose = some purposeB) (hmb : b.model = some modelB)
    (hno1 : ¬ (gtNum b.tokens 80000 = true ∧ includes modelB "opus" = true))
    (hno2 : ¬ (ltNum b.tokens 20000 = true
      ∧ (includes purposeB "reminder" = true ∨ includes purposeB "simple" = true)))
    (hno3 : ¬ ((includes purposeB "analysis" = true ∨ includes purposeB "strategy" = true
        ∨ includes purposeB "complex" = true) ∧ includes modelB "opus" = false)) :
    ModelManager.recommendedModel a = some "claude-haiku-3-20240307" ∧
      ModelManager.getModelRecommendation b = .ok none := by
  constructor
  · obtain ⟨i1, h1⟩ := recommend_ok a modelA "claude-haiku-3-20240307"
      "Low complexity tasks - Haiku is 2x faster and cheaper" hma
    have hhigh := low_is_not_high a.tokens hlow
    have hany : (includes purposeA "reminder" || includes purposeA "simple") = true := by
      rcases hsimple with h | h <;> simp [h]
    simp [ModelManager.recommendedModel, ModelManager.getModelRecommendation,
      ModelManager.sonnetRule, ModelManager.haikuRule, ModelManager.purposeIncludes,
      hhigh, hlow, hpa, hany, h1]
  · cases hg : gtNum b.tokens 80000 <;> cases hl : ltNum b.tokens 20000 <;>
      cases ho : includes modelB "opus" <;>
        cases hr : includes purposeB "reminder" <;> cases hs : includes purposeB "simple" <;>
          cases ha : includes purposeB "analysis" <;>
            cases ht : includes purposeB "strategy" <;>
              cases hc : includes purposeB "complex" <;>
                simp_all [ModelManager.getModelRecommendation, ModelManager.sonnetRule,
                  ModelManager.haikuRule, ModelManager.opusRule, ModelManager.purposeIncludes]

/-- Witness for C22: a reminder agent at 8000 tokens is recommended Haiku, and
the mock agent `Coffee Operations` as cloned, at 0 tokens on `claude-opus-4-5`
with a purpose without any of the words, gets no recommendation. -/
theorem low_volume_simple_is_sent_to_haiku_witness :
    ModelManager.recommendedModel reminderAgent = some "claude-haiku-3-20240307" ∧
      ModelManager.getModelRecommendation { coffeeOperations with tokens := some 0 }
        = .ok none :=
  low_volume_simple_is_sent_to_haiku reminderAgent { coffeeOperations with tokens := some 0 }
    "Daily reminder delivery" "claude-sonnet-4-20250514"
    "Boundaries Coffee business operations and customer service" "claude-opus-4-5"
    rfl rfl (by decide) (Or.inl (by decide)) rfl rfl (by decide) (by decide) (by decide)

/-- C24: the code at an agent without tokens. The clone cloneAgent makes of the
mock agent `Research Analyst` has 0 tokens; getModelRecommendation recommends
Opus for it and calls calculateCostImpact with 0 tokens, where `currentCost` is
0 and `savings / currentCost` is 0 / 0: the reported `savingsPercent` is NaN. -/
theorem clone_without_tokens_reports_nan :
    (cloneAgent { Dashboard.fresh with agents := [researchAnalyst] } "agent:research:001"
        (some "Analyst Clone") 1700000000000).agents = [researchAnalyst, analystClone] ∧
      analystClone.tokens = some 0 ∧
      ModelManager.recommendedModel analystClone = some "claude-opus-4-5" ∧
      (ModelManager.calculateCostImpact analystClone.model (some "claude-opus-4-5")
          analystClone.tokens).toOption.map (fun impact => impact.currentCost)
        = some (.fixed 2 (some 0)) ∧
      jsDiv 0 0 = none ∧
      ModelManager.reportedSavings analystClone = some (.fixed 1 none) := by
  have hlt : ltNum (some 0) 20000 = true := by decide
  have hgt : gtNum (some 0) 80000 = false := by decide
  have h1 : includes "Market research, data analysis, and trend identification" "reminder"
      = false := by decide
  have h2 : includes "Market research, data analysis, and trend identification" "simple"
      = false := by decide
  have h3 : includes "Market research, data analysis, and trend identification" "analysis"
      = true := by decide
  have h4 : includes "claude-sonnet-4-20250514" "opus" = false := by decide
  refine ⟨rfl, rfl, rfl, ?_, ?_, ?_⟩
  · simp [ModelManager.calculateCostImpact, ModelManager.getModelInfo, ModelManager.models,
      analystClone, researchAnalyst, Agent.plain, Except.toOption]
  · simp [jsDiv]
  · simp only [ModelManager.reportedSavings, ModelManager.getModelRecommendation,
      ModelManager.sonnetRule, ModelManager.haikuRule, ModelManager.opusRule,
      ModelManager.purposeIncludes, analystClone, researchAnalyst, Agent.plain,
      ModelManager.recommend, ModelManager.calculateCostImpact, ModelManager.getModelInfo,
      ModelManager.models]
    simp [hlt, hgt, h1, h2, h3, h4, jsDiv]

/-- C25: the code at five alerts of which two are listed. For three agents above
the limit checkAlerts returns one high, one medium and three low alerts; the
banner lists the high one and then the medium one, so three alerts are not
listed, but its last line says `+2 more alerts`: the number is the length of
the list minus 3, not minus the number of alerts listed. The banner is `null`
exactly for the empty list. -/
theorem banner_more_count_ignores_hidden_alerts :
    (checkAlerts CostAlerts.fresh costlyAgents).2.map (fun a => (a.title, a.priority))
        = [("Daily Budget Exceeded", "high"), ("Monthly Budget Forecast", "medium"),
            ("Expensive Agent: Coffee Operations", "low"),
            ("Expensive Agent: Research Analyst", "low"),
            ("Expensive Agent: Trend Analyst", "low")] ∧
      (createAlertBanner (checkAlerts CostAlerts.fresh costlyAgents).2).map
          (fun b => (b.displayAlerts.map (·.title), b.more))
        = some (["Daily Budget Exceeded", "Monthly Budget Forecast"], some 2) ∧
      (checkAlerts CostAlerts.fresh costlyAgents).2.length - 2 = 3 ∧
      ∀ alerts, createAlertBanner alerts = none ↔ alerts = [] := by
  have halerts : (checkAlerts CostAlerts.fresh costlyAgents).2.map
      (fun a => (a.title, a.priority))
      = [("Daily Budget Exceeded", "high"), ("Monthly Budget Forecast", "medium"),
          ("Expensive Agent: Coffee Operations", "low"),
          ("Expensive Agent: Research Analyst", "low"),
          ("Expensive Agent: Trend Analyst", "low")] := by
    have hdaily : dailyAlerts CostAlerts.fresh (.finite (1914029841632461 / 281474976710656))
        = [{ type := "danger", title := "Daily Budget Exceeded",
             message := .currentDailyCost
               (.fixed 2 (some (1914029841632461 / 281474976710656)))
               CostAlerts.fresh.dailyBudget,
             action := "Optimize expensive agents", priority := "high", agentId := none }] := by
      simp only [dailyAlerts, fresh_daily, JNum.lt, JNum.toOption]
      norm_num
    have hmonthly : monthlyAlerts CostAlerts.fresh
        ((JNum.finite (1914029841632461 / 281474976710656)).mul (.finite 30))
        = [{ type := "warning", title := "Monthly Budget Forecast",
             message := .projectedMonthlyCost
               (.fixed 2 (some (7177611906121729 / 35184372088832)))
               CostAlerts.fresh.monthlyBudget,
             action := "Consider model optimization", priority := "medium",
             agentId := none }] := by
      simp only [monthlyAlerts, fresh_monthly, JNum.mul, costly_month, JNum.lt, JNum.toOption]
      norm_num
    rw [checkAlerts_parts, costly_total, hdaily, hmonthly]
    simp [agentAlerts, inactiveAlerts, costlyAgents, gtNum, CostAlerts.fresh, coffeeOperations,
      busyAnalyst, researchAnalyst, Agent.plain]
    norm_num
  refine ⟨halerts, ?_, ?_, ?_⟩
  · have hlen := congrArg List.length halerts
    simp only [List.length_map] at hlen
    rw [banner_view, halerts, hlen]
    decide
  · have hlen := congrArg List.length halerts
    simp only [List.length_map] at hlen
    rw [hlen]
    rfl
  · intro alerts
    cases alerts with
    | nil => simp [createAlertBanner]
    | cons a rest => simp [createAlertBanner]

/-- C26 as stated fails: the total checkAlerts compares with the budget is not
the exact sum of the costs but what the additions leave after each has been
rounded to a double. For three agents whose costs are the doubles written 0.8,
2.02 and 2.18 the exact sum is above the daily budget of 5, but the total the
code computes is exactly 5: the alert is `Daily Budget Warning`, not `Daily
Budget Exceeded`. The other way round, the costs written 0.66, 1.12, 1.36 and
1.86 add up to exactly 5 as written, but the total the code computes is above 5
and the alert is `Daily Budget Exceeded`. -/
theorem rounded_total_misses_the_budget :
    thriftyAgents.map (fun a => a.cost)
        = [some (3602879701896397 / 4503599627370496),
            some (4548635623644201 / 2251799813685248),
            some (4908923593833841 / 2251799813685248)] ∧
      CostAlerts.fresh.dailyBudget < (thriftyAgents.map fun a => a.cost.getD 0).sum ∧
      totalDailyCost thriftyAgents = .finite 5 ∧
      (checkAlerts CostAlerts.fresh thriftyAgents).2.map (·.title)
        = ["Daily Budget Warning", "Monthly Budget Forecast",
            "Expensive Agent: Research Analyst", "Expensive Agent: Trend Analyst"] ∧
      (roundAgents.map fun a => a.cost.getD 0).sum = CostAlerts.fresh.dailyBudget ∧
      totalDailyCost roundAgents = .finite (5629499534213121 / 1125899906842624) ∧
      (checkAlerts CostAlerts.fresh roundAgents).2.map (·.title)
        = ["Daily Budget Exceeded", "Monthly Budget Forecast"] := by
  have hcosts : thriftyAgents.map (fun a => a.cost)
      = [some (3602879701896397 / 4503599627370496),
          some (4548635623644201 / 2251799813685248),
          some (4908923593833841 / 2251799813685248)] := by
    show [some (nearestDouble 0.8), some (nearestDouble 2.02), some (nearestDouble 2.18)] = _
    rw [near_080, near_202, near_218]
  have hvalues : (thriftyAgents.map fun a => a.cost.getD 0)
      = [3602879701896397 / 4503599627370496, 4548635623644201 / 2251799813685248,
          4908923593833841 / 2251799813685248] := by
    show [nearestDouble 0.8, nearestDouble 2.02, nearestDouble 2.18] = _
    rw [near_080, near_202, near_218]
  refine ⟨hcosts, ?_, thrifty_total, ?_, ?_, round_total, ?_⟩
  · rw [hvalues]
    norm_num [CostAlerts.fresh]
  · have hdaily : (dailyAlerts CostAlerts.fresh (.finite 5)).map (·.title)
        = ["Daily Budget Warning"] := by
      unfold dailyAlerts
      rw [fresh_warning, fresh_daily]
      simp only [JNum.lt]
      norm_num
    have hmonthly : (monthlyAlerts CostAlerts.fresh ((JNum.finite 5).mul (.finite 30))).map
        (·.title) = ["Monthly Budget Forecast"] := by
      simp only [monthlyAlerts, fresh_monthly, JNum.mul, three_month, JNum.lt]
      norm_num
    have hagents : (agentAlerts CostAlerts.fresh thriftyAgents).map (·.title)
        = ["Expensive Agent: Research Analyst", "Expensive Agent: Trend Analyst"] := by
      show (agentAlerts CostAlerts.fresh
        [{ coffeeOperations with cost := some (nearestDouble 0.8) },
          { busyAnalyst with cost := some (nearestDouble 2.02) },
          { researchAnalyst with
            id := "agent:research:002"
            name := "Trend Analyst"
            cost := some (nearestDouble 2.18) }]).map (·.title) = _
      rw [near_080, near_202, near_218]
      simp [agentAlerts, gtNum, CostAlerts.fresh, coffeeOperations, busyAnalyst,
        researchAnalyst, Agent.plain]
      norm_num
    have hinactive : inactiveAlerts thriftyAgents = [] := by
      simp [inactiveAlerts, thriftyAgents, coffeeOperations, busyAnalyst, researchAnalyst,
        Agent.plain]
    rw [checkAlerts_parts, thrifty_total, hinactive]
    simp only [List.map_append, hdaily, hmonthly, hagents, List.map_nil, List.append_nil]
    rfl
  · norm_num [roundAgents, CostAlerts.fresh]
  · have hdaily : (dailyAlerts CostAlerts.fresh
        (.finite (5629499534213121 / 1125899906842624))).map (·.title)
        = ["Daily Budget Exceeded"] := by
      simp only [dailyAlerts, fresh_daily, JNum.lt]
      norm_num
    have hmonthly : (monthlyAlerts CostAlerts.fresh
        ((JNum.finite (5629499534213121 / 1125899906842624)).mul (.finite 30))).map (·.title)
        = ["Monthly Budget Forecast"] := by
      simp only [monthlyAlerts, fresh_monthly, JNum.mul, four_month, JNum.lt]
      norm_num
    have hagents : agentAlerts CostAlerts.fresh roundAgents = [] := by
      simp [agentAlerts, roundAgents, gtNum, CostAlerts.fresh, coffeeOperations, busyAnalyst,
        researchAnalyst, reminderAgent, Agent.plain]
      norm_num
    have hinactive : inactiveAlerts roundAgents = [] := by
      simp [inactiveAlerts, roundAgents, coffeeOperations, busyAnalyst, researchAnalyst,
        reminderAgent, Agent.plain]
    rw [checkAlerts_parts, round_total, hagents, hinactive]
    simp only [List.map_append, hdaily, hmonthly, List.map_nil, List.append_nil]
    rfl

/-- C26, amended. With `F` the total the code computes (the costs added one
after the other from 0, each sum rounded to the nearest double; NaN when an agent
has no cost): checkAlerts emits the alert `Daily Budget Exceeded` exactly once
if `F > dailyBudget` and not at all otherwise, the alert `Daily Budget Warning`
exactly once if `F > dailyBudget * 0.8`, the product rounded, and not
`F > dailyBudget`, and not at all otherwise, never both; the alerts that carry an
agent id are one `Expensive Agent` alert for every agent with
`cost > agentMaxCost`, in the order of the agents; and the list returned is
stored in `notifications`. -/
theorem budget_alerts_follow_total (ca : CostAlerts) (agents : List Agent) :
    totalDailyCost agents
        = agents.foldl
            (fun sum agent =>
              sum.add (match agent.cost with
                | some cost => double cost
                | none => .nan))
            (.finite 0) ∧
      (checkAlerts ca agents).2.countP (fun a => a.title == "Daily Budget Exceeded")
        = (if JNum.lt (double ca.dailyBudget) (totalDailyCost agents) then 1 else 0) ∧
      (checkAlerts ca agents).2.countP (fun a => a.title == "Daily Budget Warning")
        = (if JNum.lt ((double ca.dailyBudget).mul (double 0.8)) (totalDailyCost agents)
              && !JNum.lt (double ca.dailyBudget) (totalDailyCost agents) then 1
          else 0) ∧
      (checkAlerts ca agents).2.countP (fun a => a.title == "Daily Budget Exceeded")
        + (checkAlerts ca agents).2.countP (fun a => a.title == "Daily Budget Warning") ≤ 1 ∧
      (checkAlerts ca agents).2.filterMap (·.agentId)
        = (agents.filter fun a => gtNum a.cost ca.agentMaxCost).map (·.id) ∧
      ((checkAlerts ca agents).2.filter fun a => a.agentId.isSome).map (·.title)
        = (agents.filter fun a => gtNum a.cost ca.agentMaxCost).map
            (fun a => "Expensive Agent: " ++ a.name) ∧
      (checkAlerts ca agents).1.notifications = (checkAlerts ca agents).2 := by
  have hids := agentAlerts_ids ca agents
  have hex := agentAlerts_titles ca agents "Daily Budget Exceeded" (by decide)
  have hwarn := agentAlerts_titles ca agents "Daily Budget Warning" (by decide)
  obtain ⟨n1, n2, n3, n4, n5, n6⟩ := alerts_without_id ca agents (totalDailyCost agents)
    ((totalDailyCost agents).mul (.finite 30))
  have hcount1 : (checkAlerts ca agents).2.countP (fun a => a.title == "Daily Budget Exceeded")
      = (if JNum.lt (double ca.dailyBudget) (totalDailyCost agents) then 1 else 0) := by
    rw [checkAlerts_parts, List.countP_append, List.countP_append, List.countP_append,
      dailyAlerts_exceeded, monthlyAlerts_other _ _ _ (by decide), hex,
      inactiveAlerts_other _ _ (by decide)]
    simp
  have hcount2 : (checkAlerts ca agents).2.countP (fun a => a.title == "Daily Budget Warning")
      = (if JNum.lt ((double ca.dailyBudget).mul (double 0.8)) (totalDailyCost agents)
            && !JNum.lt (double ca.dailyBudget) (totalDailyCost agents) then 1
        else 0) := by
    rw [checkAlerts_parts, List.countP_append, List.countP_append, List.countP_append,
      dailyAlerts_warning, monthlyAlerts_other _ _ _ (by decide), hwarn,
      inactiveAlerts_other _ _ (by decide)]
    simp
  refine ⟨rfl, hcount1, hcount2, ?_, ?_, ?_, rfl⟩
  · rw [hcount1, hcount2]
    cases JNum.lt (double ca.dailyBudget) (totalDailyCost agents) <;>
      cases JNum.lt ((double ca.dailyBudget).mul (double 0.8)) (totalDailyCost agents) <;>
        simp
  · rw [checkAlerts_parts]
    simp [List.filterMap_append, n1, n2, n3, hids.1]
  · rw [checkAlerts_parts]
    simp only [List.filter_append, n4, n5, n6, hids.2.2, List.nil_append, List.append_nil]
    exact hids.2.1

end OpenClaw
